import Mathlib

/-!
# Vogue: game-mode, camera-zoom and interaction logic of `VogueGame`

A shallow embedding of the orchestrator code in `source/VogueGame.cpp` and
`source/VogueInput.cpp`.

* The members of `VogueGame` that the embedded functions read or write are fields of the
  structure `VogueGame`, under the names the source gives them.
* `float` and `double` values are exact rationals.
* Every call on a collaborator object (managers, GUI pages, window, player, mutex) is
  recorded, in program order, in the field `calls`.
* Collaborators whose implementation is outside the two source files are either small
  records with the flags the source reads back, or functions supplied through `Env`.
-/

namespace Vogue

/-! ## Enumerations -/

/-- Game modes, `GameMode_Loading`, `GameMode_FrontEnd`, `GameMode_Game`, `GameMode_Debug`. -/
inductive GameMode
  | Loading | FrontEnd | Game | Debug
  deriving DecidableEq

/-- Modelled from the spec: the `CameraMode` enumeration is declared in `VogueGame.h`, which
is not among the source files; the constructors are the camera states the spec lists. -/
inductive CameraMode
  | Debug | Frontend | MouseRotate | AutoCamera | FirstPerson | NPCDialog | EnemyTarget
  | PaperdollRotate
  deriving DecidableEq

/-- Modelled from the spec: the frontend screens named in the source files
(`FrontendScreen_None`, `_MainMenu`, `_PauseMenu`, `_QuitPopup`, `_Credits`); the enumeration
itself is declared outside the source files. -/
inductive FrontendScreen
  | None | MainMenu | PauseMenu | QuitPopup | Credits
  deriving DecidableEq

/-- Modelled from the spec: the item types named in the source files; the enumeration `eItem`
is declared outside the source files. -/
inductive eItem
  | None | DroppedItem | Anvil | Furnace | Chest
  | CopperVein | IronVein | SilverVein | GoldVein | CopperOre
  deriving DecidableEq

/-- Modelled from the spec: the biomes named in `SetupDataForGame`. -/
inductive Biome
  | None | GrassLand | Desert | AshLand | Tundra
  deriving DecidableEq

/-- Modelled from the spec: the enemy types named in `SetupDataForGame`. -/
inductive eEnemyType
  | None | GreenSlime | RedSlime | BlueSlime | YellowSlime | Bee | Mimic
  | NormalSkeleton | RangedSkeleton | MeleeSkeleton | MageSkeleton | Mummy
  | WalkingZombie | CrawlingZombie | IronGiant | Bat
  deriving DecidableEq

/-- The modal GUI pages, the action bar and the HUD owned by the orchestrator. -/
inductive GuiPage
  | Inventory | Character | Loot | Crafting | Quest | ActionBar | HUD
  deriving DecidableEq

/-! ## Vectors -/

/-- A `vec3` with exact rational components. -/
structure Vec3 where
  x : ℚ
  y : ℚ
  z : ℚ
  deriving DecidableEq

namespace Vec3

/-- Component-wise sum. -/
def add (a b : Vec3) : Vec3 := ⟨a.x + b.x, a.y + b.y, a.z + b.z⟩

/-- Component-wise difference. -/
def sub (a b : Vec3) : Vec3 := ⟨a.x - b.x, a.y - b.y, a.z - b.z⟩

/-- Product of a vector with a scalar, `v * k`. -/
def scale (a : Vec3) (k : ℚ) : Vec3 := ⟨a.x * k, a.y * k, a.z * k⟩

/-- Dot product. -/
def dot (a b : Vec3) : ℚ := a.x * b.x + a.y * b.y + a.z * b.z

/-- Cross product. -/
def cross (a b : Vec3) : Vec3 :=
  ⟨a.y * b.z - a.z * b.y, a.z * b.x - a.x * b.z, a.x * b.y - a.y * b.x⟩

/-- World up, `vec3(0.0f, 1.0f, 0.0f)`. -/
def up : Vec3 := ⟨0, 1, 0⟩

end Vec3

/-! ## Collaborator calls -/

/-- One call on a collaborator object, as made by the embedded functions. The type has no
derived `DecidableEq` (the derived instance for this many constructors is a very deep term);
facts about membership in call lists are proved with `simp`. -/
inductive Call
  /- GUI toolkit and pages -/
  | pageLoad (p : GuiPage) (loadDelay : Bool) (loadDelayTime : ℚ)
  | pageUnload (p : GuiPage)
  | guiResetFocus
  | questGUISetQuestData
  | craftingSetRecipesForItem (t : eItem)
  | craftingSetInteractionitem
  | lootLoadItems
  /- managers -/
  | clearItems | clearItemSpawners | clearNPCs | clearEnemies | clearEnemySpawners
  | clearProjectiles | inventoryReset | clearQuests | clearJournal
  | resetPlayer
  | setWaterHeight (h : ℚ)
  | initializeChunkCreation
  /- population of game data -/
  | createItem (t : eItem)
  | itemSetInteractionPositionOffset (offset : Vec3)
  | getRandomLootItem
  | chestAddLootItem
  | createItemSpawner
  | itemSpawnerSetSpawningParams (numToSpawn : Nat) (biome : Biome)
  | itemSpawnerAddItemType (t : eItem)
  | createNPC
  | npcSetForwards | npcSetTargetForwards | npcSetCombatType
  | addSafeZone | addTown
  | createEnemySpawner
  | enemySpawnerSetSpawningParams (numToSpawn : Nat) (biome : Biome)
  | enemySpawnerAddEnemyType (t : eEnemyType)
  | createQuest
  | questAddObjective
  | createEquipmentItemFromType
  | createInventoryItemForCrafting (t : eItem) (quantity : Nat)
  | questSetReward
  | questExport
  | addQuestJournalEntry
  /- interaction -/
  | mutexLock | mutexUnlock
  | playerStopMoving
  | playerSetMoveToTargetPosition (p : Vec3)
  | playerSetLookAtTargetAfterMoveToPosition (p : Vec3)
  | itemInteract
  | windowTurnCursorOn (resetCursorPosition forceOn : Bool)
  | windowTurnCursorOff (forceOff : Bool)
  | letterBoxInterpolation (target : ℚ)
  | savePreviousCameraMode
  /- enemy targeting and camera-mode restore -/
  | getCursorEnemy (cursorX cursorY : Int)
  | restorePreviousCameraMode
  | initializeCameraRotation
  /- input forwarding and one-shot key actions -/
  | guiKeyPressed (key mods : Int)
  | guiKeyReleased (key mods : Int)
  | guiMousePressed (button : Nat)
  | guiMouseReleased (button : Nat)
  | debugCameraOptionBoxSetToggled (toggled : Bool)
  | cameraModeChanged
  | showGUI | hideGUI
  | useActionBarslot (slot : Nat)
  /- camera movement -/
  | cameraRotate (x y z : ℚ)
  | cameraRotateY (y : ℚ)
  | cameraRotateAroundPoint (x y z : ℚ) (allowRotation : Bool)
  | cameraRotateAroundPointY (y : ℚ) (allowRotation : Bool)
  | cameraFly (speed : ℚ)
  | cameraStrafe (speed : ℚ)
  /- quit popup -/
  | setFrontendScreen (screen : FrontendScreen)
  | blurCheckBoxSetToggled (toggled : Bool)

/-! ## Collaborator records -/

/-- Modelled from the spec: a GUI page exposes load, unload, is-loaded and is-load-delayed;
the page classes are outside the source files. `Load` marks the page loaded and records
whether the load is delayed, `Unload` marks it not loaded. -/
structure PageState where
  loaded : Bool := false
  loadDelayed : Bool := false
  deriving DecidableEq

/-- The fields of `VogueSettings` read by the embedded functions. The settings are loaded
outside the source files; the defaults here only serve to build sample states. -/
structure VogueSettings where
  m_customCursors : Bool := false
  m_renderGUI : Bool := true
  m_invertedMouse : Bool := false
  m_mouseSensitivity : ℚ := 50
  m_gamepadSensitivity : ℚ := 50
  deriving DecidableEq

/-- What the embedded functions read from the window layer. The defaults only serve to build
sample states. -/
structure VogueWindow where
  cursorOn : Bool := true
  cursorX : Int := 0
  cursorY : Int := 0
  /-- The value of `GetJoystickButton(0, 4)`. -/
  joystickButton4 : Bool := false
  /-- The value of `GetJoystickButton(0, 5)`. -/
  joystickButton5 : Bool := false
  /-- The value of `GetJoystickAxisValue(0, 0)`. -/
  joystickAxis0 : ℚ := 0
  /-- The value of `GetJoystickAxisValue(0, 1)`. -/
  joystickAxis1 : ℚ := 0
  /-- The value of `GetJoystickAxisValue(0, 3)`. -/
  joystickAxis3 : ℚ := 0
  /-- The value of `GetJoystickAxisValue(0, 4)`. -/
  joystickAxis4 : ℚ := 0
  /-- The value of `GetJoystickAnalogDeadZone()`. -/
  joystickAnalogDeadZone : ℚ := 0
  deriving DecidableEq

/-- What the embedded functions read from, or set on, the player. The target enemy is the
identifier of an enemy, `none` for `NULL`. -/
structure Player where
  dead : Bool := false
  canJump : Bool := true
  targetEnemy : Option Nat := none
  alpha : ℚ := 1
  deriving DecidableEq

/-- What the embedded functions read from, or set on, an enemy. -/
structure Enemy where
  erase : Bool := false
  outlineRender : Bool := false
  deriving DecidableEq

/-- The dropped inventory item an item of type `eItem_DroppedItem` carries. -/
structure DroppedInventoryItem where
  m_title : String := ""
  m_item : eItem := eItem.None
  m_quantity : Int := 0
  deriving DecidableEq

/-- What the embedded functions read from, or set on, a world item. -/
structure Item where
  itemType : eItem := eItem.None
  droppedInventoryItem : DroppedInventoryItem := {}
  center : Vec3 := ⟨0, 0, 0⟩
  interactionPosition : Vec3 := ⟨0, 0, 0⟩
  stillAnimating : Bool := false
  interacting : Bool := false
  isCollectible : Bool := false
  collectionDelay : ℚ := 0
  deriving DecidableEq

/-- Behaviour of collaborators whose code is outside the source files and whose result the
embedded functions depend on. -/
structure Env where
  /-- The result of `InventoryManager::CanAddInventoryItem(title, item, quantity)`. -/
  canAddInventoryItem : String → eItem → Int → Bool
  /-- The effect of `Item::Interact()` on the item. -/
  itemInteract : Item → Item
  /-- The effect of `Player::StopMoving()` on the player. -/
  playerStopMoving : Player → Player
  /-- The effect of `Player::ResetPlayer()` on the player. -/
  playerResetPlayer : Player → Player
  /-- The effect of `VogueWindow::TurnCursorOn(resetCursorPosition, forceOn)` on the window. -/
  windowTurnCursorOn : Bool → Bool → VogueWindow → VogueWindow
  /-- The effect of `VogueWindow::TurnCursorOff(forceOff)` on the window. -/
  windowTurnCursorOff : Bool → VogueWindow → VogueWindow
  /-- The library function `normalize` on `vec3` (it takes a square root). -/
  normalize : Vec3 → Vec3
  /-- Whether `GetRandomLootItem` returned a non-null item with an equipment type other than
  `eEquipment_None`. -/
  randomLootAvailable : Bool
  /-- The result of `EnemyManager::GetCursorEnemy(camera, cursorX, cursorY)`: the identifier of
  the enemy picked at that screen point, `none` for `NULL`. -/
  getCursorEnemy : Int → Int → Option Nat
  /-- The value of `IsKeyboardInteractingWithGUIComponent()` once the GUI has handled
  `KeyPressed(key, mods)`, from the value before. -/
  guiKeyPressed : Int → Int → Bool → Bool
  /-- The value of `IsKeyboardInteractingWithGUIComponent()` once the GUI has handled
  `KeyReleased(key, mods)`, from the value before. -/
  guiKeyReleased : Int → Int → Bool → Bool
  /-- The value of `IsMouseInteractingWithGUIComponent(false)` once the GUI has handled
  `MousePressed(button)`, from the value before. -/
  guiMousePressed : Nat → Bool → Bool
  /-- The value of `IsMouseInteractingWithGUIComponent(false)` once the GUI has handled
  `MouseReleased(button)`, from the value before. -/
  guiMouseReleased : Nat → Bool → Bool
  /-- The camera mode `CameraModeChanged()` selects, from the current one; the function reads
  the camera option boxes and is defined outside the source files. -/
  cameraModeChanged : CameraMode → CameraMode
  /-- The library composition `RadToDeg(acos(x))`: the angle in degrees whose cosine is `x`. -/
  acosDegrees : ℚ → ℚ
  /-- The facing and up vectors of `m_pGameCamera` after a call that moves the camera, from
  those before; the camera class is outside the source files. -/
  cameraMove : Call → Vec3 × Vec3 → Vec3 × Vec3

/-! ## The orchestrator state -/

/-- The members of `VogueGame` used by the embedded functions. The default values are those
`Create` assigns, where it assigns a constant; the others only serve to build sample states. -/
structure VogueGame where
  m_gameMode : GameMode := GameMode.Loading
  m_cameraMode : CameraMode := CameraMode.Debug
  m_previousCameraMode : CameraMode := CameraMode.Debug
  m_shouldRestorePreviousCameraMode : Bool := false
  m_cameraDistance : ℚ := 0
  m_maxCameraDistance : ℚ := 0
  m_bPaused : Bool := false
  m_bGameQuit : Bool := false
  m_bCustomCursorOn : Bool := false
  m_currentX : Int := 0
  m_currentY : Int := 0
  m_movementSpeed : ℚ := 0
  m_targetCameraPosition_NPCDialog : Vec3 := ⟨0, 0, 0⟩
  m_targetCameraView_NPCDialog : Vec3 := ⟨0, 0, 0⟩
  m_pInteractItem : Option Item := none
  m_windowWidth : Int := 0
  m_windowHeight : Int := 0
  m_pressedX : Int := 0
  m_pressedY : Int := 0
  m_bPressedCursorDown : Bool := false
  m_bKeyboardForward : Bool := false
  m_bKeyboardBackward : Bool := false
  m_bKeyboardStrafeLeft : Bool := false
  m_bKeyboardStrafeRight : Bool := false
  m_bKeyboardLeft : Bool := false
  m_bKeyboardRight : Bool := false
  m_bKeyboardUp : Bool := false
  m_bKeyboardDown : Bool := false
  m_bKeyboardSpace : Bool := false
  m_bKeyboardMenu : Bool := false
  /-- The enemies of the enemy manager, by identifier. -/
  enemies : Nat → Enemy := fun _ => {}
  /-- The value of `m_pMainWindow->IsVisible()`. -/
  mainWindowVisible : Bool := true
  /-- The value of `m_pGUI->IsKeyboardInteractingWithGUIComponent()`. -/
  guiKeyboardInteracting : Bool := false
  /-- The facing vector of `m_pGameCamera`. -/
  cameraFacing : Vec3 := ⟨0, 0, -1⟩
  /-- The up vector of `m_pGameCamera`. -/
  cameraUp : Vec3 := ⟨0, 1, 0⟩
  m_globalBlurAmount : ℚ := 0
  settings : VogueSettings := {}
  window : VogueWindow := {}
  player : Player := {}
  /-- The value of `m_pGUI->IsMouseInteractingWithGUIComponent(false)`. -/
  guiMouseInteracting : Bool := false
  frontendScreen : FrontendScreen := FrontendScreen.None
  inventoryGUI : PageState := {}
  characterGUI : PageState := {}
  lootGUI : PageState := {}
  craftingGUI : PageState := {}
  questGUI : PageState := {}
  actionBar : PageState := {}
  hud : PageState := {}
  /-- The calls made on collaborators so far, oldest first. -/
  calls : List Call := []

namespace VogueGame

/-- Record a collaborator call. -/
def call (s : VogueGame) (c : Call) : VogueGame := { s with calls := s.calls ++ [c] }

/-- Source function `VogueGame::GetGameMode`. -/
def GetGameMode (s : VogueGame) : GameMode := s.m_gameMode

/-- Source function `VogueGame::SetCameraMode`. -/
def SetCameraMode (mode : CameraMode) (s : VogueGame) : VogueGame :=
  { s with m_cameraMode := mode }

/-- Source function `VogueGame::IsCursorOn`. -/
def IsCursorOn (s : VogueGame) : Bool :=
  if s.settings.m_customCursors then s.m_bCustomCursorOn else s.window.cursorOn

/-! ## Camera zoom (`VogueInput.cpp`) -/

/-- The pair `(minAmount, maxAmount)` that `WrapCameraZoomValue` computes from the game mode
and the camera mode before it clamps. -/
def zoomBounds (g : GameMode) (c : CameraMode) : ℚ × ℚ :=
  let b : ℚ × ℚ := (1 / 2, 15)
  let b : ℚ × ℚ :=
    if g = GameMode.Game ∧
        (c = CameraMode.AutoCamera ∨ c = CameraMode.MouseRotate ∨ c = CameraMode.NPCDialog)
    then (1, 15) else b
  let b : ℚ × ℚ :=
    if g = GameMode.Game ∧ c = CameraMode.FirstPerson then (5 / 4, 7 / 4) else b
  b

/-- Source function `VogueGame::WrapCameraZoomValue`. -/
def WrapCameraZoomValue (s : VogueGame) : VogueGame :=
  let minAmount := (zoomBounds s.m_gameMode s.m_cameraMode).1
  let maxAmount := (zoomBounds s.m_gameMode s.m_cameraMode).2
  let s := if s.m_maxCameraDistance ≤ minAmount
    then { s with m_maxCameraDistance := minAmount } else s
  let s := if s.m_maxCameraDistance ≥ maxAmount
    then { s with m_maxCameraDistance := maxAmount } else s
  s

/-- Source function `VogueGame::MouseScroll(x, y)`. -/
def MouseScroll (x y : ℚ) (s : VogueGame) : VogueGame :=
  let gameMode := s.GetGameMode
  if s.player.dead = false ∨ (gameMode = GameMode.Debug ∨ s.m_cameraMode = CameraMode.Debug) then
    if s.m_bPaused = false then
      if s.player.targetEnemy = none then
        if s.IsCursorOn = false ∨ ¬ (s.guiMouseInteracting = true) then
          if s.m_cameraMode ≠ CameraMode.FirstPerson then
            WrapCameraZoomValue
              { s with m_maxCameraDistance := s.m_maxCameraDistance + (-y * (1 / 2)) }
          else
            if y < 0 then
              { s with m_cameraDistance := 2, m_maxCameraDistance := 2 }
            else s
        else s
      else s
    else s
  else s

/-- Source function `VogueGame::JoystickCameraZoom(dt)`. -/
def JoystickCameraZoom (dt : ℚ) (s : VogueGame) : VogueGame :=
  let zoomOut := s.window.joystickButton4
  let zoomIn := s.window.joystickButton5
  let zoomAmount : ℚ := 0
  let zoomAmount : ℚ := if zoomIn then 10 else zoomAmount
  let zoomAmount : ℚ := if zoomOut then -10 else zoomAmount
  let changeY := zoomAmount * dt
  let s :=
    if s.m_cameraMode ≠ CameraMode.FirstPerson then
      WrapCameraZoomValue { s with m_maxCameraDistance := s.m_maxCameraDistance + (-changeY) }
    else
      if changeY < 0 then
        { s with m_cameraDistance := 2, m_maxCameraDistance := 2 }
      else s
  WrapCameraZoomValue s

/-! ## GUI pages and cursor (`VogueGame.cpp`) -/

/-- Modelled from the spec: `Load(loadDelay, loadDelayTime)` of a GUI page, recorded as a call;
afterwards the page is loaded and is load-delayed exactly when a delay was asked for. The
page classes are outside the source files. -/
def pageLoad (p : GuiPage) (loadDelay : Bool) (loadDelayTime : ℚ) (s : VogueGame) : VogueGame :=
  let v : PageState := { loaded := true, loadDelayed := loadDelay }
  let s := s.call (Call.pageLoad p loadDelay loadDelayTime)
  match p with
  | GuiPage.Inventory => { s with inventoryGUI := v }
  | GuiPage.Character => { s with characterGUI := v }
  | GuiPage.Loot => { s with lootGUI := v }
  | GuiPage.Crafting => { s with craftingGUI := v }
  | GuiPage.Quest => { s with questGUI := v }
  | GuiPage.ActionBar => { s with actionBar := v }
  | GuiPage.HUD => { s with hud := v }

/-- Modelled from the spec: `Unload()` of a GUI page, recorded as a call; afterwards the page is
not loaded. The page classes are outside the source files. -/
def pageUnload (p : GuiPage) (s : VogueGame) : VogueGame :=
  let s := s.call (Call.pageUnload p)
  match p with
  | GuiPage.Inventory => { s with inventoryGUI := { s.inventoryGUI with loaded := false } }
  | GuiPage.Character => { s with characterGUI := { s.characterGUI with loaded := false } }
  | GuiPage.Loot => { s with lootGUI := { s.lootGUI with loaded := false } }
  | GuiPage.Crafting => { s with craftingGUI := { s.craftingGUI with loaded := false } }
  | GuiPage.Quest => { s with questGUI := { s.questGUI with loaded := false } }
  | GuiPage.ActionBar => { s with actionBar := { s.actionBar with loaded := false } }
  | GuiPage.HUD => { s with hud := { s.hud with loaded := false } }

/-- Source function `VogueGame::TurnCursorOn(resetCursorPosition, forceOn)`. -/
def TurnCursorOn (env : Env) (resetCursorPosition forceOn : Bool) (s : VogueGame) : VogueGame :=
  let s := { s.call (Call.windowTurnCursorOn resetCursorPosition forceOn) with
    window := env.windowTurnCursorOn resetCursorPosition forceOn s.window }
  { s with m_bCustomCursorOn := true }

/-- Source function `VogueGame::TurnCursorOff(forceOff)`. -/
def TurnCursorOff (env : Env) (forceOff : Bool) (s : VogueGame) : VogueGame :=
  let s := { s.call (Call.windowTurnCursorOff forceOff) with
    window := env.windowTurnCursorOff forceOff s.window }
  let s := { s with m_bCustomCursorOn := false }
  { s with m_currentX := s.window.cursorX, m_currentY := s.window.cursorY }

/-- Source function `VogueGame::OpenLetterBox`: an interpolation of the letterbox ratio towards `1.0`. -/
def OpenLetterBox (s : VogueGame) : VogueGame := s.call (Call.letterBoxInterpolation 1)

/-- Source function `VogueGame::CloseLetterBox`: an interpolation of the letterbox ratio towards `0.0`. -/
def CloseLetterBox (s : VogueGame) : VogueGame := s.call (Call.letterBoxInterpolation 0)

/-- Source function `VogueGame::IsGUIWindowStillDisplayed`. -/
def IsGUIWindowStillDisplayed (s : VogueGame) : Bool :=
  if s.inventoryGUI.loaded then true
  else if s.characterGUI.loaded then true
  else if s.lootGUI.loaded then true
  else if s.craftingGUI.loaded then true
  else if s.questGUI.loaded then true
  else false

/-- Source function `VogueGame::CloseAllGUIWindows`. -/
def CloseAllGUIWindows (s : VogueGame) : VogueGame :=
  let s := if s.inventoryGUI.loaded = true ∧ s.inventoryGUI.loadDelayed = false
    then pageUnload GuiPage.Inventory s else s
  let s := if s.characterGUI.loaded = true ∧ s.characterGUI.loadDelayed = false
    then pageUnload GuiPage.Character s else s
  let s := if s.lootGUI.loaded = true ∧ s.lootGUI.loadDelayed = false
    then pageUnload GuiPage.Loot s else s
  let s := if s.craftingGUI.loaded = true ∧ s.craftingGUI.loadDelayed = false
    then pageUnload GuiPage.Crafting s else s
  let s := if s.questGUI.loaded = true ∧ s.questGUI.loadDelayed = false
    then pageUnload GuiPage.Quest s else s
  s.call Call.guiResetFocus

/-- Modelled from the spec: `SavePreviousCameraMode` is defined outside the source files; the
spec describes a one-level save of the current camera mode. The invocation is recorded. -/
def SavePreviousCameraMode (s : VogueGame) : VogueGame :=
  { s.call Call.savePreviousCameraMode with m_previousCameraMode := s.m_cameraMode }

/-! ## Game-mode transitions (`VogueGame.cpp`) -/

/-- The collaborator calls of `VogueGame::SetupDataForGame`, in program order. The argument
tells whether the random loot manager returned an item that goes into the chest. -/
def setupDataForGameCalls (randomLootAvailable : Bool) : List Call :=
  [ Call.createItem eItem.Furnace, Call.itemSetInteractionPositionOffset ⟨0, 0, -2⟩,
    Call.createItem eItem.Anvil, Call.itemSetInteractionPositionOffset ⟨0, 0, -3 / 2⟩,
    Call.createItem eItem.Chest, Call.getRandomLootItem ] ++
  (if randomLootAvailable then [Call.chestAddLootItem] else []) ++
  [ Call.createItemSpawner, Call.itemSpawnerSetSpawningParams 15 Biome.GrassLand,
    Call.itemSpawnerAddItemType eItem.CopperVein, Call.itemSpawnerAddItemType eItem.IronVein,
    Call.createItemSpawner, Call.itemSpawnerSetSpawningParams 15 Biome.AshLand,
    Call.itemSpawnerAddItemType eItem.SilverVein, Call.itemSpawnerAddItemType eItem.GoldVein,
    Call.createItemSpawner, Call.itemSpawnerSetSpawningParams 3 Biome.GrassLand,
    Call.itemSpawnerAddItemType eItem.Chest,
    Call.createNPC, Call.npcSetForwards, Call.npcSetTargetForwards, Call.npcSetCombatType,
    Call.addSafeZone, Call.addTown,
    Call.createEnemySpawner, Call.enemySpawnerSetSpawningParams 8 Biome.GrassLand,
    Call.enemySpawnerAddEnemyType eEnemyType.GreenSlime,
    Call.enemySpawnerAddEnemyType eEnemyType.RedSlime,
    Call.enemySpawnerAddEnemyType eEnemyType.YellowSlime,
    Call.createEnemySpawner, Call.enemySpawnerSetSpawningParams 3 Biome.GrassLand,
    Call.enemySpawnerAddEnemyType eEnemyType.Bee,
    Call.createEnemySpawner, Call.enemySpawnerSetSpawningParams 3 Biome.GrassLand,
    Call.enemySpawnerAddEnemyType eEnemyType.Mimic,
    Call.createEnemySpawner, Call.enemySpawnerSetSpawningParams 8 Biome.Desert,
    Call.enemySpawnerAddEnemyType eEnemyType.NormalSkeleton,
    Call.enemySpawnerAddEnemyType eEnemyType.RangedSkeleton,
    Call.enemySpawnerAddEnemyType eEnemyType.MeleeSkeleton,
    Call.enemySpawnerAddEnemyType eEnemyType.MageSkeleton,
    Call.createEnemySpawner, Call.enemySpawnerSetSpawningParams 4 Biome.Desert,
    Call.enemySpawnerAddEnemyType eEnemyType.Mummy,
    Call.createEnemySpawner, Call.enemySpawnerSetSpawningParams 15 Biome.AshLand,
    Call.enemySpawnerAddEnemyType eEnemyType.WalkingZombie,
    Call.enemySpawnerAddEnemyType eEnemyType.CrawlingZombie,
    Call.createEnemySpawner, Call.enemySpawnerSetSpawningParams 4 Biome.AshLand,
    Call.enemySpawnerAddEnemyType eEnemyType.IronGiant,
    Call.createEnemySpawner, Call.enemySpawnerSetSpawningParams 8 Biome.AshLand,
    Call.enemySpawnerAddEnemyType eEnemyType.Bat,
    Call.createEnemySpawner, Call.enemySpawnerSetSpawningParams 8 Biome.Tundra,
    Call.enemySpawnerAddEnemyType eEnemyType.BlueSlime,
    Call.createQuest, Call.questAddObjective, Call.createEquipmentItemFromType,
    Call.questSetReward, Call.questExport,
    Call.createQuest, Call.questAddObjective,
    Call.createInventoryItemForCrafting eItem.CopperOre 5,
    Call.questSetReward, Call.questExport,
    Call.createQuest, Call.questExport,
    Call.addQuestJournalEntry, Call.addQuestJournalEntry, Call.addQuestJournalEntry ]

/-- Source function `VogueGame::SetupDataForGame`: it only calls collaborators. -/
def SetupDataForGame (env : Env) (s : VogueGame) : VogueGame :=
  { s with calls := s.calls ++ setupDataForGameCalls env.randomLootAvailable }

/-- Source function `VogueGame::SetupDataForFrontEnd`: its body is empty. -/
def SetupDataForFrontEnd (s : VogueGame) : VogueGame := s

/-- The statements of `SetGameMode` in its FrontEnd branch from `CloseAllGUIWindows()` up to
the unloading of the HUD, that is everything before `SetupDataForFrontEnd()`. -/
def frontEndBoundTeardown (env : Env) (s : VogueGame) : VogueGame :=
  let s := CloseAllGUIWindows s
  let s := s.call Call.clearItems
  let s := s.call Call.clearItemSpawners
  let s := s.call Call.clearNPCs
  let s := s.call Call.clearEnemies
  let s := s.call Call.clearEnemySpawners
  let s := s.call Call.clearProjectiles
  let s := s.call Call.inventoryReset
  let s := s.call Call.clearQuests
  let s := s.call Call.clearJournal
  let s := s.call Call.questGUISetQuestData
  let s := { s.call Call.resetPlayer with player := env.playerResetPlayer s.player }
  let s := s.call (Call.setWaterHeight (53 / 10))
  let s := if s.actionBar.loaded = true then
      (if s.settings.m_renderGUI = true then pageUnload GuiPage.ActionBar s else s)
    else s
  let s := if s.hud.loaded = true then
      (if s.settings.m_renderGUI = true then pageUnload GuiPage.HUD s else s)
    else s
  s

/-- The statements of `SetGameMode` in its Game branch from `CloseAllGUIWindows()` up to the
loading of the HUD, that is everything before `SetupDataForGame()`. -/
def gameBoundTeardown (env : Env) (s : VogueGame) : VogueGame :=
  let s := CloseAllGUIWindows s
  let s := s.call Call.clearItems
  let s := s.call Call.clearItemSpawners
  let s := s.call Call.clearNPCs
  let s := s.call Call.clearEnemies
  let s := s.call Call.clearEnemySpawners
  let s := s.call Call.clearProjectiles
  let s := s.call Call.clearQuests
  let s := s.call Call.clearJournal
  let s := s.call Call.questGUISetQuestData
  let s := { s.call Call.resetPlayer with player := env.playerResetPlayer s.player }
  let s := s.call (Call.setWaterHeight (53 / 10))
  let s := if s.actionBar.loaded = false then
      (if s.settings.m_renderGUI = true then pageLoad GuiPage.ActionBar false 0 s else s)
    else s
  let s := if s.hud.loaded = false then
      (if s.settings.m_renderGUI = true then pageLoad GuiPage.HUD false 0 s else s)
    else s
  s

/-- Source function `VogueGame::SetGameMode(mode)`. -/
def SetGameMode (env : Env) (mode : GameMode) (s : VogueGame) : VogueGame :=
  let previousgameMode := s.m_gameMode
  let s := { s with m_gameMode := mode }
  let s :=
    if s.m_gameMode = GameMode.FrontEnd then
      if previousgameMode = GameMode.Game ∨ previousgameMode = GameMode.Loading then
        let s := frontEndBoundTeardown env s
        let s := SetupDataForFrontEnd s
        s.call Call.initializeChunkCreation
      else s
    else s
  if s.m_gameMode = GameMode.Game then
    if previousgameMode = GameMode.FrontEnd ∨ previousgameMode = GameMode.Loading then
      let s := gameBoundTeardown env s
      let s := SetupDataForGame env s
      s.call Call.initializeChunkCreation
    else s
  else s

/-! ## Interactions (`VogueGame.cpp`) -/

/-- The call `Player::StopMoving()` on the player of the game. -/
def playerStopMoving (env : Env) (s : VogueGame) : VogueGame :=
  { s.call Call.playerStopMoving with player := env.playerStopMoving s.player }

/-- The dropped-item block of `CheckInteractions`: the item becomes collectible when the
inventory manager accepts it. Returns the new value of `interaction`. -/
def interactDroppedItem (env : Env) (it : Item) (interaction : Bool) (s : VogueGame) :
    Bool × VogueGame :=
  if it.itemType = eItem.DroppedItem then
    let s :=
      if env.canAddInventoryItem it.droppedInventoryItem.m_title it.droppedInventoryItem.m_item
          it.droppedInventoryItem.m_quantity = true then
        { s with m_pInteractItem := some { it with isCollectible := true, collectionDelay := 0 } }
      else s
    (true, s)
  else (interaction, s)

/-- The crafting-station block of `CheckInteractions`. Returns the new values of
`interaction` and `shouldStopMovement`. -/
def interactCraftingStation (env : Env) (it : Item) (interaction shouldStopMovement : Bool)
    (s : VogueGame) : Bool × Bool × VogueGame :=
  if it.itemType = eItem.Anvil ∨ it.itemType = eItem.Furnace then
    let s := playerStopMoving env s
    -- Load crafting GUI
    let s :=
      if s.craftingGUI.loaded = false then
        let s := s.call (Call.craftingSetRecipesForItem it.itemType)
        let s := pageLoad GuiPage.Crafting true (9 / 10) s
        let s := s.call Call.craftingSetInteractionitem
        let s := SavePreviousCameraMode s
        let s := { s with m_shouldRestorePreviousCameraMode := true }
        TurnCursorOn env false false s
      else s
    -- Set NPC dialog camera mode
    let s := SetCameraMode CameraMode.NPCDialog s
    -- Figure out which way to position the camera
    let toItem := env.normalize (it.center.sub it.interactionPosition)
    let crossResult := Vec3.cross Vec3.up toItem
    let dotAngle := Vec3.dot s.cameraFacing crossResult
    let center := it.center.sub it.interactionPosition
    let crossRight := Vec3.cross (env.normalize center) Vec3.up
    let s :=
      if dotAngle > 1 / 2 then
        { s with
          m_targetCameraPosition_NPCDialog :=
            ((it.interactionPosition.add (center.scale 2)).add (crossRight.scale 4)).add
              (Vec3.up.scale (5 / 2))
          m_targetCameraView_NPCDialog :=
            (it.interactionPosition.add (center.scale 0)).sub (crossRight.scale 4) }
      else
        { s with
          m_targetCameraPosition_NPCDialog :=
            ((it.interactionPosition.add (center.scale 2)).sub (crossRight.scale 4)).add
              (Vec3.up.scale (5 / 2))
          m_targetCameraView_NPCDialog :=
            (it.interactionPosition.add (center.scale 0)).add (crossRight.scale 4) }
    -- Player move to interaction point and look at interaction item
    let s := s.call (Call.playerSetMoveToTargetPosition it.interactionPosition)
    let s := s.call (Call.playerSetLookAtTargetAfterMoveToPosition it.center)
    -- Set player alpha to full opacity
    let s := { s with player := { s.player with alpha := 1 } }
    -- Open cinematic letterbox
    let s := OpenLetterBox s
    (true, true, s)
  else (interaction, shouldStopMovement, s)

/-- The statements of the chest block of `CheckInteractions` that run once the chest reports
that it is interacting: stop the player and toggle the loot and inventory pages. -/
def openOrCloseChestGUI (env : Env) (s : VogueGame) : VogueGame :=
  let s := playerStopMoving env s
  if s.lootGUI.loaded = true then
    let s := pageUnload GuiPage.Loot s
    if IsGUIWindowStillDisplayed s = false then TurnCursorOff env false s else s
  else if s.frontendScreen = FrontendScreen.None then
    let s := s.call Call.lootLoadItems
    let s := pageLoad GuiPage.Loot true 1 s
    let s := if s.inventoryGUI.loaded = false then pageLoad GuiPage.Inventory true 1 s else s
    let s := playerStopMoving env s
    TurnCursorOn env false false s
  else s

/-- The chest block of `CheckInteractions`. Returns the new values of `interaction` and
`shouldStopMovement`. -/
def interactChest (env : Env) (it : Item) (interaction shouldStopMovement : Bool)
    (s : VogueGame) : Bool × Bool × VogueGame :=
  if it.itemType = eItem.Chest then
    if it.stillAnimating = false then
      let it := env.itemInteract it
      let s := { s.call Call.itemInteract with m_pInteractItem := some it }
      if it.interacting = true then
        (true, true, openOrCloseChestGUI env s)
      else (true, shouldStopMovement, s)
    else (interaction, shouldStopMovement, s)
  else (interaction, shouldStopMovement, s)

/-- The body of `if (interaction == false && m_pInteractItem != NULL)` in
`CheckInteractions`, for the item `it` the pointer refers to. -/
def interactWithItem (env : Env) (it : Item) (s : VogueGame) : Bool × VogueGame :=
  let r1 := interactDroppedItem env it false s
  let it1 := r1.2.m_pInteractItem.getD it
  let r2 := interactCraftingStation env it1 r1.1 false r1.2
  let it2 := r2.2.2.m_pInteractItem.getD it1
  let r3 := interactChest env it2 r2.1 r2.2.1 r2.2.2
  let s := r3.2.2
  let s := if r3.2.1 = true then { s with m_movementSpeed := 0 } else s
  (r3.1, s)

/-- Source function `VogueGame::CheckInteractions`. -/
def CheckInteractions (env : Env) (s : VogueGame) : Bool × VogueGame :=
  if s.m_bPaused = true then (false, s)
  else if s.player.canJump = false then (false, s)
  else if s.player.dead = true then (false, s)
  else if s.player.targetEnemy ≠ none then (false, s)
  else
    let s := s.call Call.mutexLock
    let r : Bool × VogueGame :=
      match s.m_pInteractItem with
      | some it => interactWithItem env it s
      | none => (false, s)
    (r.1, r.2.call Call.mutexUnlock)

/-! ## Enemy targeting (`VogueGame.cpp`) -/

/-- The conversion `(int)` of a `float`: truncation towards zero. -/
def truncToInt (q : ℚ) : Int := if 0 ≤ q then Rat.floor q else -(Rat.floor (-q))

/-- Modelled from the spec: `ShouldRestorePreviousCameraMode` is defined outside the source
files; it reports whether a camera mode saved on entering a contextual mode is still to be
restored. -/
def ShouldRestorePreviousCameraMode (s : VogueGame) : Bool :=
  s.m_shouldRestorePreviousCameraMode

/-- Modelled from the spec: `RestorePreviousCameraMode` is defined outside the source files;
the spec describes a one-level restore of the saved camera mode, after which nothing is left
to restore. The invocation is recorded. -/
def RestorePreviousCameraMode (s : VogueGame) : VogueGame :=
  { s.call Call.restorePreviousCameraMode with
    m_cameraMode := s.m_previousCameraMode
    m_shouldRestorePreviousCameraMode := false }

/-- The call of `InitializeCameraRotation`, which is defined outside the source files. -/
def InitializeCameraRotation (s : VogueGame) : VogueGame :=
  s.call Call.initializeCameraRotation

/-- The statements of `SetEnemyTarget` that run once an enemy `e` has been picked and is not
flagged for erase. -/
def acquireEnemyTarget (e : Nat) (s : VogueGame) : VogueGame :=
  -- Set the player's enemy pointer
  let s := { s with player := { s.player with targetEnemy := some e } }
  let s := { s with
    enemies := Function.update s.enemies e { s.enemies e with outlineRender := true } }
  -- Set player alpha
  let s := { s with player := { s.player with alpha := 3 / 5 } }
  -- Set target camera
  let s := SavePreviousCameraMode s
  let s := { s with m_shouldRestorePreviousCameraMode := true }
  let s := SetCameraMode CameraMode.EnemyTarget s
  -- Open cinematic letter box
  OpenLetterBox s

/-- Source function `VogueGame::SetEnemyTarget`. -/
def SetEnemyTarget (env : Env) (s : VogueGame) : VogueGame :=
  if s.player.dead = false ∧ s.player.targetEnemy = none then
    -- Get the enemy based on the cursor
    let cursorX := truncToInt ((s.m_windowWidth : ℚ) * (1 / 2))
    let cursorY := truncToInt ((s.m_windowHeight : ℚ) * (1 / 2))
    let s := s.call (Call.getCursorEnemy cursorX cursorY)
    match env.getCursorEnemy cursorX cursorY with
    | some e => if (s.enemies e).erase = false then acquireEnemyTarget e s else s
    | none => s
  else s

/-- Source function `VogueGame::ReleaseEnemyTarget`. -/
def ReleaseEnemyTarget (s : VogueGame) : VogueGame :=
  match s.player.targetEnemy with
  | some e =>
    let s := { s with
      enemies := Function.update s.enemies e { s.enemies e with outlineRender := false } }
    let s := { s with player := { s.player with targetEnemy := none } }
    -- Reset player alpha
    let s := { s with player := { s.player with alpha := 1 } }
    -- Return back to the previous camera state
    let s := if ShouldRestorePreviousCameraMode s = true
      then InitializeCameraRotation (RestorePreviousCameraMode s) else s
    -- Close cinematic letter box
    CloseLetterBox s
  | none => s

/-- Source function `VogueGame::CloseInteractionGUI`. -/
def CloseInteractionGUI (env : Env) (s : VogueGame) : VogueGame :=
  if s.craftingGUI.loaded = true then
    let s := pageUnload GuiPage.Crafting s
    let s := CloseLetterBox s
    let s := if IsGUIWindowStillDisplayed s = false then TurnCursorOff env false s else s
    if ShouldRestorePreviousCameraMode s = true
      then InitializeCameraRotation (RestorePreviousCameraMode s) else s
  else s

/-! ## Mouse buttons (`VogueInput.cpp`) -/

/-- The button constant `MOUSE_BUTTON2` of the GUI toolkit (the right button). -/
def MOUSE_BUTTON2 : Nat := 2

/-- The first statements of `MouseRightPressed`: the cursor-down flag is set and, when the
cursor is on, the press is forwarded to the GUI. -/
def forwardRightPress (env : Env) (s : VogueGame) : VogueGame :=
  let s := { s with m_bPressedCursorDown := true }
  if s.IsCursorOn = true then
    { s.call (Call.guiMousePressed MOUSE_BUTTON2) with
      guiMouseInteracting := env.guiMousePressed MOUSE_BUTTON2 s.guiMouseInteracting }
  else s

/-- The last statement of `MouseRightPressed`: unless the cursor is on and the GUI is
interacting with the mouse, the window cursor position becomes the current and the pressed
position. -/
def recordPressPosition (s : VogueGame) : VogueGame :=
  if s.IsCursorOn = false ∨ ¬ (s.guiMouseInteracting = true) then
    let s := { s with m_currentX := s.window.cursorX, m_currentY := s.window.cursorY }
    { s with m_pressedX := s.m_currentX, m_pressedY := s.m_currentY }
  else s

/-- Source function `VogueGame::MouseRightPressed`. -/
def MouseRightPressed (env : Env) (s : VogueGame) : VogueGame :=
  let s := forwardRightPress env s
  let s := if s.m_gameMode = GameMode.Game ∧ s.m_cameraMode ≠ CameraMode.FirstPerson
    then SetEnemyTarget env s else s
  recordPressPosition s

/-- Source function `VogueGame::MouseRightReleased`. -/
def MouseRightReleased (env : Env) (s : VogueGame) : VogueGame :=
  let s := { s with m_bPressedCursorDown := false }
  let s := if s.IsCursorOn = true then
      { s.call (Call.guiMouseReleased MOUSE_BUTTON2) with
        guiMouseInteracting := env.guiMouseReleased MOUSE_BUTTON2 s.guiMouseInteracting }
    else s
  ReleaseEnemyTarget s

/-! ## Keyboard (`VogueInput.cpp`) -/

/-- Key code `GLFW_KEY_SPACE` of the windowing library. -/
def GLFW_KEY_SPACE : Int := 32

/-- Key code `GLFW_KEY_0` of the windowing library. -/
def GLFW_KEY_0 : Int := 48

/-- Key code `GLFW_KEY_1` of the windowing library. -/
def GLFW_KEY_1 : Int := 49

/-- Key code `GLFW_KEY_2` of the windowing library. -/
def GLFW_KEY_2 : Int := 50

/-- Key code `GLFW_KEY_3` of the windowing library. -/
def GLFW_KEY_3 : Int := 51

/-- Key code `GLFW_KEY_4` of the windowing library. -/
def GLFW_KEY_4 : Int := 52

/-- Key code `GLFW_KEY_5` of the windowing library. -/
def GLFW_KEY_5 : Int := 53

/-- Key code `GLFW_KEY_6` of the windowing library. -/
def GLFW_KEY_6 : Int := 54

/-- Key code `GLFW_KEY_7` of the windowing library. -/
def GLFW_KEY_7 : Int := 55

/-- Key code `GLFW_KEY_8` of the windowing library. -/
def GLFW_KEY_8 : Int := 56

/-- Key code `GLFW_KEY_9` of the windowing library. -/
def GLFW_KEY_9 : Int := 57

/-- Key code `GLFW_KEY_A` of the windowing library. -/
def GLFW_KEY_A : Int := 65

/-- Key code `GLFW_KEY_C` of the windowing library. -/
def GLFW_KEY_C : Int := 67

/-- Key code `GLFW_KEY_D` of the windowing library. -/
def GLFW_KEY_D : Int := 68

/-- Key code `GLFW_KEY_F` of the windowing library. -/
def GLFW_KEY_F : Int := 70

/-- Key code `GLFW_KEY_I` of the windowing library. -/
def GLFW_KEY_I : Int := 73

/-- Key code `GLFW_KEY_K` of the windowing library. -/
def GLFW_KEY_K : Int := 75

/-- Key code `GLFW_KEY_L` of the windowing library. -/
def GLFW_KEY_L : Int := 76

/-- Key code `GLFW_KEY_O` of the windowing library. -/
def GLFW_KEY_O : Int := 79

/-- Key code `GLFW_KEY_P` of the windowing library. -/
def GLFW_KEY_P : Int := 80

/-- Key code `GLFW_KEY_S` of the windowing library. -/
def GLFW_KEY_S : Int := 83

/-- Key code `GLFW_KEY_V` of the windowing library. -/
def GLFW_KEY_V : Int := 86

/-- Key code `GLFW_KEY_W` of the windowing library. -/
def GLFW_KEY_W : Int := 87

/-- Key code `GLFW_KEY_ESCAPE` of the windowing library. -/
def GLFW_KEY_ESCAPE : Int := 256

/-- The state of a GUI page, by page. -/
def page (s : VogueGame) : GuiPage → PageState
  | GuiPage.Inventory => s.inventoryGUI
  | GuiPage.Character => s.characterGUI
  | GuiPage.Loot => s.lootGUI
  | GuiPage.Crafting => s.craftingGUI
  | GuiPage.Quest => s.questGUI
  | GuiPage.ActionBar => s.actionBar
  | GuiPage.HUD => s.hud

/-- Source function `VogueGame::KeyPressed(key, scancode, mods)`. -/
def KeyPressed (env : Env) (key scancode mods : Int) (s : VogueGame) : VogueGame :=
  let s := { s.call (Call.guiKeyPressed key mods) with
    guiKeyboardInteracting := env.guiKeyPressed key mods s.guiKeyboardInteracting }
  if s.guiKeyboardInteracting = true ∧ key ≠ GLFW_KEY_ESCAPE then s
  else if key = GLFW_KEY_W then { s with m_bKeyboardForward := true }
  else if key = GLFW_KEY_S then { s with m_bKeyboardBackward := true }
  else if key = GLFW_KEY_A then { s with m_bKeyboardLeft := true, m_bKeyboardStrafeLeft := true }
  else if key = GLFW_KEY_D then
    { s with m_bKeyboardRight := true, m_bKeyboardStrafeRight := true }
  else if key = GLFW_KEY_F then { s with m_bKeyboardUp := true }
  else if key = GLFW_KEY_V then { s with m_bKeyboardDown := true }
  else if key = GLFW_KEY_SPACE then { s with m_bKeyboardSpace := true }
  else if key = GLFW_KEY_ESCAPE then { s with m_bKeyboardMenu := true }
  else s

/-- Modelled from the spec: `ShowGUI` is defined outside the source files; the spec names a
GUI-visibility toggle, so the call makes the main window visible. -/
def ShowGUI (s : VogueGame) : VogueGame := { s.call Call.showGUI with mainWindowVisible := true }

/-- Modelled from the spec: `HideGUI` is defined outside the source files; the spec names a
GUI-visibility toggle, so the call hides the main window. -/
def HideGUI (s : VogueGame) : VogueGame := { s.call Call.hideGUI with mainWindowVisible := false }

/-- The call of `CameraModeChanged`, which is defined outside the source files: the camera
mode becomes the one the option boxes select. -/
def CameraModeChanged (env : Env) (s : VogueGame) : VogueGame :=
  { s.call Call.cameraModeChanged with m_cameraMode := env.cameraModeChanged s.m_cameraMode }

/-- The body shared by the cases `GLFW_KEY_I`, `GLFW_KEY_C` and `GLFW_KEY_K` of `KeyReleased`,
for the inventory, character and quest page respectively: in game mode Game with the player
alive, a loaded page is unloaded (and the cursor turned off when no window remains), and an
unloaded page is loaded when no frontend screen is shown. -/
def toggleGamePage (env : Env) (p : GuiPage) (s : VogueGame) : VogueGame :=
  if s.GetGameMode = GameMode.Game then
    if s.player.dead = false then
      if (s.page p).loaded = true then
        let s := pageUnload p s
        if IsGUIWindowStillDisplayed s = false then TurnCursorOff env false s else s
      else if s.frontendScreen = FrontendScreen.None then
        let s := pageLoad p false 0 s
        let s := playerStopMoving env s
        TurnCursorOn env false false s
      else s
    else s
  else s

/-- Source function `VogueGame::KeyReleased(key, scancode, mods)`. -/
def KeyReleased (env : Env) (key scancode mods : Int) (s : VogueGame) : VogueGame :=
  let s := { s.call (Call.guiKeyReleased key mods) with
    guiKeyboardInteracting := env.guiKeyReleased key mods s.guiKeyboardInteracting }
  if s.guiKeyboardInteracting = true ∧ key ≠ GLFW_KEY_ESCAPE then s
  else if key = GLFW_KEY_W then { s with m_bKeyboardForward := false }
  else if key = GLFW_KEY_S then { s with m_bKeyboardBackward := false }
  else if key = GLFW_KEY_A then
    { s with m_bKeyboardLeft := false, m_bKeyboardStrafeLeft := false }
  else if key = GLFW_KEY_D then
    { s with m_bKeyboardRight := false, m_bKeyboardStrafeRight := false }
  else if key = GLFW_KEY_F then { s with m_bKeyboardUp := false }
  else if key = GLFW_KEY_V then { s with m_bKeyboardDown := false }
  else if key = GLFW_KEY_SPACE then { s with m_bKeyboardSpace := false }
  else if key = GLFW_KEY_ESCAPE then { s with m_bKeyboardMenu := false }
  else if key = GLFW_KEY_O then
    CameraModeChanged env (s.call (Call.debugCameraOptionBoxSetToggled true))
  else if key = GLFW_KEY_L then { s with m_bPaused := !s.m_bPaused }
  else if key = GLFW_KEY_P then
    if s.guiKeyboardInteracting = false then
      if s.mainWindowVisible = false then ShowGUI s else HideGUI s
    else s
  else if key = GLFW_KEY_I then toggleGamePage env GuiPage.Inventory s
  else if key = GLFW_KEY_C then toggleGamePage env GuiPage.Character s
  else if key = GLFW_KEY_K then toggleGamePage env GuiPage.Quest s
  else if key = GLFW_KEY_1 then s.call (Call.useActionBarslot 0)
  else if key = GLFW_KEY_2 then s.call (Call.useActionBarslot 1)
  else if key = GLFW_KEY_3 then s.call (Call.useActionBarslot 2)
  else if key = GLFW_KEY_4 then s.call (Call.useActionBarslot 3)
  else if key = GLFW_KEY_5 then s.call (Call.useActionBarslot 4)
  else if key = GLFW_KEY_6 then s.call (Call.useActionBarslot 5)
  else if key = GLFW_KEY_7 then s.call (Call.useActionBarslot 6)
  else if key = GLFW_KEY_8 then s.call (Call.useActionBarslot 7)
  else if key = GLFW_KEY_9 then s.call (Call.useActionBarslot 8)
  else if key = GLFW_KEY_0 then s.call (Call.useActionBarslot 9)
  else s

/-! ## Camera rotation and movement (`VogueInput.cpp`) -/

/-- A call on `m_pGameCamera` that moves the camera: the call is recorded and the facing and up
vectors become those the camera class computes. -/
def cameraCall (env : Env) (c : Call) (s : VogueGame) : VogueGame :=
  { s.call c with
    cameraFacing := (env.cameraMove c (s.cameraFacing, s.cameraUp)).1
    cameraUp := (env.cameraMove c (s.cameraFacing, s.cameraUp)).2 }

/-- Source function `VogueGame::MouseCameraRotate`. -/
def MouseCameraRotate (env : Env) (s : VogueGame) : VogueGame :=
  let x := s.window.cursorX
  let y := s.window.cursorY
  if s.m_currentX = x ∧ s.m_currentY = y then s
  else
    let changeX : ℚ := ((x - s.m_currentX : Int) : ℚ) / 5
    let changeY : ℚ := ((y - s.m_currentY : Int) : ℚ) / 5
    let changeX : ℚ := if s.cameraUp.y < 0 then -changeX else changeX
    let changeY : ℚ := if s.m_cameraMode = CameraMode.FirstPerson then -changeY else changeY
    let changeY : ℚ := if s.settings.m_invertedMouse = true then -changeY else changeY
    let changeX : ℚ := changeX * (s.settings.m_mouseSensitivity * (1 / 50))
    let changeY : ℚ := changeY * (s.settings.m_mouseSensitivity * (1 / 50))
    let cameraFacing := s.cameraFacing
    let rotationDegrees : ℚ := env.acosDegrees (Vec3.dot cameraFacing ⟨0, 1, 0⟩) - 90
    let limitAngle : ℚ := 75
    let changeY : ℚ :=
      if (rotationDegrees > limitAngle ∧ changeY < 0) ∨
          (rotationDegrees < -limitAngle ∧ changeY > 0) then 0 else changeY
    let s :=
      if s.m_cameraMode = CameraMode.FirstPerson then
        cameraCall env (Call.cameraRotateY (-changeX * (3 / 4)))
          (cameraCall env (Call.cameraRotate (changeY * (3 / 4)) 0 0) s)
      else
        cameraCall env (Call.cameraRotateAroundPointY (-changeX * (3 / 4)) true)
          (cameraCall env (Call.cameraRotateAroundPoint (changeY * (3 / 4)) 0 0 true) s)
    { s with m_currentX := x, m_currentY := y }

/-- Source function `VogueGame::JoystickCameraMove(dt)`. -/
def JoystickCameraMove (env : Env) (dt : ℚ) (s : VogueGame) : VogueGame :=
  let axisX : ℚ := s.window.joystickAxis0
  let axisY : ℚ := s.window.joystickAxis1
  let axisX : ℚ := if |axisX| < s.window.joystickAnalogDeadZone then 0 else axisX
  let axisY : ℚ := if |axisY| < s.window.joystickAnalogDeadZone then 0 else axisY
  let changeX : ℚ := axisX * 10 * dt
  let changeY : ℚ := axisY * 10 * dt
  cameraCall env (Call.cameraStrafe changeX) (cameraCall env (Call.cameraFly (-changeY)) s)

/-- Source function `VogueGame::JoystickCameraRotate(dt)`. -/
def JoystickCameraRotate (env : Env) (dt : ℚ) (s : VogueGame) : VogueGame :=
  let axisX : ℚ := s.window.joystickAxis4
  let axisY : ℚ := s.window.joystickAxis3
  let axisX : ℚ := if |axisX| < s.window.joystickAnalogDeadZone then 0 else axisX
  let axisY : ℚ := if |axisY| < s.window.joystickAnalogDeadZone then 0 else axisY
  let changeX : ℚ := axisX * 150 * dt
  let changeY : ℚ := axisY * 150 * dt
  let changeX : ℚ := if s.cameraUp.y < 0 then -changeX else changeX
  let changeY : ℚ := if s.m_cameraMode = CameraMode.FirstPerson then -changeY else changeY
  let changeY : ℚ := if s.settings.m_invertedMouse = true then -changeY else changeY
  let changeX : ℚ := changeX * (s.settings.m_gamepadSensitivity * (1 / 50))
  let changeY : ℚ := changeY * (s.settings.m_gamepadSensitivity * (1 / 50))
  let cameraFacing := s.cameraFacing
  let rotationDegrees : ℚ := env.acosDegrees (Vec3.dot cameraFacing ⟨0, 1, 0⟩) - 90
  let limitAngle : ℚ := 75
  let changeY : ℚ :=
    if (rotationDegrees > limitAngle ∧ changeY < 0) ∨
        (rotationDegrees < -limitAngle ∧ changeY > 0) then 0 else changeY
  if s.m_cameraMode = CameraMode.FirstPerson then
    cameraCall env (Call.cameraRotateY (-changeX))
      (cameraCall env (Call.cameraRotate changeY 0 0) s)
  else
    cameraCall env (Call.cameraRotateAroundPointY (-changeX) true)
      (cameraCall env (Call.cameraRotateAroundPoint changeY 0 0 true) s)

/-! ## Quitting and the window (`VogueGame.cpp`) -/

/-- Source function `VogueGame::SetPaused(pause)`. -/
def SetPaused (pause : Bool) (s : VogueGame) : VogueGame := { s with m_bPaused := pause }

/-- Source function `VogueGame::SetGlobalBlurAmount(blurAmount)`. -/
def SetGlobalBlurAmount (blurAmount : ℚ) (s : VogueGame) : VogueGame :=
  let s := { s with m_globalBlurAmount := blurAmount }
  s.call (Call.blurCheckBoxSetToggled (decide (s.m_globalBlurAmount > 0)))

/-- Modelled from the spec: `FrontendManager::SetFrontendScreen(screen)` is defined outside the
source files; the call is recorded and `GetFrontendScreen()` returns `screen` afterwards. -/
def setFrontendScreen (screen : FrontendScreen) (s : VogueGame) : VogueGame :=
  { s.call (Call.setFrontendScreen screen) with frontendScreen := screen }

/-- Source function `VogueGame::ShowQuitPopup`. -/
def ShowQuitPopup (env : Env) (s : VogueGame) : VogueGame :=
  if s.frontendScreen ≠ FrontendScreen.QuitPopup then
    let s := CloseAllGUIWindows s
    let s := setFrontendScreen FrontendScreen.QuitPopup s
    let s := SetPaused true s
    let s := SetGlobalBlurAmount (3 / 2000) s
    TurnCursorOn env false false s
  else s

/-- Source function `VogueGame::SetGameQuit(quit)`. -/
def SetGameQuit (quit : Bool) (s : VogueGame) : VogueGame := { s with m_bGameQuit := quit }

/-- Source function `VogueGame::ShouldClose`. -/
def ShouldClose (s : VogueGame) : Bool := s.m_bGameQuit

/-- Source function `VogueGame::CloseWindow`. -/
def CloseWindow (env : Env) (s : VogueGame) : VogueGame :=
  if s.m_gameMode = GameMode.Game then ShowQuitPopup env s
  else { s with m_bGameQuit := true }

/-! ## The instance and the objects it owns (`VogueGame.cpp`) -/

/-- The objects allocated with `new` in `VogueGame.cpp`, named by the pointer that holds them. -/
inductive Obj
  | c_instance
  | m_pVogueWindow | m_pRenderer | m_pGUI | m_pGameCamera | m_pModsManager
  | m_pQubicleBinaryManager | m_pChunkManager | m_pBiomeManager | m_pLightingManager
  | m_pSceneryManager | m_pSkybox | m_pBlockParticleManager | m_pTextEffectsManager
  | m_pInstanceManager | m_pPlayer | m_pNPCManager | m_pEnemyManager | m_pQuestManager
  | m_pQuestJournal | m_pInventoryManager | m_pItemManager | m_pRandomLootManager
  | m_pProjectileManager | m_pFrontendManager
  | m_pInventoryGUI | m_pCharacterGUI | m_pLootGUI | m_pCraftingGUI | m_pQuestGUI
  | m_pActionBar | m_pHUD
  deriving DecidableEq, Repr

/-- The static pointer `c_instance` and the heap, as far as `VogueGame.cpp` allocates on it.
An address is a positive number, `none` is the null pointer; `new VogueGame` returns an address
that was not handed out before. -/
structure Process where
  c_instance : Option Nat := none
  /-- How many `VogueGame` objects were constructed so far. -/
  constructed : Nat := 0
  /-- The objects allocated and not deleted, oldest first. -/
  live : List Obj := []
  /-- Every `delete` executed so far, oldest first. -/
  deleted : List Obj := []
  deriving DecidableEq, Repr

/-- The statement `ptr = new T(...)`. -/
def Process.new (p : Process) (o : Obj) : Process := { p with live := p.live ++ [o] }

/-- The statement `delete ptr`. -/
def Process.delete (p : Process) (o : Obj) : Process :=
  { p with live := p.live.erase o, deleted := p.deleted ++ [o] }

/-- Source function `VogueGame::GetInstance`: the returned address and the process after. -/
def GetInstance (p : Process) : Nat × Process :=
  let p :=
    if p.c_instance = none then
      { p.new Obj.c_instance with
        c_instance := some (p.constructed + 1), constructed := p.constructed + 1 }
    else p
  (p.c_instance.getD 0, p)

/-- Source function `VogueGame::Create`, as far as it allocates: the `new` expressions in
program order. -/
def Create (p : Process) : Process :=
  let p := p.new Obj.m_pVogueWindow
  let p := p.new Obj.m_pRenderer
  let p := p.new Obj.m_pGUI
  let p := p.new Obj.m_pGameCamera
  let p := p.new Obj.m_pModsManager
  let p := p.new Obj.m_pQubicleBinaryManager
  let p := p.new Obj.m_pChunkManager
  let p := p.new Obj.m_pBiomeManager
  let p := p.new Obj.m_pLightingManager
  let p := p.new Obj.m_pSceneryManager
  let p := p.new Obj.m_pSkybox
  let p := p.new Obj.m_pBlockParticleManager
  let p := p.new Obj.m_pTextEffectsManager
  let p := p.new Obj.m_pInstanceManager
  let p := p.new Obj.m_pPlayer
  let p := p.new Obj.m_pNPCManager
  let p := p.new Obj.m_pEnemyManager
  let p := p.new Obj.m_pQuestManager
  let p := p.new Obj.m_pQuestJournal
  let p := p.new Obj.m_pInventoryManager
  let p := p.new Obj.m_pItemManager
  let p := p.new Obj.m_pRandomLootManager
  let p := p.new Obj.m_pProjectileManager
  let p := p.new Obj.m_pFrontendManager
  let p := p.new Obj.m_pInventoryGUI
  let p := p.new Obj.m_pCharacterGUI
  let p := p.new Obj.m_pLootGUI
  let p := p.new Obj.m_pCraftingGUI
  let p := p.new Obj.m_pQuestGUI
  let p := p.new Obj.m_pActionBar
  let p := p.new Obj.m_pHUD
  p

/-- Source function `VogueGame::Destroy`, as far as it frees: the `delete` statements in
program order, under the test of `c_instance`. The pointer `c_instance` is not reset. -/
def Destroy (p : Process) : Process :=
  if p.c_instance ≠ none then
    let p := p.delete Obj.m_pSkybox
    let p := p.delete Obj.m_pChunkManager
    let p := p.delete Obj.m_pItemManager
    let p := p.delete Obj.m_pRandomLootManager
    let p := p.delete Obj.m_pInventoryManager
    let p := p.delete Obj.m_pFrontendManager
    let p := p.delete Obj.m_pPlayer
    let p := p.delete Obj.m_pNPCManager
    let p := p.delete Obj.m_pEnemyManager
    let p := p.delete Obj.m_pLightingManager
    let p := p.delete Obj.m_pSceneryManager
    let p := p.delete Obj.m_pBlockParticleManager
    let p := p.delete Obj.m_pTextEffectsManager
    let p := p.delete Obj.m_pInstanceManager
    let p := p.delete Obj.m_pBiomeManager
    let p := p.delete Obj.m_pQubicleBinaryManager
    let p := p.delete Obj.m_pModsManager
    let p := p.delete Obj.m_pGameCamera
    let p := p.delete Obj.m_pQuestManager
    let p := p.delete Obj.m_pQuestJournal
    let p := p.delete Obj.m_pInventoryGUI
    let p := p.delete Obj.m_pCharacterGUI
    let p := p.delete Obj.m_pLootGUI
    let p := p.delete Obj.m_pCraftingGUI
    let p := p.delete Obj.m_pQuestGUI
    let p := p.delete Obj.m_pActionBar
    let p := p.delete Obj.m_pGUI
    let p := p.delete Obj.m_pRenderer
    let p := p.delete Obj.m_pVogueWindow
    let p := p.delete Obj.c_instance
    p
  else p

end VogueGame

/-! ## The zoom range and the scroll gates as the specification words them -/

/-- The gates of `MouseScroll` as the specification words them: the player is alive or the game
or camera mode is Debug, the game is not paused, the player has no target enemy, and the cursor
is off or the GUI is not interacting with the mouse. -/
def MouseScrollGatesOpen (s : VogueGame) : Prop :=
  (s.player.dead = false ∨ s.m_gameMode = GameMode.Debug ∨ s.m_cameraMode = CameraMode.Debug) ∧
    s.m_bPaused = false ∧ s.player.targetEnemy = none ∧
    (s.IsCursorOn = false ∨ s.guiMouseInteracting = false)

instance (s : VogueGame) : Decidable (MouseScrollGatesOpen s) := by
  unfold MouseScrollGatesOpen; infer_instance


/-- The mode-dependent zoom range in the words of the specification: `(1.25, 1.75)` in game
mode Game with the first-person camera, `(1.0, 15.0)` in game mode Game with the auto,
mouse-rotate or NPC-dialog camera, and `(0.5, 15.0)` otherwise. -/
def specZoomRange (g : GameMode) (c : CameraMode) : ℚ × ℚ :=
  match g, c with
  | GameMode.Game, CameraMode.FirstPerson => (5 / 4, 7 / 4)
  | GameMode.Game, CameraMode.AutoCamera => (1, 15)
  | GameMode.Game, CameraMode.MouseRotate => (1, 15)
  | GameMode.Game, CameraMode.NPCDialog => (1, 15)
  | _, _ => (1 / 2, 15)

/-- The target camera distance of a state lies in the specification's range for its modes. -/
def InZoomRange (s : VogueGame) : Prop :=
  (specZoomRange s.m_gameMode s.m_cameraMode).1 ≤ s.m_maxCameraDistance ∧
    s.m_maxCameraDistance ≤ (specZoomRange s.m_gameMode s.m_cameraMode).2


/-! ## Call lists of the game-mode transitions -/

/-- The state `CloseAllGUIWindows` leaves a modal page in: unloaded when it was loaded and
not load-delayed, untouched otherwise. -/
def closedPage (v : PageState) : PageState :=
  if v.loaded = true ∧ v.loadDelayed = false then { v with loaded := false } else v

/-- The call `CloseAllGUIWindows` makes on one modal page. -/
def closeCallsOf (p : GuiPage) (v : PageState) : List Call :=
  if v.loaded = true ∧ v.loadDelayed = false then [Call.pageUnload p] else []

/-- The calls `CloseAllGUIWindows` makes. -/
def closeAllCalls (s : VogueGame) : List Call :=
  closeCallsOf GuiPage.Inventory s.inventoryGUI ++ closeCallsOf GuiPage.Character s.characterGUI ++
    closeCallsOf GuiPage.Loot s.lootGUI ++ closeCallsOf GuiPage.Crafting s.craftingGUI ++
    closeCallsOf GuiPage.Quest s.questGUI ++ [Call.guiResetFocus]

/-- The clearing of items, item spawners, NPCs, enemies, enemy spawners and projectiles. -/
def clearWorldCalls : List Call :=
  [Call.clearItems, Call.clearItemSpawners, Call.clearNPCs, Call.clearEnemies,
    Call.clearEnemySpawners, Call.clearProjectiles]

/-- The clearing of quests and journal, the reset of the quest GUI text and of the player, and
the water height `5.3`. -/
def clearQuestCalls : List Call :=
  [Call.clearQuests, Call.clearJournal, Call.questGUISetQuestData, Call.resetPlayer,
    Call.setWaterHeight (53 / 10)]

/-- The loading of the action bar and of the HUD on the way into Game. -/
def loadBarCalls (s : VogueGame) : List Call :=
  (if s.actionBar.loaded = false ∧ s.settings.m_renderGUI = true
    then [Call.pageLoad GuiPage.ActionBar false 0] else []) ++
  (if s.hud.loaded = false ∧ s.settings.m_renderGUI = true
    then [Call.pageLoad GuiPage.HUD false 0] else [])

/-- The unloading of the action bar and of the HUD on the way into FrontEnd. -/
def unloadBarCalls (s : VogueGame) : List Call :=
  (if s.actionBar.loaded = true ∧ s.settings.m_renderGUI = true
    then [Call.pageUnload GuiPage.ActionBar] else []) ++
  (if s.hud.loaded = true ∧ s.settings.m_renderGUI = true
    then [Call.pageUnload GuiPage.HUD] else [])

/-- Modelled from the spec: the sizes of the collections the managers own. The manager
classes are outside the source files; the spec says that mid-game entities are created and
cleared through explicit calls on the owning manager. -/
structure Collections where
  items : Nat := 0
  itemSpawners : Nat := 0
  npcs : Nat := 0
  enemies : Nat := 0
  enemySpawners : Nat := 0
  projectiles : Nat := 0
  quests : Nat := 0
  journalEntries : Nat := 0
  deriving DecidableEq

/-- Modelled from the spec: the effect of one collaborator call on the collections. A `Clear*`
call empties its collection, a `Create*` or `Add*` call of a manager adds one entry, and every
other call leaves the collections alone. -/
def Collections.apply (c : Collections) : Call → Collections
  | Call.clearItems => { c with items := 0 }
  | Call.clearItemSpawners => { c with itemSpawners := 0 }
  | Call.clearNPCs => { c with npcs := 0 }
  | Call.clearEnemies => { c with enemies := 0 }
  | Call.clearEnemySpawners => { c with enemySpawners := 0 }
  | Call.clearProjectiles => { c with projectiles := 0 }
  | Call.clearQuests => { c with quests := 0 }
  | Call.clearJournal => { c with journalEntries := 0 }
  | Call.createItem _ => { c with items := c.items + 1 }
  | Call.createItemSpawner => { c with itemSpawners := c.itemSpawners + 1 }
  | Call.createNPC => { c with npcs := c.npcs + 1 }
  | Call.createEnemySpawner => { c with enemySpawners := c.enemySpawners + 1 }
  | Call.createQuest => { c with quests := c.quests + 1 }
  | Call.addQuestJournalEntry => { c with journalEntries := c.journalEntries + 1 }
  | _ => c

/-- The collections after a sequence of calls. -/
def Collections.run (c : Collections) (l : List Call) : Collections :=
  l.foldl Collections.apply c

/-- A sample environment, used to instantiate theorems at concrete inputs: the inventory
accepts every item, `Interact` toggles the interacting flag, the cursor calls switch the
window cursor, `normalize` is exact on the unit vectors it is given, enemy `7` stands at every
screen point, the GUI keeps its focus on every event, the stand-in for the arccosine in
degrees is exact at the cosines `-1`, `0` and `1`, and the camera calls leave the camera
vectors alone. -/
def sampleEnv : Env where
  canAddInventoryItem := fun _ _ _ => true
  itemInteract := fun it => { it with interacting := !it.interacting }
  playerStopMoving := fun p => p
  playerResetPlayer := fun _ => {}
  windowTurnCursorOn := fun _ _ w => { w with cursorOn := true }
  windowTurnCursorOff := fun _ w => { w with cursorOn := false }
  normalize := fun v => v
  randomLootAvailable := true
  getCursorEnemy := fun _ _ => some 7
  guiKeyPressed := fun _ _ b => b
  guiKeyReleased := fun _ _ b => b
  guiMousePressed := fun _ b => b
  guiMouseReleased := fun _ b => b
  cameraModeChanged := fun _ => CameraMode.Debug
  acosDegrees := fun x => 90 - 90 * x
  cameraMove := fun _ v => v

/-- A state in the front end with the inventory page open and the action bar not loaded. -/
def frontEndState : VogueGame :=
  { m_gameMode := GameMode.FrontEnd, m_cameraMode := CameraMode.Frontend,
    inventoryGUI := { loaded := true } }

/-- The gates of `CheckInteractions` as the specification words them: the game is paused, or
the player cannot jump, or is dead, or has a target enemy. -/
def InteractionBlocked (s : VogueGame) : Prop :=
  s.m_bPaused = true ∨ s.player.canJump = false ∨ s.player.dead = true ∨
    s.player.targetEnemy ≠ none

/-- The interaction branches that stop the player, in the words of the specification: the
interact item is a crafting station (anvil or furnace), or it is a chest that is not
animating and whose interacting flag is true after `Interact()`. -/
def StopsPlayer (env : Env) (s : VogueGame) : Prop :=
  ¬ InteractionBlocked s ∧ ∃ it, s.m_pInteractItem = some it ∧
    (it.itemType = eItem.Anvil ∨ it.itemType = eItem.Furnace ∨
      (it.itemType = eItem.Chest ∧ it.stillAnimating = false ∧
        (env.itemInteract it).interacting = true))

/-- A running game in which the player slides at speed `3` next to a closed chest. -/
def chestState : VogueGame :=
  { m_gameMode := GameMode.Game, m_cameraMode := CameraMode.MouseRotate, m_movementSpeed := 3,
    m_pInteractItem := some { itemType := eItem.Chest } }

/-- The chest state with the game paused. -/
def pausedChestState : VogueGame := { chestState with m_bPaused := true }

/-- A running game in which the player slides at speed `3` next to a dropped item. -/
def droppedItemState : VogueGame :=
  { m_gameMode := GameMode.Game, m_cameraMode := CameraMode.MouseRotate, m_movementSpeed := 3,
    m_pInteractItem := some { itemType := eItem.DroppedItem } }

/-- A state in game mode Game with the first-person camera and target distance `1.5`. -/
def firstPersonState : VogueGame :=
  { m_gameMode := GameMode.Game, m_cameraMode := CameraMode.FirstPerson,
    m_cameraDistance := 3 / 2, m_maxCameraDistance := 3 / 2 }

/-- The first-person state with the joystick zoom-out button held. -/
def firstPersonZoomOutState : VogueGame :=
  { firstPersonState with window := { joystickButton4 := true } }

/-- A state in game mode Game with the mouse-rotate camera and target distance `5`. -/
def mouseRotateState : VogueGame :=
  { m_gameMode := GameMode.Game, m_cameraMode := CameraMode.MouseRotate,
    m_cameraDistance := 5, m_maxCameraDistance := 5 }

/-- The sample environment with an inventory that accepts nothing. -/
def fullInventoryEnv : Env := { sampleEnv with canAddInventoryItem := fun _ _ _ => false }

/-- The value whose size decides the side of the dialog camera at a crafting station:
`dot(cameraFacing, cross(up, toItem))` with `toItem` the normalized vector from the interaction
position to the item center. -/
def dialogSide (env : Env) (facing : Vec3) (it : Item) : ℚ :=
  Vec3.dot facing (Vec3.cross Vec3.up (env.normalize (it.center.sub it.interactionPosition)))

/-- The vector `c = center - I` from the interaction position `I` to the item center. -/
def toCenter (it : Item) : Vec3 := it.center.sub it.interactionPosition

/-- The vector `r = cross(normalize(c), up)`. -/
def crossRight (env : Env) (it : Item) : Vec3 :=
  Vec3.cross (env.normalize (toCenter it)) Vec3.up

/-- The dialog camera position `I + 2c + 4r + 2.5*up` of the specification. -/
def dialogPosition (env : Env) (it : Item) : Vec3 :=
  ((it.interactionPosition.add ((toCenter it).scale 2)).add ((crossRight env it).scale 4)).add
    (Vec3.up.scale (5 / 2))

/-- The dialog camera look-at point `I - 4r` of the specification. -/
def dialogView (env : Env) (it : Item) : Vec3 :=
  it.interactionPosition.sub ((crossRight env it).scale 4)

/-- The mirrored dialog camera position `I + 2c - 4r + 2.5*up` of the specification. -/
def dialogPositionMirrored (env : Env) (it : Item) : Vec3 :=
  ((it.interactionPosition.add ((toCenter it).scale 2)).sub ((crossRight env it).scale 4)).add
    (Vec3.up.scale (5 / 2))

/-- The mirrored dialog camera look-at point `I + 4r` of the specification. -/
def dialogViewMirrored (env : Env) (it : Item) : Vec3 :=
  it.interactionPosition.add ((crossRight env it).scale 4)

/-- A running game with the mouse-rotate camera, the player sliding at speed `3` next to an
anvil whose center lies one unit along `z` from its interaction position, and the camera
facing `(5/13, 0, 12/13)`. -/
def anvilState : VogueGame :=
  { m_gameMode := GameMode.Game, m_cameraMode := CameraMode.MouseRotate, m_movementSpeed := 3,
    m_pInteractItem := some { itemType := eItem.Anvil, center := ⟨0, 0, 1⟩ },
    cameraFacing := ⟨5 / 13, 0, 12 / 13⟩ }

instance (s : VogueGame) : Decidable (InteractionBlocked s) := by
  unfold InteractionBlocked; infer_instance

/-- Whether a call is `Item::Interact()` on the interact item. -/
def Call.isItemInteract : Call → Bool
  | Call.itemInteract => true
  | _ => false

/-- The chest state with the chest still playing its animation. -/
def animatingChestState : VogueGame :=
  { chestState with m_pInteractItem := some { itemType := eItem.Chest, stillAnimating := true } }

/-- The enemy `SetEnemyTarget` picks: the result of `GetCursorEnemy` at the point the code
computes from the window size. -/
def pickedEnemy (env : Env) (s : VogueGame) : Option Nat :=
  env.getCursorEnemy (VogueGame.truncToInt ((s.m_windowWidth : ℚ) * (1 / 2)))
    (VogueGame.truncToInt ((s.m_windowHeight : ℚ) * (1 / 2)))

/-- The condition under which `SetEnemyTarget` acquires the enemy `e`, in the words of the
specification: the player is alive and has no current target, and the picked enemy is `e` and
is not flagged for erase. -/
def Acquires (env : Env) (s : VogueGame) (e : Nat) : Prop :=
  s.player.dead = false ∧ s.player.targetEnemy = none ∧ pickedEnemy env s = some e ∧
    (s.enemies e).erase = false

/-- A running game in a window of 1281 by 721 pixels with the cursor at `(17, 400)`. -/
def targetingState : VogueGame :=
  { m_gameMode := GameMode.Game, m_cameraMode := CameraMode.MouseRotate,
    m_windowWidth := 1281, m_windowHeight := 721,
    window := { cursorX := 17, cursorY := 400 } }

/-- A contextual camera mode is saved and not yet restored:
`m_shouldRestorePreviousCameraMode` is set and the camera mode is NPCDialog or EnemyTarget. -/
def ContextSaved (s : VogueGame) : Prop :=
  s.m_shouldRestorePreviousCameraMode = true ∧
    (s.m_cameraMode = CameraMode.NPCDialog ∨ s.m_cameraMode = CameraMode.EnemyTarget)

/-- The input and interaction operations that enter or leave a contextual camera mode. -/
inductive InputOp
  | mouseRightPressed | mouseRightReleased | checkInteractions | closeInteractionGUI
  deriving DecidableEq

/-- The state after an input or interaction operation. -/
def InputOp.run (env : Env) : InputOp → VogueGame → VogueGame
  | InputOp.mouseRightPressed, s => VogueGame.MouseRightPressed env s
  | InputOp.mouseRightReleased, s => VogueGame.MouseRightReleased env s
  | InputOp.checkInteractions, s => (VogueGame.CheckInteractions env s).2
  | InputOp.closeInteractionGUI, s => VogueGame.CloseInteractionGUI env s

/-- The state after a sequence of input and interaction operations. -/
def runOps (env : Env) (ops : List InputOp) (s : VogueGame) : VogueGame :=
  ops.foldl (fun s op => op.run env s) s

/-- The operation `op`, started in state `s`, invokes `SavePreviousCameraMode`: the call is
among those the operation adds to the record. -/
def SavesDuring (env : Env) (op : InputOp) (s : VogueGame) : Prop :=
  Call.savePreviousCameraMode ∈ (op.run env s).calls.drop s.calls.length

/-- The keyboard flags of the game object, one per field `m_bKeyboard...`. -/
structure KeyboardFlags where
  forward : Bool
  backward : Bool
  strafeLeft : Bool
  strafeRight : Bool
  left : Bool
  right : Bool
  up : Bool
  down : Bool
  space : Bool
  menu : Bool
  deriving DecidableEq, Repr

/-- The keyboard flags held by a state. -/
def keyboardFlags (s : VogueGame) : KeyboardFlags :=
  { forward := s.m_bKeyboardForward, backward := s.m_bKeyboardBackward,
    strafeLeft := s.m_bKeyboardStrafeLeft, strafeRight := s.m_bKeyboardStrafeRight,
    left := s.m_bKeyboardLeft, right := s.m_bKeyboardRight, up := s.m_bKeyboardUp,
    down := s.m_bKeyboardDown, space := s.m_bKeyboardSpace, menu := s.m_bKeyboardMenu }

/-- The keys the specification lists as mapped to flags: W, S, A, D, F, V, Space, Escape. -/
def movementKeys : List Int :=
  [VogueGame.GLFW_KEY_W, VogueGame.GLFW_KEY_S, VogueGame.GLFW_KEY_A, VogueGame.GLFW_KEY_D,
    VogueGame.GLFW_KEY_F, VogueGame.GLFW_KEY_V, VogueGame.GLFW_KEY_SPACE,
    VogueGame.GLFW_KEY_ESCAPE]

/-- The key-to-flag table in the words of the specification: W forward, S backward, A left and
strafe-left, D right and strafe-right, F up, V down, Space space, Escape menu; the flags of
`key` take the value `b` and every other flag is kept. -/
def specKeyFlags (key : Int) (b : Bool) (f : KeyboardFlags) : KeyboardFlags :=
  if key = VogueGame.GLFW_KEY_W then { f with forward := b }
  else if key = VogueGame.GLFW_KEY_S then { f with backward := b }
  else if key = VogueGame.GLFW_KEY_A then { f with left := b, strafeLeft := b }
  else if key = VogueGame.GLFW_KEY_D then { f with right := b, strafeRight := b }
  else if key = VogueGame.GLFW_KEY_F then { f with up := b }
  else if key = VogueGame.GLFW_KEY_V then { f with down := b }
  else if key = VogueGame.GLFW_KEY_SPACE then { f with space := b }
  else if key = VogueGame.GLFW_KEY_ESCAPE then { f with menu := b }
  else f

/-- The GUI holds no keyboard focus for a key press: the key is Escape, which the focus test
lets through, or the GUI reports no keyboard interaction once the key is forwarded. -/
def PressUnfocused (env : Env) (key mods : Int) (s : VogueGame) : Prop :=
  key = VogueGame.GLFW_KEY_ESCAPE ∨ env.guiKeyPressed key mods s.guiKeyboardInteracting = false

/-- The GUI holds no keyboard focus for a key release. -/
def ReleaseUnfocused (env : Env) (key mods : Int) (s : VogueGame) : Prop :=
  key = VogueGame.GLFW_KEY_ESCAPE ∨ env.guiKeyReleased key mods s.guiKeyboardInteracting = false

/-- The state after the key is forwarded to the GUI by `KeyPressed` and nothing else is done. -/
def pressForwarded (env : Env) (key mods : Int) (s : VogueGame) : VogueGame :=
  { s with
    guiKeyboardInteracting := env.guiKeyPressed key mods s.guiKeyboardInteracting
    calls := s.calls ++ [Call.guiKeyPressed key mods] }

/-- The state after the key is forwarded to the GUI by `KeyReleased` and nothing else is
done. -/
def releaseForwarded (env : Env) (key mods : Int) (s : VogueGame) : VogueGame :=
  { s with
    guiKeyboardInteracting := env.guiKeyReleased key mods s.guiKeyboardInteracting
    calls := s.calls ++ [Call.guiKeyReleased key mods] }

/-- An environment whose GUI holds the keyboard focus after every key. -/
def focusedEnv : Env :=
  { sampleEnv with guiKeyPressed := fun _ _ _ => true, guiKeyReleased := fun _ _ _ => true }

/-- The key code of the digit `d`: the codes of the digit keys are consecutive from
`GLFW_KEY_0`. -/
def digitKey (d : Nat) : Int := VogueGame.GLFW_KEY_0 + (d : Int)

/-- The action-bar slot of the digit `d` in the words of the specification. -/
def specSlot (d : Nat) : Nat := (d + 9) % 10

/-- The dead-zone filter in the words of the specification: an axis value `a` with
`|a| < z` counts as `0`, any other value is kept. -/
def specDeadZone (z a : ℚ) : ℚ := if |a| < z then 0 else a

/-- The pitch `p = degrees(acos(facing . up)) - 90` of the camera. -/
def pitch (env : Env) (s : VogueGame) : ℚ :=
  env.acosDegrees (Vec3.dot s.cameraFacing Vec3.up) - 90

/-- The pitch limit in the words of the specification, as a function of the pitch `p` and the
vertical amount `v`: `0` when `p > 75` and `v < 0`, or `p < -75` and `v > 0`; `v` otherwise. -/
def specPitchLimit (p v : ℚ) : ℚ := if (p > 75 ∧ v < 0) ∨ (p < -75 ∧ v > 0) then 0 else v

/-- The sign flips of a vertical amount: first-person mode flips it, inverted mouse flips it. -/
def verticalFlips (s : VogueGame) (v : ℚ) : ℚ :=
  let v := if s.m_cameraMode = CameraMode.FirstPerson then -v else v
  if s.settings.m_invertedMouse = true then -v else v

/-- The sign flip of a horizontal amount: an upside-down camera flips it. -/
def horizontalFlip (s : VogueGame) (h : ℚ) : ℚ := if s.cameraUp.y < 0 then -h else h

/-- The vertical amount of a mouse rotation before the pitch limit: the cursor movement in `y`
over `5`, flipped, times the mouse sensitivity times `0.02`. -/
def mouseVertical (s : VogueGame) : ℚ :=
  verticalFlips s (((s.window.cursorY - s.m_currentY : Int) : ℚ) / 5) *
    (s.settings.m_mouseSensitivity * (1 / 50))

/-- The horizontal amount of a mouse rotation: the cursor movement in `x` over `5`, flipped,
times the mouse sensitivity times `0.02`. -/
def mouseHorizontal (s : VogueGame) : ℚ :=
  horizontalFlip s (((s.window.cursorX - s.m_currentX : Int) : ℚ) / 5) *
    (s.settings.m_mouseSensitivity * (1 / 50))

/-- The vertical amount of a joystick rotation before the pitch limit: axis 3 after the dead
zone, times `150 * dt`, flipped, times the gamepad sensitivity times `0.02`. -/
def joystickVertical (dt : ℚ) (s : VogueGame) : ℚ :=
  verticalFlips s
    (specDeadZone s.window.joystickAnalogDeadZone s.window.joystickAxis3 * 150 * dt) *
    (s.settings.m_gamepadSensitivity * (1 / 50))

/-- The horizontal amount of a joystick rotation: axis 4 after the dead zone, times
`150 * dt`, flipped, times the gamepad sensitivity times `0.02`. -/
def joystickHorizontal (dt : ℚ) (s : VogueGame) : ℚ :=
  horizontalFlip s
    (specDeadZone s.window.joystickAnalogDeadZone s.window.joystickAxis4 * 150 * dt) *
    (s.settings.m_gamepadSensitivity * (1 / 50))

/-- The two camera calls of a rotation by the vertical amount `v` and the horizontal amount
`h`: `Rotate(v, 0, 0)` and `RotateY(-h)` in first-person mode, `RotateAroundPoint(v, 0, 0, true)`
and `RotateAroundPointY(-h, true)` otherwise. -/
def rotateCalls (s : VogueGame) (v h : ℚ) : List Call :=
  if s.m_cameraMode = CameraMode.FirstPerson then
    [Call.cameraRotate v 0 0, Call.cameraRotateY (-h)]
  else [Call.cameraRotateAroundPoint v 0 0 true, Call.cameraRotateAroundPointY (-h) true]

/-- The mouse has moved since the position last recorded. -/
def MouseMoved (s : VogueGame) : Prop :=
  ¬ (s.m_currentX = s.window.cursorX ∧ s.m_currentY = s.window.cursorY)

/-- A running game whose joystick axes all read `0.1` with a dead zone of `0.25`. -/
def idleStickState : VogueGame :=
  { m_gameMode := GameMode.Game, m_cameraMode := CameraMode.MouseRotate,
    window :=
      { joystickAxis0 := 1 / 10, joystickAxis1 := 1 / 10, joystickAxis3 := 1 / 10,
        joystickAxis4 := 1 / 10, joystickAnalogDeadZone := 1 / 4 } }

/-- A running game whose camera looks straight down (pitch `90` with the sample arccosine)
and whose cursor has moved by `(10, 5)`. -/
def lookingDownState : VogueGame :=
  { m_gameMode := GameMode.Game, m_cameraMode := CameraMode.MouseRotate,
    cameraFacing := ⟨0, -1, 0⟩, settings := { m_invertedMouse := true },
    window := { cursorX := 10, cursorY := 5 } }

/-- The process before the first `GetInstance`: no instance, nothing allocated. -/
def startProcess : VogueGame.Process := {}

/-- The objects the specification lists as allocated by `Create`: the window, the renderer, the
GUI, the camera, the twenty managers and the seven GUI pages. -/
def specCreated : List VogueGame.Obj :=
  [VogueGame.Obj.m_pVogueWindow, VogueGame.Obj.m_pRenderer, VogueGame.Obj.m_pGUI,
    VogueGame.Obj.m_pGameCamera, VogueGame.Obj.m_pModsManager,
    VogueGame.Obj.m_pQubicleBinaryManager, VogueGame.Obj.m_pChunkManager,
    VogueGame.Obj.m_pBiomeManager, VogueGame.Obj.m_pLightingManager,
    VogueGame.Obj.m_pSceneryManager, VogueGame.Obj.m_pSkybox,
    VogueGame.Obj.m_pBlockParticleManager, VogueGame.Obj.m_pTextEffectsManager,
    VogueGame.Obj.m_pInstanceManager, VogueGame.Obj.m_pPlayer, VogueGame.Obj.m_pNPCManager,
    VogueGame.Obj.m_pEnemyManager, VogueGame.Obj.m_pQuestManager,
    VogueGame.Obj.m_pQuestJournal, VogueGame.Obj.m_pInventoryManager,
    VogueGame.Obj.m_pItemManager, VogueGame.Obj.m_pRandomLootManager,
    VogueGame.Obj.m_pProjectileManager, VogueGame.Obj.m_pFrontendManager,
    VogueGame.Obj.m_pInventoryGUI, VogueGame.Obj.m_pCharacterGUI, VogueGame.Obj.m_pLootGUI,
    VogueGame.Obj.m_pCraftingGUI, VogueGame.Obj.m_pQuestGUI, VogueGame.Obj.m_pActionBar,
    VogueGame.Obj.m_pHUD]

/-- The five modal GUI windows: inventory, character, loot, crafting and quest. -/
def modalPages : List GuiPage :=
  [GuiPage.Inventory, GuiPage.Character, GuiPage.Loot, GuiPage.Crafting, GuiPage.Quest]

/-- A running game whose loot GUI is loaded with its load still delayed. -/
def delayedLootState : VogueGame :=
  { m_gameMode := GameMode.Game, m_cameraMode := CameraMode.MouseRotate,
    lootGUI := { loaded := true, loadDelayed := true } }

/-- A running game with the inventory and the quest GUI open, neither load-delayed. -/
def openWindowsState : VogueGame :=
  { m_gameMode := GameMode.Game, m_cameraMode := CameraMode.MouseRotate,
    inventoryGUI := { loaded := true }, questGUI := { loaded := true } }

/-- The clamp of a value into a range `(lo, hi)`. -/
def specClamp (r : ℚ × ℚ) (v : ℚ) : ℚ := max r.1 (min r.2 v)

/-- The chest state with the game mode Debug. -/
def debugChestState : VogueGame := { chestState with m_gameMode := GameMode.Debug }

/-- The calls an operation added to the record of `s` when it returned `s2`. -/
def newCalls (s s2 : VogueGame) : List Call := s2.calls.drop s.calls.length

/-- The chest state with the quit popup shown and the game paused. -/
def quitPopupState : VogueGame :=
  { chestState with frontendScreen := FrontendScreen.QuitPopup, m_bPaused := true }

/-- A state in the front end with GUI rendering switched off and the HUD loaded. -/
def noRenderState : VogueGame :=
  { m_gameMode := GameMode.FrontEnd, m_cameraMode := CameraMode.Frontend,
    settings := { m_renderGUI := false }, hud := { loaded := true } }

/-! ## Theorems -/

open VogueGame

/-! ### Camera zoom -/

theorem zoomBounds_eq_spec (g : GameMode) (c : CameraMode) :
    zoomBounds g c = specZoomRange g c := by
  cases g <;> cases c <;> simp [zoomBounds, specZoomRange]


theorem specZoomRange_le (g : GameMode) (c : CameraMode) :
    (specZoomRange g c).1 ≤ (specZoomRange g c).2 := by
  cases g <;> cases c <;> simp [specZoomRange] <;> norm_num

theorem WrapCameraZoomValue_modes (s : VogueGame) :
    (WrapCameraZoomValue s).m_gameMode = s.m_gameMode ∧
      (WrapCameraZoomValue s).m_cameraMode = s.m_cameraMode := by
  unfold WrapCameraZoomValue
  constructor <;> (simp only []; split_ifs <;> rfl)

theorem WrapCameraZoomValue_inRange (s : VogueGame) : InZoomRange (WrapCameraZoomValue s) := by
  have hle := specZoomRange_le s.m_gameMode s.m_cameraMode
  have hm := WrapCameraZoomValue_modes s
  unfold InZoomRange
  rw [hm.1, hm.2]
  unfold WrapCameraZoomValue
  rw [zoomBounds_eq_spec]
  simp only []
  split_ifs with h1 h2 h2
  · exact ⟨hle, le_refl _⟩
  · exact ⟨le_refl _, le_of_not_ge h2⟩
  · exact ⟨hle, le_refl _⟩
  · exact ⟨le_of_lt (lt_of_not_ge h1), le_of_not_ge h2⟩

theorem WrapCameraZoomValue_of_inRange (s : VogueGame) (h : InZoomRange s) :
    WrapCameraZoomValue s = s := by
  obtain ⟨h1, h2⟩ := h
  unfold WrapCameraZoomValue
  rw [zoomBounds_eq_spec]
  simp only []
  split_ifs with a b b
  · have e1 : s.m_maxCameraDistance = (specZoomRange s.m_gameMode s.m_cameraMode).1 :=
      le_antisymm a h1
    simp only [ge_iff_le] at b
    have e2 : (specZoomRange s.m_gameMode s.m_cameraMode).2 =
        (specZoomRange s.m_gameMode s.m_cameraMode).1 := le_antisymm b (specZoomRange_le _ _)
    rw [e2, ← e1]
  · have e1 : s.m_maxCameraDistance = (specZoomRange s.m_gameMode s.m_cameraMode).1 :=
      le_antisymm a h1
    rw [← e1]
  · have e2 : s.m_maxCameraDistance = (specZoomRange s.m_gameMode s.m_cameraMode).2 :=
      le_antisymm h2 b
    rw [← e2]
  · rfl

/-- C1: `WrapCameraZoomValue` clamps the target camera distance into the mode-dependent range
(`1.25..1.75` in Game with the first-person camera, `1.0..15.0` in Game with the auto,
mouse-rotate or NPC-dialog camera, `0.5..15.0` otherwise), leaves the game and camera mode
alone, returns a state whose distance is already inside the range unchanged, and a second
call changes nothing. -/
theorem WrapCameraZoomValue_clamps (s : VogueGame) :
    (specZoomRange s.m_gameMode s.m_cameraMode).1 ≤ (WrapCameraZoomValue s).m_maxCameraDistance ∧
    (WrapCameraZoomValue s).m_maxCameraDistance ≤ (specZoomRange s.m_gameMode s.m_cameraMode).2 ∧
    (WrapCameraZoomValue s).m_gameMode = s.m_gameMode ∧
    (WrapCameraZoomValue s).m_cameraMode = s.m_cameraMode ∧
    (InZoomRange s → WrapCameraZoomValue s = s) ∧
    WrapCameraZoomValue (WrapCameraZoomValue s) = WrapCameraZoomValue s := by
  have hr := WrapCameraZoomValue_inRange s
  have hm := WrapCameraZoomValue_modes s
  unfold InZoomRange at hr
  rw [hm.1, hm.2] at hr
  exact ⟨hr.1, hr.2, hm.1, hm.2, WrapCameraZoomValue_of_inRange s,
    WrapCameraZoomValue_of_inRange _ (WrapCameraZoomValue_inRange s)⟩

/-- Witness for C1: the mouse-rotate state with distance `5` is inside its range `1.0..15.0`
and `WrapCameraZoomValue` returns it unchanged. -/
theorem WrapCameraZoomValue_clamps_witness :
    InZoomRange mouseRotateState ∧ WrapCameraZoomValue mouseRotateState = mouseRotateState :=
  have h : InZoomRange mouseRotateState := by
    simp [InZoomRange, mouseRotateState, specZoomRange]; norm_num
  ⟨h, (WrapCameraZoomValue_clamps mouseRotateState).2.2.2.2.1 h⟩

theorem MouseScroll_eq_of_gates_closed (x y : ℚ) (s : VogueGame) (h : ¬ MouseScrollGatesOpen s) :
    MouseScroll x y s = s := by
  unfold MouseScrollGatesOpen at h
  unfold MouseScroll GetGameMode
  simp only []
  by_cases h1 : s.player.dead = false ∨
      (s.m_gameMode = GameMode.Debug ∨ s.m_cameraMode = CameraMode.Debug)
  · rw [if_pos h1]
    by_cases h2 : s.m_bPaused = false
    · rw [if_pos h2]
      by_cases h3 : s.player.targetEnemy = none
      · rw [if_pos h3]
        by_cases h4 : s.IsCursorOn = false ∨ ¬ (s.guiMouseInteracting = true)
        · exfalso
          apply h
          refine ⟨h1, h2, h3, ?_⟩
          rcases h4 with h4 | h4
          · exact Or.inl h4
          · exact Or.inr (by simpa using h4)
        · rw [if_neg h4]
      · rw [if_neg h3]
    · rw [if_neg h2]
  · rw [if_neg h1]

theorem MouseScroll_of_gates_open (x y : ℚ) (s : VogueGame) (h : MouseScrollGatesOpen s) :
    MouseScroll x y s =
      if s.m_cameraMode ≠ CameraMode.FirstPerson then
        WrapCameraZoomValue
          { s with m_maxCameraDistance := s.m_maxCameraDistance + (-y * (1 / 2)) }
      else if y < 0 then { s with m_cameraDistance := 2, m_maxCameraDistance := 2 } else s := by
  obtain ⟨h1, h2, h3, h4⟩ := h
  have h4c : s.IsCursorOn = false ∨ ¬ (s.guiMouseInteracting = true) := by
    rcases h4 with h4 | h4
    · exact Or.inl h4
    · exact Or.inr (by simp [h4])
  unfold MouseScroll GetGameMode
  rw [if_pos h1, if_pos h2, if_pos h3, if_pos h4c]

theorem JoystickCameraZoom_inRange (dt : ℚ) (s : VogueGame) :
    InZoomRange (JoystickCameraZoom dt s) := by
  unfold JoystickCameraZoom
  exact WrapCameraZoomValue_inRange _

theorem JoystickCameraZoom_firstPerson (dt : ℚ) (s : VogueGame) (hdt : 0 ≤ dt)
    (h : s.m_cameraMode = CameraMode.FirstPerson) :
    JoystickCameraZoom dt s =
      if s.window.joystickButton4 = true ∧ 0 < dt then
        WrapCameraZoomValue { s with m_cameraDistance := 2, m_maxCameraDistance := 2 }
      else WrapCameraZoomValue s := by
  unfold JoystickCameraZoom
  simp only [h, ne_eq, not_true_eq_false, if_false]
  by_cases hz : s.window.joystickButton4 = true
  · simp only [hz, if_true, true_and]
    by_cases hd : 0 < dt
    · rw [if_pos (by linarith), if_pos hd]
    · rw [if_neg (by linarith), if_neg hd]
  · have hz2 : s.window.joystickButton4 = false := by simpa using hz
    simp only [hz2, Bool.false_eq_true, if_false, false_and]
    by_cases hi : s.window.joystickButton5 = true
    · simp only [hi, if_true]
      rw [if_neg (by linarith)]
    · have hi2 : s.window.joystickButton5 = false := by simpa using hi
      simp [hi2]

/-- C2, counterexample: in game mode Game with the first-person camera and target distance
`1.5` (inside `1.25..1.75`), a mouse-wheel zoom-out `MouseScroll(0, -1)` returns with target
distance `2.0`, outside the range of the unchanged modes. -/
theorem MouseScroll_firstPerson_leaves_range :
    InZoomRange firstPersonState ∧
      (MouseScroll 0 (-1) firstPersonState).m_gameMode = GameMode.Game ∧
      (MouseScroll 0 (-1) firstPersonState).m_cameraMode = CameraMode.FirstPerson ∧
      (MouseScroll 0 (-1) firstPersonState).m_maxCameraDistance = 2 ∧
      ¬ InZoomRange (MouseScroll 0 (-1) firstPersonState) := by
  have hs : MouseScroll 0 (-1) firstPersonState =
      { firstPersonState with m_cameraDistance := 2, m_maxCameraDistance := 2 } := by
    rw [MouseScroll_of_gates_open _ _ _ (by decide)]
    simp [firstPersonState]
  rw [hs]
  refine ⟨?_, rfl, rfl, rfl, ?_⟩
  · simp [InZoomRange, firstPersonState, specZoomRange]; norm_num
  · simp [InZoomRange, firstPersonState, specZoomRange]; norm_num

/-- C2, amended: from a state whose target distance is inside the range of its modes, every
zoom input other than a first-person zoom-out keeps it inside: `MouseScroll` with any `y`
unless its gates are open, the camera is first-person and `y < 0`, and `JoystickCameraZoom`
with any buttons and `dt >= 0` unless the camera is first-person, the zoom-out button is held
and `dt > 0`. The mouse zoom-out in first-person sets the target distance to `2.0` and leaves
the modes alone. -/
theorem zoom_keeps_range_outside_firstPerson_zoomOut (s : VogueGame) (h : InZoomRange s) :
    (∀ x y : ℚ,
        ¬ (MouseScrollGatesOpen s ∧ s.m_cameraMode = CameraMode.FirstPerson ∧ y < 0) →
        InZoomRange (MouseScroll x y s)) ∧
    (∀ x y : ℚ, MouseScrollGatesOpen s → s.m_cameraMode = CameraMode.FirstPerson → y < 0 →
        (MouseScroll x y s).m_maxCameraDistance = 2 ∧
        (MouseScroll x y s).m_gameMode = s.m_gameMode ∧
        (MouseScroll x y s).m_cameraMode = s.m_cameraMode) ∧
    (∀ dt : ℚ, 0 ≤ dt →
        ¬ (s.m_cameraMode = CameraMode.FirstPerson ∧ s.window.joystickButton4 = true ∧ 0 < dt) →
        InZoomRange (JoystickCameraZoom dt s)) := by
  refine ⟨?_, ?_, ?_⟩
  · intro x y hn
    by_cases hg : MouseScrollGatesOpen s
    · rw [MouseScroll_of_gates_open x y s hg]
      by_cases hc : s.m_cameraMode = CameraMode.FirstPerson
      · have hy : ¬ y < 0 := fun hy => hn ⟨hg, hc, hy⟩
        simp only [hc, ne_eq, not_true_eq_false, if_false, hy]
        exact h
      · rw [if_pos hc]
        exact WrapCameraZoomValue_inRange _
    · rw [MouseScroll_eq_of_gates_closed x y s hg]
      exact h
  · intro x y hg hc hy
    rw [MouseScroll_of_gates_open x y s hg]
    simp [hc, hy]
  · intro dt hdt hn
    exact JoystickCameraZoom_inRange dt s

/-- Witness for C2: the mouse-rotate state with distance `5` is in range, and stays in range
under `MouseScroll(0, 1)` and under `JoystickCameraZoom(1)`. -/
theorem zoom_keeps_range_outside_firstPerson_zoomOut_witness :
    InZoomRange mouseRotateState ∧ InZoomRange (MouseScroll 0 1 mouseRotateState) ∧
      InZoomRange (JoystickCameraZoom 1 mouseRotateState) :=
  have h : InZoomRange mouseRotateState := by
    simp [InZoomRange, mouseRotateState, specZoomRange]; norm_num
  ⟨h, (zoom_keeps_range_outside_firstPerson_zoomOut mouseRotateState h).1 0 1 (by decide),
    (zoom_keeps_range_outside_firstPerson_zoomOut mouseRotateState h).2.2 1 (by norm_num)
      (by decide)⟩

/-- C3, the code at the failing input: with the first-person camera, the zoom-out button held
and `dt > 0`, `JoystickCameraZoom` returns with `m_cameraDistance` equal to `2.0` but with
`m_maxCameraDistance` clamped again by the trailing `WrapCameraZoomValue`, which is `1.75` in
game mode Game and `2.0` in the other game modes. -/
theorem JoystickCameraZoom_firstPerson_zoomOut (s : VogueGame) (dt : ℚ)
    (hc : s.m_cameraMode = CameraMode.FirstPerson) (hz : s.window.joystickButton4 = true)
    (hdt : 0 < dt) :
    (JoystickCameraZoom dt s).m_cameraDistance = 2 ∧
      (JoystickCameraZoom dt s).m_maxCameraDistance =
        (if s.m_gameMode = GameMode.Game then 7 / 4 else 2) := by
  rw [JoystickCameraZoom_firstPerson dt s (le_of_lt hdt) hc, if_pos ⟨hz, hdt⟩]
  unfold WrapCameraZoomValue
  rw [zoomBounds_eq_spec]
  cases hg : s.m_gameMode <;> simp [hc, hg, specZoomRange] <;> norm_num

/-- Witness for C3: in game mode Game with the first-person camera and the zoom-out button
held, `JoystickCameraZoom(1)` returns with `m_cameraDistance = 2.0` and
`m_maxCameraDistance = 1.75`. -/
theorem JoystickCameraZoom_firstPerson_zoomOut_witness :
    (JoystickCameraZoom 1 firstPersonZoomOutState).m_cameraDistance = 2 ∧
      (JoystickCameraZoom 1 firstPersonZoomOutState).m_maxCameraDistance = 7 / 4 :=
  JoystickCameraZoom_firstPerson_zoomOut firstPersonZoomOutState 1 rfl rfl (by norm_num)

/-! ### Game-mode transitions -/

theorem CloseAllGUIWindows_eq (s : VogueGame) :
    CloseAllGUIWindows s =
      { s with
        inventoryGUI := closedPage s.inventoryGUI
        characterGUI := closedPage s.characterGUI
        lootGUI := closedPage s.lootGUI
        craftingGUI := closedPage s.craftingGUI
        questGUI := closedPage s.questGUI
        calls := s.calls ++ closeAllCalls s } := by
  by_cases h1 : s.inventoryGUI.loaded = true ∧ s.inventoryGUI.loadDelayed = false <;>
  by_cases h2 : s.characterGUI.loaded = true ∧ s.characterGUI.loadDelayed = false <;>
  by_cases h3 : s.lootGUI.loaded = true ∧ s.lootGUI.loadDelayed = false <;>
  by_cases h4 : s.craftingGUI.loaded = true ∧ s.craftingGUI.loadDelayed = false <;>
  by_cases h5 : s.questGUI.loaded = true ∧ s.questGUI.loadDelayed = false <;>
  simp only [CloseAllGUIWindows, pageUnload, call, closedPage, closeAllCalls, closeCallsOf,
    h1, h2, h3, h4, h5, if_true, if_false, and_self, List.append_assoc, List.nil_append,
    List.singleton_append, List.cons_append, not_false_eq_true]

theorem gameBoundTeardown_eq (env : Env) (s : VogueGame) :
    gameBoundTeardown env s =
      { s with
        inventoryGUI := closedPage s.inventoryGUI
        characterGUI := closedPage s.characterGUI
        lootGUI := closedPage s.lootGUI
        craftingGUI := closedPage s.craftingGUI
        questGUI := closedPage s.questGUI
        player := env.playerResetPlayer s.player
        actionBar := if s.actionBar.loaded = false ∧ s.settings.m_renderGUI = true
          then { loaded := true, loadDelayed := false } else s.actionBar
        hud := if s.hud.loaded = false ∧ s.settings.m_renderGUI = true
          then { loaded := true, loadDelayed := false } else s.hud
        calls := s.calls ++ (closeAllCalls s ++ (clearWorldCalls ++
          (clearQuestCalls ++ loadBarCalls s))) } := by
  unfold gameBoundTeardown
  rw [CloseAllGUIWindows_eq]
  cases ha : s.actionBar.loaded <;> cases hh : s.hud.loaded <;>
    cases hr : s.settings.m_renderGUI <;>
    simp [pageLoad, call, clearWorldCalls, clearQuestCalls, loadBarCalls, ha, hh, hr]

theorem frontEndBoundTeardown_eq (env : Env) (s : VogueGame) :
    frontEndBoundTeardown env s =
      { s with
        inventoryGUI := closedPage s.inventoryGUI
        characterGUI := closedPage s.characterGUI
        lootGUI := closedPage s.lootGUI
        craftingGUI := closedPage s.craftingGUI
        questGUI := closedPage s.questGUI
        player := env.playerResetPlayer s.player
        actionBar := if s.actionBar.loaded = true ∧ s.settings.m_renderGUI = true
          then { s.actionBar with loaded := false } else s.actionBar
        hud := if s.hud.loaded = true ∧ s.settings.m_renderGUI = true
          then { s.hud with loaded := false } else s.hud
        calls := s.calls ++ (closeAllCalls s ++ (clearWorldCalls ++
          (Call.inventoryReset :: (clearQuestCalls ++ unloadBarCalls s)))) } := by
  unfold frontEndBoundTeardown
  rw [CloseAllGUIWindows_eq]
  cases ha : s.actionBar.loaded <;> cases hh : s.hud.loaded <;>
    cases hr : s.settings.m_renderGUI <;>
    simp [pageUnload, call, clearWorldCalls, clearQuestCalls, unloadBarCalls, ha, hh, hr]

theorem SetGameMode_toFrontEnd (env : Env) (s : VogueGame)
    (h : s.m_gameMode = GameMode.Game ∨ s.m_gameMode = GameMode.Loading) :
    SetGameMode env GameMode.FrontEnd s =
      (SetupDataForFrontEnd
        (frontEndBoundTeardown env { s with m_gameMode := GameMode.FrontEnd })).call
        Call.initializeChunkCreation := by
  unfold SetGameMode
  simp only [if_true, if_pos h]
  rw [frontEndBoundTeardown_eq]
  simp [SetupDataForFrontEnd, call]

theorem SetGameMode_toGame (env : Env) (s : VogueGame)
    (h : s.m_gameMode = GameMode.FrontEnd ∨ s.m_gameMode = GameMode.Loading) :
    SetGameMode env GameMode.Game s =
      (SetupDataForGame env
        (gameBoundTeardown env { s with m_gameMode := GameMode.Game })).call
        Call.initializeChunkCreation := by
  unfold SetGameMode
  simp [if_pos h]

theorem SetGameMode_no_transition (env : Env) (m : GameMode) (s : VogueGame)
    (hF : m = GameMode.FrontEnd →
      ¬ (s.m_gameMode = GameMode.Game ∨ s.m_gameMode = GameMode.Loading))
    (hG : m = GameMode.Game →
      ¬ (s.m_gameMode = GameMode.FrontEnd ∨ s.m_gameMode = GameMode.Loading)) :
    SetGameMode env m s = { s with m_gameMode := m } := by
  unfold SetGameMode
  cases m
  · simp
  · simp [if_neg (hF rfl)]
  · simp [if_neg (hG rfl)]
  · simp

theorem SetGameMode_m_gameMode (env : Env) (m : GameMode) (s : VogueGame) :
    (SetGameMode env m s).m_gameMode = m := by
  by_cases hF : m = GameMode.FrontEnd ∧
      (s.m_gameMode = GameMode.Game ∨ s.m_gameMode = GameMode.Loading)
  · obtain ⟨rfl, h⟩ := hF
    rw [SetGameMode_toFrontEnd env s h, frontEndBoundTeardown_eq]
    rfl
  · by_cases hG : m = GameMode.Game ∧
        (s.m_gameMode = GameMode.FrontEnd ∨ s.m_gameMode = GameMode.Loading)
    · obtain ⟨rfl, h⟩ := hG
      rw [SetGameMode_toGame env s h, gameBoundTeardown_eq]
      rfl
    · rw [SetGameMode_no_transition env m s (fun e h => hF ⟨e, h⟩) (fun e h => hG ⟨e, h⟩)]

theorem SetGameMode_of_same (env : Env) (m : GameMode) (s : VogueGame) (h : s.m_gameMode = m) :
    SetGameMode env m s = s := by
  subst h
  rw [SetGameMode_no_transition env s.m_gameMode s
    (fun e => by rw [e]; simp) (fun e => by rw [e]; simp)]

/-- C5: re-entering the current game mode is a no-op. For every mode `m`, `SetGameMode(m)`
called while `m_gameMode == m` returns the state unchanged (so no collaborator call is made and
`m_gameMode` stays `m`), and `SetGameMode(m)` followed by `SetGameMode(m)` yields the same
state as a single `SetGameMode(m)`. -/
theorem SetGameMode_reenter_noop (env : Env) (m : GameMode) (s : VogueGame) :
    (s.m_gameMode = m →
      SetGameMode env m s = s ∧ (SetGameMode env m s).calls = s.calls ∧
        (SetGameMode env m s).m_gameMode = m) ∧
    SetGameMode env m (SetGameMode env m s) = SetGameMode env m s := by
  refine ⟨fun h => ?_, SetGameMode_of_same env m _ (SetGameMode_m_gameMode env m s)⟩
  rw [SetGameMode_of_same env m s h]
  exact ⟨rfl, rfl, h⟩

/-- Witness for C5: `SetGameMode(FrontEnd)` on a front-end state with the inventory page open
returns that state, with the page still open and no call made. -/
theorem SetGameMode_reenter_noop_witness :
    frontEndState.m_gameMode = GameMode.FrontEnd ∧
      SetGameMode sampleEnv GameMode.FrontEnd frontEndState = frontEndState ∧
      (SetGameMode sampleEnv GameMode.FrontEnd frontEndState).calls = [] :=
  ⟨rfl, ((SetGameMode_reenter_noop sampleEnv GameMode.FrontEnd frontEndState).1 rfl).1,
    ((SetGameMode_reenter_noop sampleEnv GameMode.FrontEnd frontEndState).1 rfl).2.1⟩

theorem Collections.run_append (c : Collections) (l₁ l₂ : List Call) :
    c.run (l₁ ++ l₂) = (c.run l₁).run l₂ := by
  simp [Collections.run, List.foldl_append]

theorem Collections.run_closeCallsOf (c : Collections) (p : GuiPage) (v : PageState) :
    c.run (closeCallsOf p v) = c := by
  unfold closeCallsOf
  split_ifs <;> simp [Collections.run, Collections.apply]

theorem Collections.run_closeAllCalls (c : Collections) (s : VogueGame) :
    c.run (closeAllCalls s) = c := by
  unfold closeAllCalls
  simp only [Collections.run_append, Collections.run_closeCallsOf]
  simp [Collections.run, Collections.apply]

theorem Collections.run_loadBarCalls (c : Collections) (s : VogueGame) :
    c.run (loadBarCalls s) = c := by
  unfold loadBarCalls
  rw [Collections.run_append]
  split_ifs <;> simp [Collections.run, Collections.apply]

theorem Collections.run_clear (c : Collections) :
    c.run (clearWorldCalls ++ clearQuestCalls) = {} := by
  simp [Collections.run, Collections.apply, clearWorldCalls, clearQuestCalls]

/-- C6: on `SetGameMode(Game)` from FrontEnd or Loading, `SetupDataForGame` runs on the state
`mid` that the preceding statements produce; the calls made up to that moment contain all
eight `Clear*` calls, and whatever the collections held before the transition, after those
calls the item, item-spawner, NPC, enemy, enemy-spawner, projectile, quest and journal
collections are all empty; `SetupDataForGame` then appends its own calls. -/
theorem SetGameMode_Game_clears_before_setup (env : Env) (s : VogueGame)
    (h : s.m_gameMode = GameMode.FrontEnd ∨ s.m_gameMode = GameMode.Loading) :
    ∃ (mid : VogueGame) (pre : List Call),
      mid = gameBoundTeardown env { s with m_gameMode := GameMode.Game } ∧
      SetGameMode env GameMode.Game s =
        (SetupDataForGame env mid).call Call.initializeChunkCreation ∧
      mid.calls = s.calls ++ pre ∧
      (SetupDataForGame env mid).calls =
        s.calls ++ pre ++ setupDataForGameCalls env.randomLootAvailable ∧
      (Call.clearItems ∈ pre ∧ Call.clearItemSpawners ∈ pre ∧ Call.clearNPCs ∈ pre ∧
        Call.clearEnemies ∈ pre ∧ Call.clearEnemySpawners ∈ pre ∧
        Call.clearProjectiles ∈ pre ∧ Call.clearQuests ∈ pre ∧ Call.clearJournal ∈ pre) ∧
      ∀ c : Collections, c.run pre =
        { items := 0, itemSpawners := 0, npcs := 0, enemies := 0, enemySpawners := 0,
          projectiles := 0, quests := 0, journalEntries := 0 } := by
  refine ⟨gameBoundTeardown env { s with m_gameMode := GameMode.Game },
    closeAllCalls s ++ (clearWorldCalls ++ (clearQuestCalls ++ loadBarCalls s)),
    rfl, SetGameMode_toGame env s h, ?_, ?_, ?_, ?_⟩
  · rw [gameBoundTeardown_eq]
    rfl
  · rw [gameBoundTeardown_eq]
    rfl
  · simp [clearWorldCalls, clearQuestCalls]
  · intro c
    rw [Collections.run_append, Collections.run_closeAllCalls, ← List.append_assoc,
      Collections.run_append, Collections.run_clear, Collections.run_loadBarCalls]

/-- Witness for C6: from the front-end state with the inventory page open, the calls made
before `SetupDataForGame` empty collections that held entries. -/
theorem SetGameMode_Game_clears_before_setup_witness :
    (frontEndState.m_gameMode = GameMode.FrontEnd ∨ frontEndState.m_gameMode = GameMode.Loading) ∧
    ∃ (mid : VogueGame) (pre : List Call),
      mid = gameBoundTeardown sampleEnv { frontEndState with m_gameMode := GameMode.Game } ∧
      SetGameMode sampleEnv GameMode.Game frontEndState =
        (SetupDataForGame sampleEnv mid).call Call.initializeChunkCreation ∧
      mid.calls = frontEndState.calls ++ pre ∧
      (SetupDataForGame sampleEnv mid).calls =
        frontEndState.calls ++ pre ++ setupDataForGameCalls sampleEnv.randomLootAvailable ∧
      (Call.clearItems ∈ pre ∧ Call.clearItemSpawners ∈ pre ∧ Call.clearNPCs ∈ pre ∧
        Call.clearEnemies ∈ pre ∧ Call.clearEnemySpawners ∈ pre ∧
        Call.clearProjectiles ∈ pre ∧ Call.clearQuests ∈ pre ∧ Call.clearJournal ∈ pre) ∧
      ∀ c : Collections, c.run pre =
        { items := 0, itemSpawners := 0, npcs := 0, enemies := 0, enemySpawners := 0,
          projectiles := 0, quests := 0, journalEntries := 0 } :=
  ⟨Or.inl rfl, SetGameMode_Game_clears_before_setup sampleEnv frontEndState (Or.inl rfl)⟩

/-- C8: Loading is treated like the opposite play mode. From two states that differ only in
the previous game mode, `SetGameMode(Game)` from Loading yields the same state, calls
included, as from FrontEnd, and `SetGameMode(FrontEnd)` from Loading the same as from Game. -/
theorem SetGameMode_from_Loading (env : Env) (s : VogueGame) :
    SetGameMode env GameMode.Game { s with m_gameMode := GameMode.Loading } =
      SetGameMode env GameMode.Game { s with m_gameMode := GameMode.FrontEnd } ∧
    SetGameMode env GameMode.Game { s with m_gameMode := GameMode.Loading } =
      (SetupDataForGame env (gameBoundTeardown env { s with m_gameMode := GameMode.Game })).call
        Call.initializeChunkCreation ∧
    SetGameMode env GameMode.FrontEnd { s with m_gameMode := GameMode.Loading } =
      SetGameMode env GameMode.FrontEnd { s with m_gameMode := GameMode.Game } ∧
    SetGameMode env GameMode.FrontEnd { s with m_gameMode := GameMode.Loading } =
      (SetupDataForFrontEnd
        (frontEndBoundTeardown env { s with m_gameMode := GameMode.FrontEnd })).call
        Call.initializeChunkCreation := by
  refine ⟨?_, ?_, ?_, ?_⟩
  · rw [SetGameMode_toGame env _ (Or.inr rfl), SetGameMode_toGame env _ (Or.inl rfl)]
  · rw [SetGameMode_toGame env _ (Or.inr rfl)]
  · rw [SetGameMode_toFrontEnd env _ (Or.inr rfl), SetGameMode_toFrontEnd env _ (Or.inl rfl)]
  · rw [SetGameMode_toFrontEnd env _ (Or.inr rfl)]

theorem mem_closeAllCalls (s : VogueGame) (c : Call) (h : c ∈ closeAllCalls s) :
    (∃ p, c = Call.pageUnload p) ∨ c = Call.guiResetFocus := by
  unfold closeAllCalls closeCallsOf at h
  simp only [List.mem_append, List.mem_singleton] at h
  rcases h with ((((h | h) | h) | h) | h) | h
  · split_ifs at h <;> simp at h; exact Or.inl ⟨_, h⟩
  · split_ifs at h <;> simp at h; exact Or.inl ⟨_, h⟩
  · split_ifs at h <;> simp at h; exact Or.inl ⟨_, h⟩
  · split_ifs at h <;> simp at h; exact Or.inl ⟨_, h⟩
  · split_ifs at h <;> simp at h; exact Or.inl ⟨_, h⟩
  · exact Or.inr h

theorem mem_loadBarCalls (s : VogueGame) (c : Call) (h : c ∈ loadBarCalls s) :
    c = Call.pageLoad GuiPage.ActionBar false 0 ∨ c = Call.pageLoad GuiPage.HUD false 0 := by
  unfold loadBarCalls at h
  simp only [List.mem_append] at h
  rcases h with h | h
  · split_ifs at h <;> simp at h; exact Or.inl h
  · split_ifs at h <;> simp at h; exact Or.inr h

theorem mem_unloadBarCalls (s : VogueGame) (c : Call) (h : c ∈ unloadBarCalls s) :
    c = Call.pageUnload GuiPage.ActionBar ∨ c = Call.pageUnload GuiPage.HUD := by
  unfold unloadBarCalls at h
  simp only [List.mem_append] at h
  rcases h with h | h
  · split_ifs at h <;> simp at h; exact Or.inl h
  · split_ifs at h <;> simp at h; exact Or.inr h

theorem inventoryReset_not_mem_setup (b : Bool) :
    Call.inventoryReset ∉ setupDataForGameCalls b := by
  cases b <;> simp [setupDataForGameCalls]

/-- C7: started from the same state, the FrontEnd to Game and the Game to FrontEnd transitions
of `SetGameMode` make the same teardown calls in the same order (the unloads of
`CloseAllGUIWindows`, the six clears of items, spawners, NPCs, enemies and projectiles, the
clears of quests and journal, the reset of the quest GUI text and of the player, the water
height `5.3`, and at the end the chunk initialisation). They differ in that the FrontEnd-bound
one calls `InventoryManager::Reset` after the projectiles are cleared, unloads the action bar
and HUD where the Game-bound one loads them, and makes no population call where the Game-bound
one makes those of `SetupDataForGame`. The Game-bound transition never calls
`InventoryManager::Reset`, and the two resulting states agree on every field other than the
game mode, the action bar, the HUD and the recorded calls. -/
theorem SetGameMode_transitions_share_teardown (env : Env) (s : VogueGame) :
    (SetGameMode env GameMode.Game { s with m_gameMode := GameMode.FrontEnd }).calls =
      s.calls ++ (closeAllCalls s ++
        ([Call.clearItems, Call.clearItemSpawners, Call.clearNPCs, Call.clearEnemies,
          Call.clearEnemySpawners, Call.clearProjectiles] ++
        ([Call.clearQuests, Call.clearJournal, Call.questGUISetQuestData, Call.resetPlayer,
          Call.setWaterHeight (53 / 10)] ++
        (loadBarCalls s ++ (setupDataForGameCalls env.randomLootAvailable ++
          [Call.initializeChunkCreation]))))) ∧
    (SetGameMode env GameMode.FrontEnd { s with m_gameMode := GameMode.Game }).calls =
      s.calls ++ (closeAllCalls s ++
        ([Call.clearItems, Call.clearItemSpawners, Call.clearNPCs, Call.clearEnemies,
          Call.clearEnemySpawners, Call.clearProjectiles] ++ ([Call.inventoryReset] ++
        ([Call.clearQuests, Call.clearJournal, Call.questGUISetQuestData, Call.resetPlayer,
          Call.setWaterHeight (53 / 10)] ++
        (unloadBarCalls s ++ [Call.initializeChunkCreation]))))) ∧
    (∀ c ∈ loadBarCalls s,
      c = Call.pageLoad GuiPage.ActionBar false 0 ∨ c = Call.pageLoad GuiPage.HUD false 0) ∧
    (∀ c ∈ unloadBarCalls s,
      c = Call.pageUnload GuiPage.ActionBar ∨ c = Call.pageUnload GuiPage.HUD) ∧
    Call.inventoryReset ∉ closeAllCalls s ++
        ([Call.clearItems, Call.clearItemSpawners, Call.clearNPCs, Call.clearEnemies,
          Call.clearEnemySpawners, Call.clearProjectiles] ++
        ([Call.clearQuests, Call.clearJournal, Call.questGUISetQuestData, Call.resetPlayer,
          Call.setWaterHeight (53 / 10)] ++
        (loadBarCalls s ++ (setupDataForGameCalls env.randomLootAvailable ++
          [Call.initializeChunkCreation])))) ∧
    { SetGameMode env GameMode.Game { s with m_gameMode := GameMode.FrontEnd } with
        m_gameMode := GameMode.Loading, actionBar := {}, hud := {}, calls := [] } =
      { SetGameMode env GameMode.FrontEnd { s with m_gameMode := GameMode.Game } with
        m_gameMode := GameMode.Loading, actionBar := {}, hud := {}, calls := [] } := by
  rw [SetGameMode_toGame env _ (Or.inl rfl), SetGameMode_toFrontEnd env _ (Or.inl rfl),
    gameBoundTeardown_eq, frontEndBoundTeardown_eq]
  refine ⟨?_, ?_, mem_loadBarCalls s, mem_unloadBarCalls s, ?_, ?_⟩
  · simp [SetupDataForGame, call, clearWorldCalls, clearQuestCalls, closeAllCalls, loadBarCalls]
  · simp [SetupDataForFrontEnd, call, clearWorldCalls, clearQuestCalls, closeAllCalls,
      unloadBarCalls]
  · intro hmem
    simp only [List.mem_append] at hmem
    rcases hmem with h | h | h | h | h | h
    · rcases mem_closeAllCalls s _ h with ⟨p, hp⟩ | hp <;> cases hp
    · simp at h
    · simp at h
    · rcases mem_loadBarCalls s _ h with hp | hp <;> cases hp
    · exact inventoryReset_not_mem_setup _ h
    · simp at h
  · simp [SetupDataForGame, SetupDataForFrontEnd, call]

/-! ### Interactions -/

@[simp] theorem call_calls (s : VogueGame) (c : Call) : (s.call c).calls = s.calls ++ [c] := rfl

@[simp] theorem call_m_movementSpeed (s : VogueGame) (c : Call) :
    (s.call c).m_movementSpeed = s.m_movementSpeed := rfl

@[simp] theorem pageLoad_calls (p : GuiPage) (d : Bool) (q : ℚ) (s : VogueGame) :
    (pageLoad p d q s).calls = s.calls ++ [Call.pageLoad p d q] := by
  cases p <;> rfl

@[simp] theorem pageLoad_m_movementSpeed (p : GuiPage) (d : Bool) (q : ℚ) (s : VogueGame) :
    (pageLoad p d q s).m_movementSpeed = s.m_movementSpeed := by
  cases p <;> rfl

@[simp] theorem pageUnload_calls (p : GuiPage) (s : VogueGame) :
    (pageUnload p s).calls = s.calls ++ [Call.pageUnload p] := by
  cases p <;> rfl

@[simp] theorem pageUnload_m_movementSpeed (p : GuiPage) (s : VogueGame) :
    (pageUnload p s).m_movementSpeed = s.m_movementSpeed := by
  cases p <;> rfl

@[simp] theorem TurnCursorOn_calls (env : Env) (a b : Bool) (s : VogueGame) :
    (TurnCursorOn env a b s).calls = s.calls ++ [Call.windowTurnCursorOn a b] := rfl

@[simp] theorem TurnCursorOn_m_movementSpeed (env : Env) (a b : Bool) (s : VogueGame) :
    (TurnCursorOn env a b s).m_movementSpeed = s.m_movementSpeed := rfl

@[simp] theorem TurnCursorOff_calls (env : Env) (a : Bool) (s : VogueGame) :
    (TurnCursorOff env a s).calls = s.calls ++ [Call.windowTurnCursorOff a] := rfl

@[simp] theorem TurnCursorOff_m_movementSpeed (env : Env) (a : Bool) (s : VogueGame) :
    (TurnCursorOff env a s).m_movementSpeed = s.m_movementSpeed := rfl

@[simp] theorem playerStopMoving_calls (env : Env) (s : VogueGame) :
    (playerStopMoving env s).calls = s.calls ++ [Call.playerStopMoving] := rfl

@[simp] theorem playerStopMoving_m_movementSpeed (env : Env) (s : VogueGame) :
    (playerStopMoving env s).m_movementSpeed = s.m_movementSpeed := rfl

@[simp] theorem call_m_pInteractItem (s : VogueGame) (c : Call) :
    (s.call c).m_pInteractItem = s.m_pInteractItem := rfl

@[simp] theorem pageLoad_m_pInteractItem (p : GuiPage) (d : Bool) (q : ℚ) (s : VogueGame) :
    (pageLoad p d q s).m_pInteractItem = s.m_pInteractItem := by
  cases p <;> rfl

@[simp] theorem TurnCursorOn_m_pInteractItem (env : Env) (a b : Bool) (s : VogueGame) :
    (TurnCursorOn env a b s).m_pInteractItem = s.m_pInteractItem := rfl

@[simp] theorem playerStopMoving_m_pInteractItem (env : Env) (s : VogueGame) :
    (playerStopMoving env s).m_pInteractItem = s.m_pInteractItem := rfl

theorem interactDroppedItem_frame (env : Env) (it : Item) (i : Bool) (s : VogueGame) :
    (interactDroppedItem env it i s).2.calls = s.calls ∧
    (interactDroppedItem env it i s).2.m_movementSpeed = s.m_movementSpeed := by
  unfold interactDroppedItem
  split_ifs <;> exact ⟨rfl, rfl⟩

theorem interactCraftingStation_frame (env : Env) (it : Item) (i sh : Bool) (s : VogueGame) :
    ∃ post, (interactCraftingStation env it i sh s).2.2.calls = s.calls ++ post ∧
      (interactCraftingStation env it i sh s).2.2.m_movementSpeed = s.m_movementSpeed ∧
      (Call.playerStopMoving ∈ post → (interactCraftingStation env it i sh s).2.1 = true) ∧
      (Call.playerStopMoving ∉ post → (interactCraftingStation env it i sh s).2.1 = sh) ∧
      (Call.playerStopMoving ∈ post ↔
        (it.itemType = eItem.Anvil ∨ it.itemType = eItem.Furnace)) ∧
      (interactCraftingStation env it i sh s).2.2.m_pInteractItem = s.m_pInteractItem := by
  unfold interactCraftingStation
  by_cases hty : it.itemType = eItem.Anvil ∨ it.itemType = eItem.Furnace
  · rw [if_pos hty]
    by_cases hl : (playerStopMoving env s).craftingGUI.loaded = false
    · refine ⟨[Call.playerStopMoving, Call.craftingSetRecipesForItem it.itemType,
        Call.pageLoad GuiPage.Crafting true (9 / 10), Call.craftingSetInteractionitem,
        Call.savePreviousCameraMode, Call.windowTurnCursorOn false false,
        Call.playerSetMoveToTargetPosition it.interactionPosition,
        Call.playerSetLookAtTargetAfterMoveToPosition it.center,
        Call.letterBoxInterpolation 1], ?_, ?_, ?_, ?_, ?_, ?_⟩
      · simp only [if_pos hl]
        split_ifs <;> simp [OpenLetterBox, SetCameraMode, SavePreviousCameraMode]
      · simp only [if_pos hl]
        split_ifs <;> simp [OpenLetterBox, SetCameraMode, SavePreviousCameraMode]
      · intro _; rfl
      · intro h; simp at h
      · simp [hty]
      · simp only [if_pos hl]
        split_ifs <;> simp [OpenLetterBox, SetCameraMode, SavePreviousCameraMode]
    · refine ⟨[Call.playerStopMoving,
        Call.playerSetMoveToTargetPosition it.interactionPosition,
        Call.playerSetLookAtTargetAfterMoveToPosition it.center,
        Call.letterBoxInterpolation 1], ?_, ?_, ?_, ?_, ?_, ?_⟩
      · simp only [if_neg hl]
        split_ifs <;> simp [OpenLetterBox, SetCameraMode]
      · simp only [if_neg hl]
        split_ifs <;> simp [OpenLetterBox, SetCameraMode]
      · intro _; rfl
      · intro h; simp at h
      · simp [hty]
      · simp only [if_neg hl]
        split_ifs <;> simp [OpenLetterBox, SetCameraMode]
  · rw [if_neg hty]
    exact ⟨[], by simp, rfl, by simp, fun _ => rfl, by simp [hty], rfl⟩

theorem openOrCloseChestGUI_frame (env : Env) (s : VogueGame) :
    ∃ post, (openOrCloseChestGUI env s).calls = s.calls ++ Call.playerStopMoving :: post ∧
      (openOrCloseChestGUI env s).m_movementSpeed = s.m_movementSpeed := by
  unfold openOrCloseChestGUI
  simp only []
  split_ifs
  · exact ⟨[Call.pageUnload GuiPage.Loot, Call.windowTurnCursorOff false], by simp, by simp⟩
  · exact ⟨[Call.pageUnload GuiPage.Loot], by simp, by simp⟩
  · exact ⟨[Call.lootLoadItems, Call.pageLoad GuiPage.Loot true 1,
      Call.pageLoad GuiPage.Inventory true 1, Call.playerStopMoving,
      Call.windowTurnCursorOn false false], by simp, by simp⟩
  · exact ⟨[Call.lootLoadItems, Call.pageLoad GuiPage.Loot true 1, Call.playerStopMoving,
      Call.windowTurnCursorOn false false], by simp, by simp⟩
  · exact ⟨[], by simp, by simp⟩

theorem interactChest_frame (env : Env) (it : Item) (i sh : Bool) (s : VogueGame) :
    ∃ post, (interactChest env it i sh s).2.2.calls = s.calls ++ post ∧
      (interactChest env it i sh s).2.2.m_movementSpeed = s.m_movementSpeed ∧
      (Call.playerStopMoving ∈ post → (interactChest env it i sh s).2.1 = true) ∧
      (Call.playerStopMoving ∉ post → (interactChest env it i sh s).2.1 = sh) ∧
      (Call.playerStopMoving ∈ post ↔
        (it.itemType = eItem.Chest ∧ it.stillAnimating = false ∧
          (env.itemInteract it).interacting = true)) := by
  unfold interactChest
  simp only []
  split_ifs with h1 h2 h3
  · obtain ⟨post, e1, e2⟩ := openOrCloseChestGUI_frame env
      { s.call Call.itemInteract with m_pInteractItem := some (env.itemInteract it) }
    refine ⟨Call.itemInteract :: Call.playerStopMoving :: post, ?_, ?_, fun _ => rfl, ?_, ?_⟩
    · rw [e1]; simp
    · rw [e2]; rfl
    · intro h; simp at h
    · simp [h1, h2, h3]
  · exact ⟨[Call.itemInteract], rfl, rfl, fun h => by simp at h, fun _ => rfl,
      by simp [h1, h2, h3]⟩
  · exact ⟨[], by simp, rfl, fun h => by simp at h, fun _ => rfl, by simp [h1, h2]⟩
  · exact ⟨[], by simp, rfl, fun h => by simp at h, fun _ => rfl, by simp [h1]⟩

theorem interactDroppedItem_item (env : Env) (it : Item) (i : Bool) (s : VogueGame)
    (hs : s.m_pInteractItem = some it) :
    ∃ it1, (interactDroppedItem env it i s).2.m_pInteractItem = some it1 ∧
      it1.itemType = it.itemType ∧ (it.itemType ≠ eItem.DroppedItem → it1 = it) := by
  unfold interactDroppedItem
  split_ifs with h1 h2
  · exact ⟨_, rfl, rfl, fun h => absurd h1 h⟩
  · exact ⟨it, hs, rfl, fun _ => rfl⟩
  · exact ⟨it, hs, rfl, fun _ => rfl⟩

theorem interactWithItem_frame (env : Env) (it : Item) (s : VogueGame)
    (hs : s.m_pInteractItem = some it) :
    ∃ post, (interactWithItem env it s).2.calls = s.calls ++ post ∧
      (Call.playerStopMoving ∈ post → (interactWithItem env it s).2.m_movementSpeed = 0) ∧
      (Call.playerStopMoving ∉ post →
        (interactWithItem env it s).2.m_movementSpeed = s.m_movementSpeed) ∧
      (Call.playerStopMoving ∈ post ↔
        (it.itemType = eItem.Anvil ∨ it.itemType = eItem.Furnace ∨
          (it.itemType = eItem.Chest ∧ it.stillAnimating = false ∧
            (env.itemInteract it).interacting = true))) := by
  unfold interactWithItem
  simp only []
  obtain ⟨a1, a2⟩ := interactDroppedItem_frame env it false s
  obtain ⟨it1, a3, a4, a5⟩ := interactDroppedItem_item env it false s hs
  generalize interactDroppedItem env it false s = r1 at a1 a2 a3 ⊢
  rw [a3]
  simp only [Option.getD_some]
  obtain ⟨p2, b1, b2, b3, b4, b5, b6⟩ := interactCraftingStation_frame env it1 r1.1 false r1.2
  generalize interactCraftingStation env it1 r1.1 false r1.2 = r2 at b1 b2 b3 b4 b6 ⊢
  rw [b6, a3]
  simp only [Option.getD_some]
  obtain ⟨p3, c1, c2, c3, c4, c5⟩ := interactChest_frame env it1 r2.1 r2.2.1 r2.2.2
  generalize interactChest env it1 r2.1 r2.2.1 r2.2.2 = r3 at c1 c2 c3 c4 ⊢
  refine ⟨p2 ++ p3, ?_, ?_, ?_, ?_⟩
  · split_ifs <;> simp [c1, b1, a1]
  · intro hmem
    have hsh : r3.2.1 = true := by
      by_cases h3 : Call.playerStopMoving ∈ p3
      · exact c3 h3
      · rw [c4 h3]
        rcases List.mem_append.1 hmem with h2 | h2
        · exact b3 h2
        · exact absurd h2 h3
    rw [if_pos hsh]
  · intro hmem
    have h2 : Call.playerStopMoving ∉ p2 := fun h => hmem (List.mem_append.2 (Or.inl h))
    have h3 : Call.playerStopMoving ∉ p3 := fun h => hmem (List.mem_append.2 (Or.inr h))
    have hsh : r3.2.1 = false := by rw [c4 h3, b4 h2]
    rw [if_neg (by simp [hsh])]
    rw [c2, b2, a2]
  · rw [List.mem_append, b5, c5, a4]
    constructor
    · rintro (h | h)
      · rcases h with h | h
        · exact Or.inl h
        · exact Or.inr (Or.inl h)
      · have hne : it.itemType ≠ eItem.DroppedItem := by rw [h.1]; decide
        rw [a5 hne] at h
        exact Or.inr (Or.inr h)
    · rintro (h | h | h)
      · exact Or.inl (Or.inl h)
      · exact Or.inl (Or.inr h)
      · have hne : it.itemType ≠ eItem.DroppedItem := by rw [h.1]; decide
        rw [a5 hne]
        exact Or.inr h

theorem CheckInteractions_of_blocked (env : Env) (s : VogueGame) (h : InteractionBlocked s) :
    CheckInteractions env s = (false, s) := by
  unfold CheckInteractions
  by_cases h1 : s.m_bPaused = true
  · rw [if_pos h1]
  · rw [if_neg h1]
    by_cases h2 : s.player.canJump = false
    · rw [if_pos h2]
    · rw [if_neg h2]
      by_cases h3 : s.player.dead = true
      · rw [if_pos h3]
      · rw [if_neg h3]
        by_cases h4 : s.player.targetEnemy ≠ none
        · rw [if_pos h4]
        · rcases h with h | h | h | h
          · exact absurd h h1
          · exact absurd h h2
          · exact absurd h h3
          · exact absurd h h4

theorem CheckInteractions_of_open (env : Env) (s : VogueGame) (h : ¬ InteractionBlocked s) :
    CheckInteractions env s =
      (match (s.call Call.mutexLock).m_pInteractItem with
        | some it =>
          ((interactWithItem env it (s.call Call.mutexLock)).1,
            (interactWithItem env it (s.call Call.mutexLock)).2.call Call.mutexUnlock)
        | none => (false, (s.call Call.mutexLock).call Call.mutexUnlock)) := by
  unfold InteractionBlocked at h
  have h1 : ¬ s.m_bPaused = true := fun e => h (Or.inl e)
  have h2 : ¬ s.player.canJump = false := fun e => h (Or.inr (Or.inl e))
  have h3 : ¬ s.player.dead = true := fun e => h (Or.inr (Or.inr (Or.inl e)))
  have h4 : ¬ s.player.targetEnemy ≠ none := fun e => h (Or.inr (Or.inr (Or.inr e)))
  unfold CheckInteractions
  rw [if_neg h1, if_neg h2, if_neg h3, if_neg h4]
  simp only [call_m_pInteractItem]
  cases s.m_pInteractItem <;> rfl

/-- C9: `CheckInteractions` short-circuits to "no interaction". If the game is paused, or the
player cannot jump, or is dead, or has a target enemy, then whatever the interact item is the
result is `false` and the state is returned unchanged: no call is recorded, so the interact-item
mutex is not locked, and no game, player, item, GUI or camera field changes. The result is
also `false` when the interact item is null. -/
theorem CheckInteractions_short_circuit (env : Env) (s : VogueGame) :
    (InteractionBlocked s →
      CheckInteractions env s = (false, s) ∧ (CheckInteractions env s).2.calls = s.calls) ∧
    (s.m_pInteractItem = none → (CheckInteractions env s).1 = false) := by
  constructor
  · intro h
    rw [CheckInteractions_of_blocked env s h]
    exact ⟨rfl, rfl⟩
  · intro hn
    by_cases h : InteractionBlocked s
    · rw [CheckInteractions_of_blocked env s h]
    · rw [CheckInteractions_of_open env s h]
      simp [hn]

/-- Witness for C9: with the game paused next to a chest, `CheckInteractions` returns `false`
and the state as it was. -/
theorem CheckInteractions_short_circuit_witness :
    InteractionBlocked pausedChestState ∧
      pausedChestState.m_pInteractItem = some { itemType := eItem.Chest } ∧
      CheckInteractions sampleEnv pausedChestState = (false, pausedChestState) :=
  ⟨Or.inl rfl, rfl,
    ((CheckInteractions_short_circuit sampleEnv pausedChestState).1 (Or.inl rfl)).1⟩

/-- C10: every interaction branch that stops the player also zeroes the drag speed. The calls
`CheckInteractions` makes extend the recorded calls by some list `post`; if `post` contains
`Player::StopMoving` then `m_movementSpeed` is `0` on return, and if it does not then
`m_movementSpeed` is unchanged. `StopMoving` is called exactly when the gates are open and the
interact item is an anvil, a furnace, or a chest that is not animating and is interacting
after `Interact()`. -/
theorem CheckInteractions_stop_zeroes_speed (env : Env) (s : VogueGame) :
    ∃ post, (CheckInteractions env s).2.calls = s.calls ++ post ∧
      (Call.playerStopMoving ∈ post → (CheckInteractions env s).2.m_movementSpeed = 0) ∧
      (Call.playerStopMoving ∉ post →
        (CheckInteractions env s).2.m_movementSpeed = s.m_movementSpeed) ∧
      (Call.playerStopMoving ∈ post ↔ StopsPlayer env s) := by
  by_cases h : InteractionBlocked s
  · rw [CheckInteractions_of_blocked env s h]
    refine ⟨[], by simp, fun hm => by simp at hm, fun _ => rfl, ?_⟩
    constructor
    · intro hm; simp at hm
    · intro hs; exact absurd h hs.1
  · rw [CheckInteractions_of_open env s h]
    simp only [call_m_pInteractItem]
    cases hi : s.m_pInteractItem with
    | none =>
      refine ⟨[Call.mutexLock, Call.mutexUnlock], by simp, fun hm => by simp at hm,
        fun _ => rfl, ?_⟩
      constructor
      · intro hm; simp at hm
      · rintro ⟨_, it, hit, _⟩
        rw [hi] at hit
        cases hit
    | some it =>
      obtain ⟨post, e1, e2, e3, e4⟩ :=
        interactWithItem_frame env it (s.call Call.mutexLock) hi
      refine ⟨Call.mutexLock :: (post ++ [Call.mutexUnlock]), ?_, ?_, ?_, ?_⟩
      · simp [e1]
      · intro hm
        have hm2 : Call.playerStopMoving ∈ post := by simpa using hm
        simpa using e2 hm2
      · intro hm
        have hm2 : Call.playerStopMoving ∉ post := fun hh => hm (by simp [hh])
        simpa using e3 hm2
      · have hmem : Call.playerStopMoving ∈ Call.mutexLock :: (post ++ [Call.mutexUnlock]) ↔
            Call.playerStopMoving ∈ post := by simp
        rw [hmem, e4]
        constructor
        · intro hh
          exact ⟨h, it, hi, hh⟩
        · rintro ⟨_, it2, hit, hh⟩
          rw [hi] at hit
          cases hit
          exact hh

/-- Witness for C10: next to a closed chest the player is stopped and the drag speed `3`
becomes `0`; next to a dropped item the player is not stopped and the speed stays `3`. -/
theorem CheckInteractions_stop_zeroes_speed_witness :
    StopsPlayer sampleEnv chestState ∧
      (CheckInteractions sampleEnv chestState).2.m_movementSpeed = 0 ∧
      ¬ StopsPlayer sampleEnv droppedItemState ∧
      (CheckInteractions sampleEnv droppedItemState).2.m_movementSpeed = 3 := by
  obtain ⟨_, _, h2, _, h4⟩ := CheckInteractions_stop_zeroes_speed sampleEnv chestState
  obtain ⟨_, _, _, k3, k4⟩ := CheckInteractions_stop_zeroes_speed sampleEnv droppedItemState
  have hs : StopsPlayer sampleEnv chestState :=
    ⟨by simp [InteractionBlocked, chestState], _, rfl, Or.inr (Or.inr ⟨rfl, rfl, rfl⟩)⟩
  have hn : ¬ StopsPlayer sampleEnv droppedItemState := by
    rintro ⟨_, it, hit, hh⟩
    have e : it = { itemType := eItem.DroppedItem } := by
      simp only [droppedItemState, Option.some.injEq] at hit
      exact hit.symm
    subst e
    simp at hh
  exact ⟨hs, h2 (h4.2 hs), hn, k3 (fun hm => hn (k4.1 hm))⟩

/-! ### Interactions by item type -/

theorem interactWithItem_droppedItem (env : Env) (it : Item) (s : VogueGame)
    (hs : s.m_pInteractItem = some it) (ht : it.itemType = eItem.DroppedItem) :
    interactWithItem env it s =
      (true,
        if env.canAddInventoryItem it.droppedInventoryItem.m_title
            it.droppedInventoryItem.m_item it.droppedInventoryItem.m_quantity = true
        then { s with
          m_pInteractItem := some { it with isCollectible := true, collectionDelay := 0 } }
        else s) := by
  unfold interactWithItem interactDroppedItem
  simp only [ht, if_true]
  by_cases hc : env.canAddInventoryItem it.droppedInventoryItem.m_title
      it.droppedInventoryItem.m_item it.droppedInventoryItem.m_quantity = true
  · simp [hc, interactCraftingStation, interactChest, ht]
  · simp [hc, hs, interactCraftingStation, interactChest, ht]

theorem interactWithItem_craftingStation (env : Env) (it : Item) (s : VogueGame)
    (hs : s.m_pInteractItem = some it)
    (ht : it.itemType = eItem.Anvil ∨ it.itemType = eItem.Furnace) :
    interactWithItem env it s =
      (true, { (interactCraftingStation env it false false s).2.2 with m_movementSpeed := 0 }) := by
  have hd : it.itemType ≠ eItem.DroppedItem := by rcases ht with h | h <;> rw [h] <;> decide
  have hc : it.itemType ≠ eItem.Chest := by rcases ht with h | h <;> rw [h] <;> decide
  obtain ⟨_, _, _, _, _, _, hkeep⟩ := interactCraftingStation_frame env it false false s
  unfold interactWithItem interactDroppedItem
  simp only [if_neg hd, hs, Option.getD_some, hkeep]
  have h1 : (interactCraftingStation env it false false s).1 = true := by
    unfold interactCraftingStation; rw [if_pos ht]
  have h2 : (interactCraftingStation env it false false s).2.1 = true := by
    unfold interactCraftingStation; rw [if_pos ht]
  unfold interactChest
  simp [if_neg hc, h1, h2, hkeep, hs]

theorem interactWithItem_chest (env : Env) (it : Item) (s : VogueGame)
    (hs : s.m_pInteractItem = some it) (ht : it.itemType = eItem.Chest) :
    interactWithItem env it s =
      ((interactChest env it false false s).1,
        if (interactChest env it false false s).2.1 = true
        then { (interactChest env it false false s).2.2 with m_movementSpeed := 0 }
        else (interactChest env it false false s).2.2) := by
  have hd : it.itemType ≠ eItem.DroppedItem := by rw [ht]; decide
  have hc : ¬ (it.itemType = eItem.Anvil ∨ it.itemType = eItem.Furnace) := by rw [ht]; decide
  unfold interactWithItem interactDroppedItem interactCraftingStation
  simp only [if_neg hd, if_neg hc, hs, Option.getD_some]

theorem CheckInteractions_of_item (env : Env) (s : VogueGame) (it : Item)
    (h : ¬ InteractionBlocked s) (hs : s.m_pInteractItem = some it) :
    CheckInteractions env s =
      ((interactWithItem env it (s.call Call.mutexLock)).1,
        (interactWithItem env it (s.call Call.mutexLock)).2.call Call.mutexUnlock) := by
  rw [CheckInteractions_of_open env s h]
  simp only [call_m_pInteractItem, hs]

theorem CheckInteractions_droppedItem_eq (env : Env) (s : VogueGame) (it : Item)
    (h : ¬ InteractionBlocked s) (hs : s.m_pInteractItem = some it)
    (ht : it.itemType = eItem.DroppedItem) :
    CheckInteractions env s =
      (true,
        { s with
          m_pInteractItem :=
            if env.canAddInventoryItem it.droppedInventoryItem.m_title
                it.droppedInventoryItem.m_item it.droppedInventoryItem.m_quantity = true
            then some { it with isCollectible := true, collectionDelay := 0 }
            else some it
          calls := s.calls ++ [Call.mutexLock, Call.mutexUnlock] }) := by
  rw [CheckInteractions_of_item env s it h hs,
    interactWithItem_droppedItem env it (s.call Call.mutexLock) hs ht]
  by_cases hc : env.canAddInventoryItem it.droppedInventoryItem.m_title
      it.droppedInventoryItem.m_item it.droppedInventoryItem.m_quantity = true
  · simp [hc, call]
  · simp [hc, call, hs]

/-- C11: for a dropped-item interact item with the gates open, `CheckInteractions` returns
`true` and marks the item collectible with collection delay `0` exactly when
`InventoryManager::CanAddInventoryItem` accepts the dropped item's title, type and quantity;
when it does not, the item (its collectible flag and delay included) is left as it was. Apart
from the item and the lock and unlock of the mutex nothing in the state changes. -/
theorem CheckInteractions_droppedItem (env : Env) (s : VogueGame) (it : Item)
    (h : ¬ InteractionBlocked s) (hs : s.m_pInteractItem = some it)
    (ht : it.itemType = eItem.DroppedItem) :
    CheckInteractions env s =
      (true,
        { s with
          m_pInteractItem :=
            if env.canAddInventoryItem it.droppedInventoryItem.m_title
                it.droppedInventoryItem.m_item it.droppedInventoryItem.m_quantity = true
            then some { it with isCollectible := true, collectionDelay := 0 }
            else some it
          calls := s.calls ++ [Call.mutexLock, Call.mutexUnlock] }) := by
  rw [CheckInteractions_of_item env s it h hs,
    interactWithItem_droppedItem env it (s.call Call.mutexLock) hs ht]
  by_cases hc : env.canAddInventoryItem it.droppedInventoryItem.m_title
      it.droppedInventoryItem.m_item it.droppedInventoryItem.m_quantity = true
  · simp [hc, call]
  · simp [hc, call, hs]

/-- Witness for C11: the dropped item of the sample state is not collectible; with an inventory
that accepts it the item is collectible after `CheckInteractions`, with a full inventory it is
unchanged. -/
theorem CheckInteractions_droppedItem_witness :
    ¬ InteractionBlocked droppedItemState ∧
      (CheckInteractions sampleEnv droppedItemState).2.m_pInteractItem =
        some { itemType := eItem.DroppedItem, isCollectible := true, collectionDelay := 0 } ∧
      (CheckInteractions fullInventoryEnv droppedItemState).2.m_pInteractItem =
        some { itemType := eItem.DroppedItem, isCollectible := false } := by
  have hopen : ¬ InteractionBlocked droppedItemState := by
    simp [InteractionBlocked, droppedItemState]
  refine ⟨hopen, ?_, ?_⟩
  · rw [CheckInteractions_droppedItem sampleEnv droppedItemState _ hopen rfl rfl]
    rfl
  · rw [CheckInteractions_droppedItem fullInventoryEnv droppedItemState _ hopen rfl rfl]
    rfl

theorem Vec3.add_scale_zero (a c : Vec3) : a.add (c.scale 0) = a := by
  cases a; simp [Vec3.add, Vec3.scale]

theorem CheckInteractions_craftingStation_fields (env : Env) (s : VogueGame) (it : Item)
    (h : ¬ InteractionBlocked s) (hs : s.m_pInteractItem = some it)
    (ht : it.itemType = eItem.Anvil ∨ it.itemType = eItem.Furnace) :
    (CheckInteractions env s).1 = true ∧
    (CheckInteractions env s).2.m_cameraMode = CameraMode.NPCDialog ∧
    (CheckInteractions env s).2.m_pInteractItem = some it ∧
    (CheckInteractions env s).2.m_bPaused = s.m_bPaused ∧
    (CheckInteractions env s).2.player = { env.playerStopMoving s.player with alpha := 1 } ∧
    (CheckInteractions env s).2.m_targetCameraPosition_NPCDialog =
      (if dialogSide env s.cameraFacing it > 1 / 2 then dialogPosition env it
        else dialogPositionMirrored env it) ∧
    (CheckInteractions env s).2.m_targetCameraView_NPCDialog =
      (if dialogSide env s.cameraFacing it > 1 / 2 then dialogView env it
        else dialogViewMirrored env it) ∧
    (s.craftingGUI.loaded = false →
      (CheckInteractions env s).2.calls = s.calls ++
        [Call.mutexLock, Call.playerStopMoving, Call.craftingSetRecipesForItem it.itemType,
          Call.pageLoad GuiPage.Crafting true (9 / 10), Call.craftingSetInteractionitem,
          Call.savePreviousCameraMode, Call.windowTurnCursorOn false false,
          Call.playerSetMoveToTargetPosition it.interactionPosition,
          Call.playerSetLookAtTargetAfterMoveToPosition it.center,
          Call.letterBoxInterpolation 1, Call.mutexUnlock] ∧
      (CheckInteractions env s).2.m_previousCameraMode = s.m_cameraMode ∧
      (CheckInteractions env s).2.m_shouldRestorePreviousCameraMode = true ∧
      (CheckInteractions env s).2.craftingGUI = { loaded := true, loadDelayed := true }) ∧
    (s.craftingGUI.loaded = true →
      (CheckInteractions env s).2.calls = s.calls ++
        [Call.mutexLock, Call.playerStopMoving,
          Call.playerSetMoveToTargetPosition it.interactionPosition,
          Call.playerSetLookAtTargetAfterMoveToPosition it.center,
          Call.letterBoxInterpolation 1, Call.mutexUnlock] ∧
      (CheckInteractions env s).2.m_previousCameraMode = s.m_previousCameraMode ∧
      (CheckInteractions env s).2.m_shouldRestorePreviousCameraMode =
        s.m_shouldRestorePreviousCameraMode ∧
      (CheckInteractions env s).2.craftingGUI = s.craftingGUI) := by
  rw [CheckInteractions_of_item env s it h hs,
    interactWithItem_craftingStation env it (s.call Call.mutexLock) hs ht]
  unfold interactCraftingStation
  rw [if_pos ht]
  by_cases hd : (2⁻¹ : ℚ) < Vec3.dot s.cameraFacing
      (Vec3.cross Vec3.up (env.normalize (it.center.sub it.interactionPosition))) <;>
  cases hl : s.craftingGUI.loaded <;>
  simp [hd, hl, dialogSide, playerStopMoving, pageLoad, call, SavePreviousCameraMode, TurnCursorOn,
    SetCameraMode, OpenLetterBox, hs, dialogPosition, dialogView, dialogPositionMirrored,
    dialogViewMirrored, crossRight, toCenter, Vec3.add_scale_zero]

/-- C12: interacting with a crafting station (anvil or furnace) with the gates open opens the
crafting GUI once. Every such `CheckInteractions` returns `true` with camera mode NPCDialog.
When the crafting GUI is not loaded it is loaded, `SavePreviousCameraMode` is invoked once (the
saved mode is the mode that was current) and `m_shouldRestorePreviousCameraMode` is set; when
it is loaded there is no `Load` and no `SavePreviousCameraMode` among the calls and the saved
mode and the flag are untouched. A second `CheckInteractions` on the state the first one
returns (gates still open) is of the second kind. -/
theorem CheckInteractions_craftingStation_opens_once (env : Env) (s : VogueGame) (it : Item)
    (h : ¬ InteractionBlocked s) (hs : s.m_pInteractItem = some it)
    (ht : it.itemType = eItem.Anvil ∨ it.itemType = eItem.Furnace) :
    (CheckInteractions env s).1 = true ∧
    (CheckInteractions env s).2.m_cameraMode = CameraMode.NPCDialog ∧
    (CheckInteractions env s).2.craftingGUI.loaded = true ∧
    (s.craftingGUI.loaded = false →
      (CheckInteractions env s).2.calls = s.calls ++
        [Call.mutexLock, Call.playerStopMoving, Call.craftingSetRecipesForItem it.itemType,
          Call.pageLoad GuiPage.Crafting true (9 / 10), Call.craftingSetInteractionitem,
          Call.savePreviousCameraMode, Call.windowTurnCursorOn false false,
          Call.playerSetMoveToTargetPosition it.interactionPosition,
          Call.playerSetLookAtTargetAfterMoveToPosition it.center,
          Call.letterBoxInterpolation 1, Call.mutexUnlock] ∧
      (CheckInteractions env s).2.m_previousCameraMode = s.m_cameraMode ∧
      (CheckInteractions env s).2.m_shouldRestorePreviousCameraMode = true) ∧
    (s.craftingGUI.loaded = true →
      (CheckInteractions env s).2.calls = s.calls ++
        [Call.mutexLock, Call.playerStopMoving,
          Call.playerSetMoveToTargetPosition it.interactionPosition,
          Call.playerSetLookAtTargetAfterMoveToPosition it.center,
          Call.letterBoxInterpolation 1, Call.mutexUnlock] ∧
      (CheckInteractions env s).2.m_previousCameraMode = s.m_previousCameraMode ∧
      (CheckInteractions env s).2.m_shouldRestorePreviousCameraMode =
        s.m_shouldRestorePreviousCameraMode) ∧
    (¬ InteractionBlocked (CheckInteractions env s).2 →
      (CheckInteractions env (CheckInteractions env s).2).1 = true ∧
      (CheckInteractions env (CheckInteractions env s).2).2.m_cameraMode =
        CameraMode.NPCDialog ∧
      (CheckInteractions env (CheckInteractions env s).2).2.calls =
        (CheckInteractions env s).2.calls ++
          [Call.mutexLock, Call.playerStopMoving,
            Call.playerSetMoveToTargetPosition it.interactionPosition,
            Call.playerSetLookAtTargetAfterMoveToPosition it.center,
            Call.letterBoxInterpolation 1, Call.mutexUnlock] ∧
      (CheckInteractions env (CheckInteractions env s).2).2.m_previousCameraMode =
        (CheckInteractions env s).2.m_previousCameraMode ∧
      (CheckInteractions env (CheckInteractions env s).2).2.m_shouldRestorePreviousCameraMode =
        (CheckInteractions env s).2.m_shouldRestorePreviousCameraMode) := by
  obtain ⟨a1, a2, a3, _, _, _, _, a8, a9⟩ :=
    CheckInteractions_craftingStation_fields env s it h hs ht
  have hloaded : (CheckInteractions env s).2.craftingGUI.loaded = true := by
    cases hl : s.craftingGUI.loaded
    · rw [(a8 hl).2.2.2]
    · rw [(a9 hl).2.2.2]; exact hl
  refine ⟨a1, a2, hloaded, fun hl => ⟨(a8 hl).1, (a8 hl).2.1, (a8 hl).2.2.1⟩,
    fun hl => ⟨(a9 hl).1, (a9 hl).2.1, (a9 hl).2.2.1⟩, fun h2 => ?_⟩
  obtain ⟨b1, b2, _, _, _, _, _, _, b9⟩ :=
    CheckInteractions_craftingStation_fields env (CheckInteractions env s).2 it h2 a3 ht
  exact ⟨b1, b2, (b9 hloaded).1, (b9 hloaded).2.1, (b9 hloaded).2.2.1⟩

/-- Witness for C12: at the anvil of the sample state (crafting GUI not loaded, mouse-rotate
camera) the first `CheckInteractions` saves the mouse-rotate mode and loads the GUI, and the
second one makes six calls, none of them a `Load` or a `SavePreviousCameraMode`. -/
theorem CheckInteractions_craftingStation_opens_once_witness :
    ¬ InteractionBlocked anvilState ∧
    (CheckInteractions sampleEnv anvilState).2.m_previousCameraMode = CameraMode.MouseRotate ∧
    ¬ InteractionBlocked (CheckInteractions sampleEnv anvilState).2 ∧
    (CheckInteractions sampleEnv (CheckInteractions sampleEnv anvilState).2).2.calls =
      (CheckInteractions sampleEnv anvilState).2.calls ++
        [Call.mutexLock, Call.playerStopMoving,
          Call.playerSetMoveToTargetPosition ⟨0, 0, 0⟩,
          Call.playerSetLookAtTargetAfterMoveToPosition ⟨0, 0, 1⟩,
          Call.letterBoxInterpolation 1, Call.mutexUnlock] := by
  have h0 : ¬ InteractionBlocked anvilState := by decide
  have h1 : ¬ InteractionBlocked (CheckInteractions sampleEnv anvilState).2 := by
    obtain ⟨_, _, _, b4, b5, _⟩ :=
      CheckInteractions_craftingStation_fields sampleEnv anvilState _ h0 rfl (Or.inl rfl)
    unfold InteractionBlocked
    rw [b4, b5]
    simp [anvilState, sampleEnv]
  have hw := CheckInteractions_craftingStation_opens_once sampleEnv anvilState _ h0 rfl
    (Or.inl rfl)
  exact ⟨h0, (hw.2.2.2.1 rfl).2.1, h1, (hw.2.2.2.2.2 h1).2.2.1⟩

/-- C13, counterexample: at the anvil of the sample state the value
`d = dot(cameraFacing, cross(up, toItem))` is `5/13`, which is positive, yet the dialog camera
is placed on the mirrored side: the position is `I + 2c - 4r + 2.5*up = (4, 2.5, 2)` and the
look-at point is `I + 4r = (-4, 0, 0)`, not the position `(-4, 2.5, 2)` and look-at `(4, 0, 0)`
the claim gives for `d > 0`. (The item center is one unit from the interaction position, so
the sample `normalize` is exact.) -/
theorem dialogCamera_positive_side_mirrored :
    dialogSide sampleEnv anvilState.cameraFacing
        { itemType := eItem.Anvil, center := ⟨0, 0, 1⟩ } = 5 / 13 ∧
    (0 : ℚ) < 5 / 13 ∧
    (CheckInteractions sampleEnv anvilState).2.m_targetCameraPosition_NPCDialog = ⟨4, 5 / 2, 2⟩ ∧
    (CheckInteractions sampleEnv anvilState).2.m_targetCameraView_NPCDialog = ⟨-4, 0, 0⟩ ∧
    dialogPosition sampleEnv { itemType := eItem.Anvil, center := ⟨0, 0, 1⟩ } = ⟨-4, 5 / 2, 2⟩ ∧
    dialogView sampleEnv { itemType := eItem.Anvil, center := ⟨0, 0, 1⟩ } = ⟨4, 0, 0⟩ ∧
    (CheckInteractions sampleEnv anvilState).2.m_targetCameraPosition_NPCDialog ≠
      dialogPosition sampleEnv { itemType := eItem.Anvil, center := ⟨0, 0, 1⟩ } := by
  have h0 : ¬ InteractionBlocked anvilState := by decide
  obtain ⟨_, _, _, _, _, b6, b7, _⟩ :=
    CheckInteractions_craftingStation_fields sampleEnv anvilState _ h0 rfl (Or.inl rfl)
  have hd : dialogSide sampleEnv anvilState.cameraFacing
      { itemType := eItem.Anvil, center := ⟨0, 0, 1⟩ } = 5 / 13 := by
    simp [dialogSide, anvilState, sampleEnv, Vec3.dot, Vec3.cross, Vec3.sub, Vec3.up]
  have hp : dialogPosition sampleEnv { itemType := eItem.Anvil, center := ⟨0, 0, 1⟩ } =
      ⟨-4, 5 / 2, 2⟩ := by
    simp [dialogPosition, crossRight, toCenter, sampleEnv, Vec3.add, Vec3.scale, Vec3.cross,
      Vec3.sub, Vec3.up]
  have hv : dialogView sampleEnv { itemType := eItem.Anvil, center := ⟨0, 0, 1⟩ } =
      ⟨4, 0, 0⟩ := by
    simp [dialogView, crossRight, toCenter, sampleEnv, Vec3.add, Vec3.scale, Vec3.cross,
      Vec3.sub, Vec3.up]
  have hpm : dialogPositionMirrored sampleEnv { itemType := eItem.Anvil, center := ⟨0, 0, 1⟩ } =
      ⟨4, 5 / 2, 2⟩ := by
    simp [dialogPositionMirrored, crossRight, toCenter, sampleEnv, Vec3.add, Vec3.scale,
      Vec3.cross, Vec3.sub, Vec3.up]
  have hvm : dialogViewMirrored sampleEnv { itemType := eItem.Anvil, center := ⟨0, 0, 1⟩ } =
      ⟨-4, 0, 0⟩ := by
    simp [dialogViewMirrored, crossRight, toCenter, sampleEnv, Vec3.add, Vec3.scale,
      Vec3.cross, Vec3.sub, Vec3.up]
  have hn : ¬ ((5 : ℚ) / 13 > 1 / 2) := by norm_num
  rw [hd, if_neg hn] at b6 b7
  refine ⟨hd, by norm_num, ?_, ?_, hp, hv, ?_⟩
  · rw [b6, hpm]
  · rw [b7, hvm]
  · rw [b6, hpm, hp]
    intro hcontra
    have := congrArg Vec3.x hcontra
    norm_num at this

/-- C13, amended: at a crafting station with the gates open the side of the dialog camera is
chosen by comparing `d = dot(cameraFacing, cross(up, toItem))` with `0.5`. With `I` the
interaction position, `c = center - I` and `r = cross(normalize(c), up)`, every `d > 0.5`
yields position `I + 2c + 4r + 2.5*up` and look-at `I - 4r`, and every `d <= 0.5` yields the
mirrored placement, position `I + 2c - 4r + 2.5*up` and look-at `I + 4r`. -/
theorem CheckInteractions_dialogCamera_side (env : Env) (s : VogueGame) (it : Item)
    (h : ¬ InteractionBlocked s) (hs : s.m_pInteractItem = some it)
    (ht : it.itemType = eItem.Anvil ∨ it.itemType = eItem.Furnace) :
    (dialogSide env s.cameraFacing it > 1 / 2 →
      (CheckInteractions env s).2.m_targetCameraPosition_NPCDialog = dialogPosition env it ∧
      (CheckInteractions env s).2.m_targetCameraView_NPCDialog = dialogView env it) ∧
    (dialogSide env s.cameraFacing it ≤ 1 / 2 →
      (CheckInteractions env s).2.m_targetCameraPosition_NPCDialog =
        dialogPositionMirrored env it ∧
      (CheckInteractions env s).2.m_targetCameraView_NPCDialog = dialogViewMirrored env it) := by
  obtain ⟨_, _, _, _, _, b6, b7, _⟩ :=
    CheckInteractions_craftingStation_fields env s it h hs ht
  constructor
  · intro hd
    rw [b6, b7, if_pos hd, if_pos hd]
    exact ⟨rfl, rfl⟩
  · intro hd
    rw [b6, b7, if_neg (not_lt.2 hd), if_neg (not_lt.2 hd)]
    exact ⟨rfl, rfl⟩

/-- Witness for C13: at the anvil of the sample state `d = 5/13 <= 0.5`, and the placement is
the mirrored one. -/
theorem CheckInteractions_dialogCamera_side_witness :
    ¬ InteractionBlocked anvilState ∧
    dialogSide sampleEnv anvilState.cameraFacing
        { itemType := eItem.Anvil, center := ⟨0, 0, 1⟩ } ≤ 1 / 2 ∧
    (CheckInteractions sampleEnv anvilState).2.m_targetCameraPosition_NPCDialog =
      dialogPositionMirrored sampleEnv { itemType := eItem.Anvil, center := ⟨0, 0, 1⟩ } ∧
    (CheckInteractions sampleEnv anvilState).2.m_targetCameraView_NPCDialog =
      dialogViewMirrored sampleEnv { itemType := eItem.Anvil, center := ⟨0, 0, 1⟩ } :=
  have h0 : ¬ InteractionBlocked anvilState := by decide
  have hd : dialogSide sampleEnv anvilState.cameraFacing
      { itemType := eItem.Anvil, center := ⟨0, 0, 1⟩ } ≤ 1 / 2 := by
    simp [dialogSide, anvilState, sampleEnv, Vec3.dot, Vec3.cross, Vec3.sub, Vec3.up]
    norm_num
  ⟨h0, hd, (CheckInteractions_dialogCamera_side sampleEnv anvilState _ h0 rfl (Or.inl rfl)).2 hd⟩

theorem CheckInteractions_chest_eq (env : Env) (s : VogueGame) (it : Item)
    (h : ¬ InteractionBlocked s) (hs : s.m_pInteractItem = some it)
    (ht : it.itemType = eItem.Chest) :
    CheckInteractions env s =
      if it.stillAnimating = false then
        if (env.itemInteract it).interacting = true then
          (true,
            { openOrCloseChestGUI env
                { s with
                  m_pInteractItem := some (env.itemInteract it)
                  calls := s.calls ++ [Call.mutexLock, Call.itemInteract] } with
              m_movementSpeed := 0 }.call Call.mutexUnlock)
        else
          (true,
            { s with
              m_pInteractItem := some (env.itemInteract it)
              calls := s.calls ++ [Call.mutexLock, Call.itemInteract, Call.mutexUnlock] })
      else (false, { s with calls := s.calls ++ [Call.mutexLock, Call.mutexUnlock] }) := by
  rw [CheckInteractions_of_item env s it h hs,
    interactWithItem_chest env it (s.call Call.mutexLock) hs ht]
  unfold interactChest
  rw [if_pos ht]
  by_cases ha : it.stillAnimating = false
  · rw [if_pos ha, if_pos ha]
    by_cases hi : (env.itemInteract it).interacting = true
    · simp [hi, call]
    · simp [hi, call]
  · rw [if_neg ha, if_neg ha]
    simp [call]

/-- C14: for a chest interact item with the gates open. While the chest is still animating
`CheckInteractions` returns `false` and only locks and unlocks the mutex: `Interact` is not
called and no GUI, cursor, player or movement field changes. When it is not animating the
result is `true` and `Interact` is called exactly once. If the chest is not interacting after
`Interact`, nothing but the item changes. If it is interacting: a loaded loot GUI is unloaded
(and the cursor turned off when none of the other four windows is loaded); otherwise, when no
frontend screen is shown, the loot GUI and the inventory GUI are loaded and the cursor is
turned on; otherwise the GUIs and the cursor are left alone. -/
theorem CheckInteractions_chest (env : Env) (s : VogueGame) (it : Item)
    (h : ¬ InteractionBlocked s) (hs : s.m_pInteractItem = some it)
    (ht : it.itemType = eItem.Chest) :
    (it.stillAnimating = true →
      CheckInteractions env s =
        (false, { s with calls := s.calls ++ [Call.mutexLock, Call.mutexUnlock] })) ∧
    (it.stillAnimating = false →
      (CheckInteractions env s).1 = true ∧
      (CheckInteractions env s).2.calls.countP Call.isItemInteract =
        s.calls.countP Call.isItemInteract + 1 ∧
      (CheckInteractions env s).2.m_pInteractItem = some (env.itemInteract it) ∧
      ((env.itemInteract it).interacting = false →
        (CheckInteractions env s).2 =
          { s with
            m_pInteractItem := some (env.itemInteract it)
            calls := s.calls ++ [Call.mutexLock, Call.itemInteract, Call.mutexUnlock] }) ∧
      ((env.itemInteract it).interacting = true → s.lootGUI.loaded = true →
        (CheckInteractions env s).2.calls =
          s.calls ++ ([Call.mutexLock, Call.itemInteract, Call.playerStopMoving,
            Call.pageUnload GuiPage.Loot] ++
            ((if s.inventoryGUI.loaded = false ∧ s.characterGUI.loaded = false ∧
                  s.craftingGUI.loaded = false ∧ s.questGUI.loaded = false
              then [Call.windowTurnCursorOff false] else []) ++ [Call.mutexUnlock])) ∧
        (CheckInteractions env s).2.lootGUI.loaded = false ∧
        (CheckInteractions env s).2.inventoryGUI = s.inventoryGUI) ∧
      ((env.itemInteract it).interacting = true → s.lootGUI.loaded = false →
          s.frontendScreen = FrontendScreen.None →
        (CheckInteractions env s).2.calls =
          s.calls ++ ([Call.mutexLock, Call.itemInteract, Call.playerStopMoving,
            Call.lootLoadItems, Call.pageLoad GuiPage.Loot true 1] ++
            ((if s.inventoryGUI.loaded = false
              then [Call.pageLoad GuiPage.Inventory true 1] else []) ++
            [Call.playerStopMoving, Call.windowTurnCursorOn false false, Call.mutexUnlock])) ∧
        (CheckInteractions env s).2.lootGUI = { loaded := true, loadDelayed := true } ∧
        (CheckInteractions env s).2.inventoryGUI.loaded = true ∧
        (CheckInteractions env s).2.m_bCustomCursorOn = true) ∧
      ((env.itemInteract it).interacting = true → s.lootGUI.loaded = false →
          s.frontendScreen ≠ FrontendScreen.None →
        (CheckInteractions env s).2.calls =
          s.calls ++ [Call.mutexLock, Call.itemInteract, Call.playerStopMoving,
            Call.mutexUnlock] ∧
        (CheckInteractions env s).2.lootGUI = s.lootGUI ∧
        (CheckInteractions env s).2.inventoryGUI = s.inventoryGUI ∧
        (CheckInteractions env s).2.m_bCustomCursorOn = s.m_bCustomCursorOn ∧
        (CheckInteractions env s).2.window = s.window)) := by
  rw [CheckInteractions_chest_eq env s it h hs ht]
  constructor
  · intro ha
    simp [ha]
  · intro ha
    rw [if_pos ha]
    by_cases hi : (env.itemInteract it).interacting = true
    · rw [if_pos hi]
      refine ⟨rfl, ?_, ?_, fun hf => ?_, fun _ hl => ?_, fun _ hl hf => ?_, fun _ hl hf => ?_⟩
      · unfold openOrCloseChestGUI
        simp only []
        split_ifs <;>
          simp [call, playerStopMoving, pageUnload, pageLoad, TurnCursorOff, TurnCursorOn,
            List.countP_append, List.countP_cons, Call.isItemInteract]
      · unfold openOrCloseChestGUI
        simp only []
        split_ifs <;>
          simp [call, playerStopMoving, pageUnload, pageLoad, TurnCursorOff, TurnCursorOn]
      · rw [hi] at hf; cases hf
      · unfold openOrCloseChestGUI
        simp only [playerStopMoving, call, hl, if_true]
        by_cases hd : s.inventoryGUI.loaded = false ∧ s.characterGUI.loaded = false ∧
            s.craftingGUI.loaded = false ∧ s.questGUI.loaded = false
        · simp [IsGUIWindowStillDisplayed, pageUnload, call, TurnCursorOff, hd]
        · simp [IsGUIWindowStillDisplayed, pageUnload, call, TurnCursorOff, hd]
      · unfold openOrCloseChestGUI
        cases hinv : s.inventoryGUI.loaded <;>
          simp [playerStopMoving, call, hl, hf, hinv, pageLoad, TurnCursorOn]
      · unfold openOrCloseChestGUI
        simp [playerStopMoving, call, hl, hf]
    · rw [if_neg hi]
      have hi2 : (env.itemInteract it).interacting = false := by simpa using hi
      refine ⟨rfl, ?_, rfl, fun _ => rfl, fun hc => absurd hc hi, fun hc => absurd hc hi,
        fun hc => absurd hc hi⟩
      simp [List.countP_append, List.countP_cons, Call.isItemInteract]

/-- Witness for C14: an animating chest gives `false` and only the lock and unlock of the
mutex; the closed chest of the sample state gives `true`, and the loot and inventory GUIs are
loaded afterwards. -/
theorem CheckInteractions_chest_witness :
    ¬ InteractionBlocked animatingChestState ∧
    CheckInteractions sampleEnv animatingChestState =
      (false, { animatingChestState with calls := [Call.mutexLock, Call.mutexUnlock] }) ∧
    ¬ InteractionBlocked chestState ∧
    (CheckInteractions sampleEnv chestState).1 = true ∧
    (CheckInteractions sampleEnv chestState).2.lootGUI = { loaded := true, loadDelayed := true } ∧
    (CheckInteractions sampleEnv chestState).2.inventoryGUI.loaded = true :=
  have h0 : ¬ InteractionBlocked animatingChestState := by decide
  have h1 : ¬ InteractionBlocked chestState := by decide
  ⟨h0, (CheckInteractions_chest sampleEnv animatingChestState _ h0 rfl rfl).1 rfl, h1,
    ((CheckInteractions_chest sampleEnv chestState _ h1 rfl rfl).2 rfl).1,
    ((((CheckInteractions_chest sampleEnv chestState _ h1 rfl rfl).2 rfl).2.2.2.2.2.1
      rfl rfl rfl).2.1),
    ((((CheckInteractions_chest sampleEnv chestState _ h1 rfl rfl).2 rfl).2.2.2.2.2.1
      rfl rfl rfl).2.2.1)⟩

/-! ### Enemy targeting -/

theorem truncToInt_half (w : Int) (hw : 0 ≤ w) : truncToInt ((w : ℚ) * (1 / 2)) = w / 2 := by
  have h0 : (0 : ℚ) ≤ (w : ℚ) * (1 / 2) :=
    mul_nonneg (by exact_mod_cast hw) (by norm_num)
  unfold truncToInt
  rw [if_pos h0]
  have e : (w : ℚ) * (1 / 2) = (w : ℚ) / ((2 : ℕ) : ℚ) := by push_cast; ring
  rw [e]
  exact Rat.floor_intCast_div_natCast w 2

theorem SetEnemyTarget_of_acquires (env : Env) (s : VogueGame) (e : Nat)
    (h : Acquires env s e) :
    SetEnemyTarget env s =
      acquireEnemyTarget e
        (s.call (Call.getCursorEnemy (truncToInt ((s.m_windowWidth : ℚ) * (1 / 2)))
          (truncToInt ((s.m_windowHeight : ℚ) * (1 / 2))))) := by
  obtain ⟨h1, h2, h3, h4⟩ := h
  unfold pickedEnemy at h3
  unfold SetEnemyTarget
  rw [if_pos ⟨h1, h2⟩]
  simp only [h3]
  rw [if_pos (by simpa [call] using h4)]

theorem SetEnemyTarget_of_not_acquires (env : Env) (s : VogueGame)
    (h : ∀ e, ¬ Acquires env s e) :
    SetEnemyTarget env s = s ∨
    SetEnemyTarget env s =
      s.call (Call.getCursorEnemy (truncToInt ((s.m_windowWidth : ℚ) * (1 / 2)))
        (truncToInt ((s.m_windowHeight : ℚ) * (1 / 2)))) := by
  unfold SetEnemyTarget
  by_cases hg : s.player.dead = false ∧ s.player.targetEnemy = none
  · rw [if_pos hg]
    right
    cases hp : env.getCursorEnemy (truncToInt ((s.m_windowWidth : ℚ) * (1 / 2)))
        (truncToInt ((s.m_windowHeight : ℚ) * (1 / 2))) with
    | none => simp only [hp]
    | some e =>
      have he : ¬ (s.enemies e).erase = false := fun he => h e ⟨hg.1, hg.2, hp, he⟩
      simp only [hp]
      rw [if_neg (by simpa [call] using he)]
  · rw [if_neg hg]
    exact Or.inl rfl

/-- C15: enemy picking uses the screen center, not the live cursor. For every window size
`(w, h)` with `w, h >= 0` (the products with `0.5f` taken exactly) the point `SetEnemyTarget`
passes to `GetCursorEnemy`, when the player is alive and has no target, is
`(w div 2, h div 2)`, and that is the only query; and a state that differs only in the window
cursor position yields the same result, calls included. -/
theorem SetEnemyTarget_picks_screen_center (env : Env) (s : VogueGame)
    (hw : 0 ≤ s.m_windowWidth) (hh : 0 ≤ s.m_windowHeight) :
    pickedEnemy env s = env.getCursorEnemy (s.m_windowWidth / 2) (s.m_windowHeight / 2) ∧
    (s.player.dead = false → s.player.targetEnemy = none →
      ∃ rest, (SetEnemyTarget env s).calls =
          s.calls ++ Call.getCursorEnemy (s.m_windowWidth / 2) (s.m_windowHeight / 2) :: rest ∧
        ∀ x y, Call.getCursorEnemy x y ∉ rest) ∧
    (∀ cx cy : Int,
      SetEnemyTarget env { s with window := { s.window with cursorX := cx, cursorY := cy } } =
        { SetEnemyTarget env s with
          window := { s.window with cursorX := cx, cursorY := cy } }) := by
  refine ⟨?_, ?_, ?_⟩
  · unfold pickedEnemy
    rw [truncToInt_half _ hw, truncToInt_half _ hh]
  · intro hd htgt
    unfold SetEnemyTarget
    rw [if_pos ⟨hd, htgt⟩, truncToInt_half _ hw, truncToInt_half _ hh]
    cases hp : env.getCursorEnemy (s.m_windowWidth / 2) (s.m_windowHeight / 2) with
    | none => exact ⟨[], by simp [hp], by simp⟩
    | some e =>
      by_cases he : (s.enemies e).erase = false
      · refine ⟨[Call.savePreviousCameraMode, Call.letterBoxInterpolation 1], ?_, by simp⟩
        simp [hp, he, call, acquireEnemyTarget, SavePreviousCameraMode, SetCameraMode,
          OpenLetterBox]
      · exact ⟨[], by simp [hp, he, call], by simp⟩
  · intro cx cy
    unfold SetEnemyTarget
    by_cases hg : s.player.dead = false ∧ s.player.targetEnemy = none
    · simp only [if_pos hg]
      cases hp : env.getCursorEnemy (truncToInt ((s.m_windowWidth : ℚ) * (1 / 2)))
          (truncToInt ((s.m_windowHeight : ℚ) * (1 / 2))) with
      | none => simp [hp, call]
      | some e =>
        by_cases he : (s.enemies e).erase = false
        · simp [hp, he, call, acquireEnemyTarget, SavePreviousCameraMode, SetCameraMode,
            OpenLetterBox]
        · simp [hp, he, call]
    · simp only [if_neg hg]

/-- Witness for C15: in a window of 1281 by 721 pixels with the cursor at `(17, 400)` the
query point is `(640, 360)`. -/
theorem SetEnemyTarget_picks_screen_center_witness :
    (0 : Int) ≤ targetingState.m_windowWidth ∧ (0 : Int) ≤ targetingState.m_windowHeight ∧
    ∃ rest, (SetEnemyTarget sampleEnv targetingState).calls =
        targetingState.calls ++ Call.getCursorEnemy 640 360 :: rest ∧
      ∀ x y, Call.getCursorEnemy x y ∉ rest :=
  ⟨by decide, by decide,
    (SetEnemyTarget_picks_screen_center sampleEnv targetingState (by decide) (by decide)).2.1
      rfl rfl⟩

theorem acquireEnemyTarget_fields (e : Nat) (s : VogueGame) :
    (acquireEnemyTarget e s).player = { s.player with targetEnemy := some e, alpha := 3 / 5 } ∧
    (acquireEnemyTarget e s).enemies =
      Function.update s.enemies e { s.enemies e with outlineRender := true } ∧
    (acquireEnemyTarget e s).m_previousCameraMode = s.m_cameraMode ∧
    (acquireEnemyTarget e s).m_shouldRestorePreviousCameraMode = true ∧
    (acquireEnemyTarget e s).m_cameraMode = CameraMode.EnemyTarget ∧
    (acquireEnemyTarget e s).calls =
      s.calls ++ [Call.savePreviousCameraMode, Call.letterBoxInterpolation 1] := by
  simp [acquireEnemyTarget, SavePreviousCameraMode, SetCameraMode, OpenLetterBox, call]

/-- C16: `SetEnemyTarget` acquires a target exactly when the player is alive, has no current
target, and the picked enemy is non-null and not flagged for erase. Then, on return, the
player's target is that enemy, the enemy's outline rendering is on (no other enemy changes),
the player alpha is `0.6`, the camera mode that was current is the saved one,
`m_shouldRestorePreviousCameraMode` is true, the camera mode is EnemyTarget and the letterbox
has been opened. In every other case the player, the enemies, the camera mode, the saved mode
and the restore flag are as before. -/
theorem SetEnemyTarget_acquires (env : Env) (s : VogueGame) :
    (∀ e, Acquires env s e →
      (SetEnemyTarget env s).player.targetEnemy = some e ∧
      ((SetEnemyTarget env s).enemies e).outlineRender = true ∧
      (∀ e2, e2 ≠ e → (SetEnemyTarget env s).enemies e2 = s.enemies e2) ∧
      (SetEnemyTarget env s).player.alpha = 3 / 5 ∧
      (SetEnemyTarget env s).m_previousCameraMode = s.m_cameraMode ∧
      (SetEnemyTarget env s).m_shouldRestorePreviousCameraMode = true ∧
      (SetEnemyTarget env s).m_cameraMode = CameraMode.EnemyTarget ∧
      Call.letterBoxInterpolation 1 ∈ (SetEnemyTarget env s).calls) ∧
    ((∀ e, ¬ Acquires env s e) →
      (SetEnemyTarget env s).player = s.player ∧
      (SetEnemyTarget env s).enemies = s.enemies ∧
      (SetEnemyTarget env s).m_cameraMode = s.m_cameraMode ∧
      (SetEnemyTarget env s).m_previousCameraMode = s.m_previousCameraMode ∧
      (SetEnemyTarget env s).m_shouldRestorePreviousCameraMode =
        s.m_shouldRestorePreviousCameraMode) := by
  constructor
  · intro e h
    rw [SetEnemyTarget_of_acquires env s e h]
    obtain ⟨a1, a2, a3, a4, a5, a6⟩ := acquireEnemyTarget_fields e
      (s.call (Call.getCursorEnemy (truncToInt ((s.m_windowWidth : ℚ) * (1 / 2)))
        (truncToInt ((s.m_windowHeight : ℚ) * (1 / 2)))))
    rw [a1, a2, a3, a4, a5, a6]
    refine ⟨rfl, by simp, ?_, rfl, rfl, rfl, rfl, by simp⟩
    intro e2 hne
    rw [Function.update_noteq hne]
    rfl
  · intro h
    rcases SetEnemyTarget_of_not_acquires env s h with e | e <;> rw [e] <;>
      exact ⟨rfl, rfl, rfl, rfl, rfl⟩

/-- Witness for C16: in the sample targeting state the enemy `7` at the screen center is
acquired, and the mouse-rotate mode is the saved one. -/
theorem SetEnemyTarget_acquires_witness :
    Acquires sampleEnv targetingState 7 ∧
    (SetEnemyTarget sampleEnv targetingState).player.targetEnemy = some 7 ∧
    (SetEnemyTarget sampleEnv targetingState).m_previousCameraMode = CameraMode.MouseRotate ∧
    (SetEnemyTarget sampleEnv targetingState).m_cameraMode = CameraMode.EnemyTarget :=
  have h : Acquires sampleEnv targetingState 7 := ⟨rfl, rfl, rfl, rfl⟩
  ⟨h, ((SetEnemyTarget_acquires sampleEnv targetingState).1 7 h).1,
    ((SetEnemyTarget_acquires sampleEnv targetingState).1 7 h).2.2.2.2.1,
    ((SetEnemyTarget_acquires sampleEnv targetingState).1 7 h).2.2.2.2.2.2.1⟩

/-- C17: target acquire and release are a round trip on the camera mode. With
`SavePreviousCameraMode` and `RestorePreviousCameraMode` modelled as the one-level save and
restore of the specification, a `SetEnemyTarget` that acquires the enemy `e` followed by
`ReleaseEnemyTarget` leaves the camera mode as it was before the acquisition, the player's
target null, the outline rendering of `e` off, the player alpha `1.0` and nothing left to
restore. -/
theorem acquire_release_roundtrip (env : Env) (s : VogueGame) (e : Nat)
    (h : Acquires env s e) :
    (ReleaseEnemyTarget (SetEnemyTarget env s)).m_cameraMode = s.m_cameraMode ∧
    (ReleaseEnemyTarget (SetEnemyTarget env s)).player.targetEnemy = none ∧
    ((ReleaseEnemyTarget (SetEnemyTarget env s)).enemies e).outlineRender = false ∧
    (ReleaseEnemyTarget (SetEnemyTarget env s)).player.alpha = 1 ∧
    (ReleaseEnemyTarget (SetEnemyTarget env s)).m_shouldRestorePreviousCameraMode = false := by
  rw [SetEnemyTarget_of_acquires env s e h]
  simp [ReleaseEnemyTarget, acquireEnemyTarget, SavePreviousCameraMode, SetCameraMode,
    OpenLetterBox, CloseLetterBox, call, ShouldRestorePreviousCameraMode,
    RestorePreviousCameraMode, InitializeCameraRotation]

/-- Witness for C17: acquiring and releasing enemy `7` in the sample targeting state returns
the camera to the mouse-rotate mode. -/
theorem acquire_release_roundtrip_witness :
    Acquires sampleEnv targetingState 7 ∧
    (ReleaseEnemyTarget (SetEnemyTarget sampleEnv targetingState)).m_cameraMode =
      CameraMode.MouseRotate ∧
    (ReleaseEnemyTarget (SetEnemyTarget sampleEnv targetingState)).player.targetEnemy = none :=
  have h : Acquires sampleEnv targetingState 7 := ⟨rfl, rfl, rfl, rfl⟩
  ⟨h, (acquire_release_roundtrip sampleEnv targetingState 7 h).1,
    (acquire_release_roundtrip sampleEnv targetingState 7 h).2.1⟩

/-! ### The saved camera mode -/

theorem interactWithItem_other (env : Env) (it : Item) (s : VogueGame)
    (hs : s.m_pInteractItem = some it) (hd : it.itemType ≠ eItem.DroppedItem)
    (hc : ¬ (it.itemType = eItem.Anvil ∨ it.itemType = eItem.Furnace))
    (hch : it.itemType ≠ eItem.Chest) :
    interactWithItem env it s = (false, s) := by
  unfold interactWithItem interactDroppedItem interactCraftingStation interactChest
  simp [if_neg hd, if_neg hc, if_neg hch, hs]

theorem openOrCloseChestGUI_no_save (env : Env) (s : VogueGame) :
    ∃ post, (openOrCloseChestGUI env s).calls = s.calls ++ post ∧
      Call.savePreviousCameraMode ∉ post := by
  unfold openOrCloseChestGUI
  simp only []
  split_ifs
  · exact ⟨[Call.playerStopMoving, Call.pageUnload GuiPage.Loot,
      Call.windowTurnCursorOff false], by simp, by simp⟩
  · exact ⟨[Call.playerStopMoving, Call.pageUnload GuiPage.Loot], by simp, by simp⟩
  · exact ⟨[Call.playerStopMoving, Call.lootLoadItems, Call.pageLoad GuiPage.Loot true 1,
      Call.pageLoad GuiPage.Inventory true 1, Call.playerStopMoving,
      Call.windowTurnCursorOn false false], by simp, by simp⟩
  · exact ⟨[Call.playerStopMoving, Call.lootLoadItems, Call.pageLoad GuiPage.Loot true 1,
      Call.playerStopMoving, Call.windowTurnCursorOn false false], by simp, by simp⟩
  · exact ⟨[Call.playerStopMoving], by simp, by simp⟩

theorem CheckInteractions_saves_iff (env : Env) (s : VogueGame) :
    SavesDuring env InputOp.checkInteractions s ↔
      (¬ InteractionBlocked s ∧ s.craftingGUI.loaded = false ∧
        ∃ it, s.m_pInteractItem = some it ∧
          (it.itemType = eItem.Anvil ∨ it.itemType = eItem.Furnace)) := by
  change Call.savePreviousCameraMode ∈ (CheckInteractions env s).2.calls.drop s.calls.length ↔ _
  by_cases hb : InteractionBlocked s
  · rw [CheckInteractions_of_blocked env s hb]
    simp [hb]
  · cases hi : s.m_pInteractItem with
    | none =>
      rw [CheckInteractions_of_open env s hb]
      simp [hi, call]
    | some it =>
      by_cases hc : it.itemType = eItem.Anvil ∨ it.itemType = eItem.Furnace
      · obtain ⟨_, _, _, _, _, _, _, a8, a9⟩ :=
          CheckInteractions_craftingStation_fields env s it hb hi hc
        cases hl : s.craftingGUI.loaded
        · rw [(a8 hl).1]
          simp [hb, hc]
        · rw [(a9 hl).1]
          simp
      · by_cases hd : it.itemType = eItem.DroppedItem
        · rw [CheckInteractions_droppedItem_eq env s it hb hi hd]
          simp [hc]
        · by_cases hch : it.itemType = eItem.Chest
          · rw [CheckInteractions_chest_eq env s it hb hi hch]
            obtain ⟨post, e1, e2⟩ := openOrCloseChestGUI_no_save env
              { s with
                m_pInteractItem := some (env.itemInteract it)
                calls := s.calls ++ [Call.mutexLock, Call.itemInteract] }
            split_ifs
            · simp [call, e1, e2, hc]
            · simp [hc]
            · simp [hc]
          · rw [CheckInteractions_of_item env s it hb hi,
              interactWithItem_other env it (s.call Call.mutexLock) hi hd hc hch]
            simp [call, hc]

theorem Acquires_congr (env : Env) (s s1 : VogueGame) (e : Nat)
    (h1 : s1.player = s.player) (h2 : s1.enemies = s.enemies)
    (h3 : s1.m_windowWidth = s.m_windowWidth) (h4 : s1.m_windowHeight = s.m_windowHeight) :
    Acquires env s1 e ↔ Acquires env s e := by
  unfold Acquires pickedEnemy
  rw [h1, h2, h3, h4]

theorem forwardRightPress_frame (env : Env) (s : VogueGame) :
    ∃ pre : List Call,
      (forwardRightPress env s).player = s.player ∧
      (forwardRightPress env s).enemies = s.enemies ∧
      (forwardRightPress env s).m_windowWidth = s.m_windowWidth ∧
      (forwardRightPress env s).m_windowHeight = s.m_windowHeight ∧
      (forwardRightPress env s).m_gameMode = s.m_gameMode ∧
      (forwardRightPress env s).m_cameraMode = s.m_cameraMode ∧
      (forwardRightPress env s).m_previousCameraMode = s.m_previousCameraMode ∧
      (forwardRightPress env s).m_shouldRestorePreviousCameraMode =
        s.m_shouldRestorePreviousCameraMode ∧
      (forwardRightPress env s).calls = s.calls ++ pre ∧
      Call.savePreviousCameraMode ∉ pre := by
  unfold forwardRightPress
  simp only []
  split_ifs
  · exact ⟨[Call.guiMousePressed MOUSE_BUTTON2], rfl, rfl, rfl, rfl, rfl, rfl, rfl, rfl, rfl,
      by simp⟩
  · exact ⟨[], rfl, rfl, rfl, rfl, rfl, rfl, rfl, rfl, by simp, by simp⟩

theorem recordPressPosition_frame (s : VogueGame) :
    (recordPressPosition s).calls = s.calls ∧
    (recordPressPosition s).m_cameraMode = s.m_cameraMode ∧
    (recordPressPosition s).m_previousCameraMode = s.m_previousCameraMode ∧
    (recordPressPosition s).m_shouldRestorePreviousCameraMode =
      s.m_shouldRestorePreviousCameraMode := by
  unfold recordPressPosition
  split_ifs <;> exact ⟨rfl, rfl, rfl, rfl⟩

theorem MouseRightPressed_mid (env : Env) (s : VogueGame) :
    ∃ (s1 : VogueGame) (pre : List Call),
      s1.player = s.player ∧ s1.enemies = s.enemies ∧
      s1.m_windowWidth = s.m_windowWidth ∧ s1.m_windowHeight = s.m_windowHeight ∧
      s1.m_cameraMode = s.m_cameraMode ∧
      s1.calls = s.calls ++ pre ∧ Call.savePreviousCameraMode ∉ pre ∧
      (MouseRightPressed env s).calls =
        (if s.m_gameMode = GameMode.Game ∧ s.m_cameraMode ≠ CameraMode.FirstPerson
          then SetEnemyTarget env s1 else s1).calls ∧
      (MouseRightPressed env s).m_previousCameraMode =
        (if s.m_gameMode = GameMode.Game ∧ s.m_cameraMode ≠ CameraMode.FirstPerson
          then SetEnemyTarget env s1 else s1).m_previousCameraMode := by
  obtain ⟨pre, a1, a2, a3, a4, a5, a6, _, _, a9, a10⟩ := forwardRightPress_frame env s
  refine ⟨forwardRightPress env s, pre, a1, a2, a3, a4, a6, a9, a10, ?_, ?_⟩
  · unfold MouseRightPressed
    simp only [(recordPressPosition_frame _).1, a5, a6]
  · unfold MouseRightPressed
    simp only [(recordPressPosition_frame _).2.2.1, a5, a6]

theorem MouseRightPressed_saves_iff (env : Env) (s : VogueGame) :
    (SavesDuring env InputOp.mouseRightPressed s ↔
      (s.m_gameMode = GameMode.Game ∧ s.m_cameraMode ≠ CameraMode.FirstPerson ∧
        ∃ e, Acquires env s e)) ∧
    (SavesDuring env InputOp.mouseRightPressed s →
      (MouseRightPressed env s).m_previousCameraMode = s.m_cameraMode) := by
  change (Call.savePreviousCameraMode ∈ (MouseRightPressed env s).calls.drop s.calls.length ↔ _) ∧
    (Call.savePreviousCameraMode ∈ (MouseRightPressed env s).calls.drop s.calls.length → _)
  obtain ⟨s1, pre, h1, h2, h3, h4, h5, h6, h7, h8, h9⟩ := MouseRightPressed_mid env s
  rw [h8, h9]
  by_cases hg : s.m_gameMode = GameMode.Game ∧ s.m_cameraMode ≠ CameraMode.FirstPerson
  · simp only [if_pos hg]
    by_cases ha : ∃ e, Acquires env s e
    · obtain ⟨e, he⟩ := ha
      have he1 : Acquires env s1 e := (Acquires_congr env s s1 e h1 h2 h3 h4).2 he
      rw [SetEnemyTarget_of_acquires env s1 e he1]
      obtain ⟨_, _, a3, _, _, a6⟩ := acquireEnemyTarget_fields e
        (s1.call (Call.getCursorEnemy (truncToInt ((s1.m_windowWidth : ℚ) * (1 / 2)))
          (truncToInt ((s1.m_windowHeight : ℚ) * (1 / 2)))))
      rw [a6, a3]
      constructor
      · simp [h6, hg.1, hg.2]
        exact ⟨e, he⟩
      · intro _
        exact h5
    · have hn : ∀ e, ¬ Acquires env s1 e := fun e he =>
        ha ⟨e, (Acquires_congr env s s1 e h1 h2 h3 h4).1 he⟩
      have hsave : Call.savePreviousCameraMode ∉
          List.drop s.calls.length (SetEnemyTarget env s1).calls := by
        rcases SetEnemyTarget_of_not_acquires env s1 hn with e | e <;> rw [e] <;>
          simp [h6, h7]
      exact ⟨⟨fun hm => absurd hm hsave, fun hh => absurd hh.2.2 ha⟩,
        fun hm => absurd hm hsave⟩
  · simp only [if_neg hg]
    have hsave : Call.savePreviousCameraMode ∉ List.drop s.calls.length s1.calls := by
      simp [h6, h7]
    exact ⟨⟨fun hm => absurd hm hsave, fun hh => absurd ⟨hh.1, hh.2.1⟩ hg⟩,
      fun hm => absurd hm hsave⟩

theorem ReleaseEnemyTarget_no_save (s : VogueGame) :
    ∃ post, (ReleaseEnemyTarget s).calls = s.calls ++ post ∧
      Call.savePreviousCameraMode ∉ post := by
  unfold ReleaseEnemyTarget
  cases s.player.targetEnemy with
  | none => exact ⟨[], by simp, by simp⟩
  | some e =>
    simp only [ShouldRestorePreviousCameraMode]
    split_ifs
    · exact ⟨[Call.restorePreviousCameraMode, Call.initializeCameraRotation,
        Call.letterBoxInterpolation 0],
        by simp [CloseLetterBox, InitializeCameraRotation, RestorePreviousCameraMode, call],
        by simp⟩
    · exact ⟨[Call.letterBoxInterpolation 0], by simp [CloseLetterBox, call], by simp⟩

theorem MouseRightReleased_no_save (env : Env) (s : VogueGame) :
    ¬ SavesDuring env InputOp.mouseRightReleased s := by
  change Call.savePreviousCameraMode ∉ (MouseRightReleased env s).calls.drop s.calls.length
  unfold MouseRightReleased
  simp only []
  split_ifs
  · obtain ⟨post, e1, e2⟩ := ReleaseEnemyTarget_no_save
      { ({ s with m_bPressedCursorDown := false } : VogueGame).call
          (Call.guiMouseReleased MOUSE_BUTTON2) with
        guiMouseInteracting := env.guiMouseReleased MOUSE_BUTTON2 s.guiMouseInteracting }
    rw [e1]
    simp [call, e2]
  · obtain ⟨post, e1, e2⟩ := ReleaseEnemyTarget_no_save
      ({ s with m_bPressedCursorDown := false } : VogueGame)
    rw [e1]
    simp [e2]

theorem CloseInteractionGUI_no_save (env : Env) (s : VogueGame) :
    ¬ SavesDuring env InputOp.closeInteractionGUI s := by
  change Call.savePreviousCameraMode ∉ (CloseInteractionGUI env s).calls.drop s.calls.length
  unfold CloseInteractionGUI
  simp only [ShouldRestorePreviousCameraMode]
  split_ifs <;>
    simp [CloseLetterBox, InitializeCameraRotation, RestorePreviousCameraMode, call,
      TurnCursorOff]

/-- C18, counterexample: from the anvil state (nothing saved, mouse-rotate camera),
`CheckInteractions` saves the mouse-rotate mode and holds the camera in NPCDialog with the
crafting GUI loaded; a right click then acquires the enemy at the screen center and invokes
`SavePreviousCameraMode` again while that contextual mode is saved, so the saved mode becomes
NPCDialog; after releasing the target and closing the crafting GUI the camera is left in
NPCDialog, the mouse-rotate mode is lost. -/
theorem rightClick_at_craftingStation_saves_again :
    anvilState.m_shouldRestorePreviousCameraMode = false ∧
    ContextSaved (runOps sampleEnv [InputOp.checkInteractions] anvilState) ∧
    (runOps sampleEnv [InputOp.checkInteractions] anvilState).m_cameraMode =
      CameraMode.NPCDialog ∧
    (runOps sampleEnv [InputOp.checkInteractions] anvilState).craftingGUI.loaded = true ∧
    (runOps sampleEnv [InputOp.checkInteractions] anvilState).m_previousCameraMode =
      CameraMode.MouseRotate ∧
    SavesDuring sampleEnv InputOp.mouseRightPressed
      (runOps sampleEnv [InputOp.checkInteractions] anvilState) ∧
    (runOps sampleEnv [InputOp.checkInteractions, InputOp.mouseRightPressed]
      anvilState).m_previousCameraMode = CameraMode.NPCDialog ∧
    (runOps sampleEnv [InputOp.checkInteractions, InputOp.mouseRightPressed,
      InputOp.mouseRightReleased, InputOp.closeInteractionGUI] anvilState).m_cameraMode =
      CameraMode.NPCDialog := by
  have hcalls : (MouseRightPressed sampleEnv
      (runOps sampleEnv [InputOp.checkInteractions] anvilState)).calls =
      (runOps sampleEnv [InputOp.checkInteractions] anvilState).calls ++
        [Call.guiMousePressed 2, Call.getCursorEnemy 0 0, Call.savePreviousCameraMode,
          Call.letterBoxInterpolation 1] := by with_unfolding_all rfl
  refine ⟨rfl, ⟨by with_unfolding_all rfl, Or.inl (by with_unfolding_all rfl)⟩,
    by with_unfolding_all rfl, by with_unfolding_all rfl, by with_unfolding_all rfl, ?_,
    by with_unfolding_all rfl, by with_unfolding_all rfl⟩
  change Call.savePreviousCameraMode ∈ (MouseRightPressed sampleEnv
    (runOps sampleEnv [InputOp.checkInteractions] anvilState)).calls.drop
      (runOps sampleEnv [InputOp.checkInteractions] anvilState).calls.length
  rw [hcalls]
  simp

/-- C18, amended: `SavePreviousCameraMode` is not guarded by the restore flag. Releasing the
right button and closing the interaction GUI never invoke it; `CheckInteractions` invokes it
exactly when its gates are open, the crafting GUI is not loaded and the interact item is an
anvil or furnace; `MouseRightPressed` invokes it exactly when the game mode is Game, the camera
mode is not FirstPerson and `SetEnemyTarget` acquires an enemy, whatever is saved, and the saved
mode then becomes the current camera mode. So no operation saves while the player has a target
enemy, and `CheckInteractions` does not save while the crafting GUI is loaded. -/
theorem save_points_of_input_operations (env : Env) (s : VogueGame) :
    ¬ SavesDuring env InputOp.mouseRightReleased s ∧
    ¬ SavesDuring env InputOp.closeInteractionGUI s ∧
    (SavesDuring env InputOp.checkInteractions s ↔
      (¬ InteractionBlocked s ∧ s.craftingGUI.loaded = false ∧
        ∃ it, s.m_pInteractItem = some it ∧
          (it.itemType = eItem.Anvil ∨ it.itemType = eItem.Furnace))) ∧
    (SavesDuring env InputOp.mouseRightPressed s ↔
      (s.m_gameMode = GameMode.Game ∧ s.m_cameraMode ≠ CameraMode.FirstPerson ∧
        ∃ e, Acquires env s e)) ∧
    (SavesDuring env InputOp.mouseRightPressed s →
      (MouseRightPressed env s).m_previousCameraMode = s.m_cameraMode) ∧
    (s.player.targetEnemy ≠ none → ∀ op, ¬ SavesDuring env op s) ∧
    (s.craftingGUI.loaded = true → ¬ SavesDuring env InputOp.checkInteractions s) := by
  refine ⟨MouseRightReleased_no_save env s, CloseInteractionGUI_no_save env s,
    CheckInteractions_saves_iff env s, (MouseRightPressed_saves_iff env s).1,
    (MouseRightPressed_saves_iff env s).2, ?_, ?_⟩
  · intro ht op
    cases op with
    | mouseRightPressed =>
      intro h
      obtain ⟨_, _, e, he⟩ := (MouseRightPressed_saves_iff env s).1.1 h
      exact ht he.2.1
    | mouseRightReleased => exact MouseRightReleased_no_save env s
    | checkInteractions =>
      intro h
      exact ((CheckInteractions_saves_iff env s).1 h).1 (Or.inr (Or.inr (Or.inr ht)))
    | closeInteractionGUI => exact CloseInteractionGUI_no_save env s
  · intro hl h
    have h2 := ((CheckInteractions_saves_iff env s).1 h).2.1
    rw [hl] at h2
    exact Bool.noConfusion h2

/-- C18, amended, at the anvil state: the first `CheckInteractions` saves (gates open, crafting
GUI not loaded, anvil), and in the state it leaves, with the crafting GUI loaded, a second
`CheckInteractions` does not save. -/
theorem save_points_of_input_operations_witness :
    SavesDuring sampleEnv InputOp.checkInteractions anvilState ∧
    (runOps sampleEnv [InputOp.checkInteractions] anvilState).craftingGUI.loaded = true ∧
    ¬ SavesDuring sampleEnv InputOp.checkInteractions
      (runOps sampleEnv [InputOp.checkInteractions] anvilState) :=
  ⟨(save_points_of_input_operations sampleEnv anvilState).2.2.1.2
      ⟨by decide, rfl, _, rfl, Or.inl rfl⟩,
    by with_unfolding_all rfl,
    (save_points_of_input_operations sampleEnv
      (runOps sampleEnv [InputOp.checkInteractions] anvilState)).2.2.2.2.2.2
      (by with_unfolding_all rfl)⟩

/-! ### Keyboard -/

theorem KeyPressed_of_focus (env : Env) (key scancode mods : Int) (s : VogueGame)
    (hf : env.guiKeyPressed key mods s.guiKeyboardInteracting = true)
    (hk : key ≠ GLFW_KEY_ESCAPE) :
    KeyPressed env key scancode mods s = pressForwarded env key mods s := by
  unfold KeyPressed pressForwarded
  simp [call, hf, hk]

theorem KeyReleased_of_focus (env : Env) (key scancode mods : Int) (s : VogueGame)
    (hf : env.guiKeyReleased key mods s.guiKeyboardInteracting = true)
    (hk : key ≠ GLFW_KEY_ESCAPE) :
    KeyReleased env key scancode mods s = releaseForwarded env key mods s := by
  unfold KeyReleased releaseForwarded
  simp [call, hf, hk]

theorem KeyPressed_escape (env : Env) (scancode mods : Int) (s : VogueGame) :
    KeyPressed env GLFW_KEY_ESCAPE scancode mods s =
      { pressForwarded env GLFW_KEY_ESCAPE mods s with m_bKeyboardMenu := true } := by
  unfold KeyPressed pressForwarded
  simp [call, GLFW_KEY_ESCAPE, GLFW_KEY_W, GLFW_KEY_S, GLFW_KEY_A, GLFW_KEY_D, GLFW_KEY_F,
    GLFW_KEY_V, GLFW_KEY_SPACE]

theorem KeyReleased_escape (env : Env) (scancode mods : Int) (s : VogueGame) :
    KeyReleased env GLFW_KEY_ESCAPE scancode mods s =
      { releaseForwarded env GLFW_KEY_ESCAPE mods s with m_bKeyboardMenu := false } := by
  unfold KeyReleased releaseForwarded
  simp [call, GLFW_KEY_ESCAPE, GLFW_KEY_W, GLFW_KEY_S, GLFW_KEY_A, GLFW_KEY_D, GLFW_KEY_F,
    GLFW_KEY_V, GLFW_KEY_SPACE]

/-- C19: when the GUI reports keyboard interaction after the key is forwarded and the key is
not Escape, `KeyPressed` and `KeyReleased` do nothing but forward the key: the state changes
only in the GUI's own focus flag and the record of the forwarding call, so no keyboard flag,
camera mode, pause flag, GUI page or action-bar slot is touched. Escape sets `m_bKeyboardMenu`
to true on press and to false on release whatever the GUI reports. -/
theorem gui_first_refusal_on_keys (env : Env) (key scancode mods : Int) (s : VogueGame) :
    (env.guiKeyPressed key mods s.guiKeyboardInteracting = true → key ≠ GLFW_KEY_ESCAPE →
      KeyPressed env key scancode mods s = pressForwarded env key mods s) ∧
    (env.guiKeyReleased key mods s.guiKeyboardInteracting = true → key ≠ GLFW_KEY_ESCAPE →
      KeyReleased env key scancode mods s = releaseForwarded env key mods s) ∧
    (KeyPressed env GLFW_KEY_ESCAPE scancode mods s).m_bKeyboardMenu = true ∧
    (KeyReleased env GLFW_KEY_ESCAPE scancode mods s).m_bKeyboardMenu = false := by
  refine ⟨KeyPressed_of_focus env key scancode mods s,
    KeyReleased_of_focus env key scancode mods s, ?_, ?_⟩
  · rw [KeyPressed_escape]
  · rw [KeyReleased_escape]

/-- C19 at a running game whose GUI holds the focus: pressing and releasing W only forwards the
key, and Escape still sets and clears the menu flag. -/
theorem gui_first_refusal_on_keys_witness :
    KeyPressed focusedEnv GLFW_KEY_W 0 0 mouseRotateState =
      pressForwarded focusedEnv GLFW_KEY_W 0 mouseRotateState ∧
    KeyReleased focusedEnv GLFW_KEY_W 0 0 mouseRotateState =
      releaseForwarded focusedEnv GLFW_KEY_W 0 mouseRotateState ∧
    (KeyPressed focusedEnv GLFW_KEY_ESCAPE 0 0 mouseRotateState).m_bKeyboardMenu = true ∧
    (KeyReleased focusedEnv GLFW_KEY_ESCAPE 0 0 mouseRotateState).m_bKeyboardMenu = false :=
  ⟨(gui_first_refusal_on_keys focusedEnv GLFW_KEY_W 0 0 mouseRotateState).1 rfl (by decide),
    (gui_first_refusal_on_keys focusedEnv GLFW_KEY_W 0 0 mouseRotateState).2.1 rfl (by decide),
    (gui_first_refusal_on_keys focusedEnv GLFW_KEY_W 0 0 mouseRotateState).2.2⟩

theorem keyboardFlags_KeyPressed (env : Env) (key scancode mods : Int) (s : VogueGame)
    (hk : key ∈ movementKeys) (hp : PressUnfocused env key mods s) :
    keyboardFlags (KeyPressed env key scancode mods s) =
      specKeyFlags key true (keyboardFlags s) := by
  simp only [movementKeys, List.mem_cons, List.mem_singleton, List.not_mem_nil, or_false] at hk
  rcases hp with hp | hp
  · subst hp
    rw [KeyPressed_escape]
    simp [keyboardFlags, specKeyFlags, pressForwarded, GLFW_KEY_ESCAPE, GLFW_KEY_W,
      GLFW_KEY_S, GLFW_KEY_A, GLFW_KEY_D, GLFW_KEY_F, GLFW_KEY_V, GLFW_KEY_SPACE]
  · rcases hk with h | h | h | h | h | h | h | h <;> subst h <;>
      simp only [GLFW_KEY_ESCAPE, GLFW_KEY_W, GLFW_KEY_S, GLFW_KEY_A, GLFW_KEY_D, GLFW_KEY_F,
        GLFW_KEY_V, GLFW_KEY_SPACE] at hp <;>
      simp [KeyPressed, keyboardFlags, specKeyFlags, call, hp, GLFW_KEY_ESCAPE, GLFW_KEY_W,
        GLFW_KEY_S, GLFW_KEY_A, GLFW_KEY_D, GLFW_KEY_F, GLFW_KEY_V, GLFW_KEY_SPACE]

theorem keyboardFlags_KeyReleased (env : Env) (key scancode mods : Int) (s : VogueGame)
    (hk : key ∈ movementKeys) (hp : ReleaseUnfocused env key mods s) :
    keyboardFlags (KeyReleased env key scancode mods s) =
      specKeyFlags key false (keyboardFlags s) := by
  simp only [movementKeys, List.mem_cons, List.mem_singleton, List.not_mem_nil, or_false] at hk
  rcases hp with hp | hp
  · subst hp
    rw [KeyReleased_escape]
    simp [keyboardFlags, specKeyFlags, releaseForwarded, GLFW_KEY_ESCAPE, GLFW_KEY_W,
      GLFW_KEY_S, GLFW_KEY_A, GLFW_KEY_D, GLFW_KEY_F, GLFW_KEY_V, GLFW_KEY_SPACE]
  · rcases hk with h | h | h | h | h | h | h | h <;> subst h <;>
      simp only [GLFW_KEY_ESCAPE, GLFW_KEY_W, GLFW_KEY_S, GLFW_KEY_A, GLFW_KEY_D, GLFW_KEY_F,
        GLFW_KEY_V, GLFW_KEY_SPACE] at hp <;>
      simp [KeyReleased, keyboardFlags, specKeyFlags, call, hp, GLFW_KEY_ESCAPE, GLFW_KEY_W,
        GLFW_KEY_S, GLFW_KEY_A, GLFW_KEY_D, GLFW_KEY_F, GLFW_KEY_V, GLFW_KEY_SPACE]

theorem specKeyFlags_false_true (key : Int) (f : KeyboardFlags) :
    specKeyFlags key false (specKeyFlags key true f) = specKeyFlags key false f := by
  unfold specKeyFlags
  split_ifs <;> rfl

/-- C20: for each key of W, S, A, D, F, V, Space, Escape and with no GUI keyboard focus,
`KeyPressed` sets exactly the flags the table gives for the key to true and `KeyReleased` sets
exactly the same flags to false, every other keyboard flag kept; so a press followed by a
release restores all keyboard flags of a state in which the key's flags were false. -/
theorem movement_keys_set_and_clear (env : Env) (key scancode mods : Int) (s : VogueGame)
    (hk : key ∈ movementKeys) :
    (PressUnfocused env key mods s →
      keyboardFlags (KeyPressed env key scancode mods s) =
        specKeyFlags key true (keyboardFlags s)) ∧
    (ReleaseUnfocused env key mods s →
      keyboardFlags (KeyReleased env key scancode mods s) =
        specKeyFlags key false (keyboardFlags s)) ∧
    (PressUnfocused env key mods s →
      ReleaseUnfocused env key mods (KeyPressed env key scancode mods s) →
      specKeyFlags key false (keyboardFlags s) = keyboardFlags s →
      keyboardFlags (KeyReleased env key scancode mods (KeyPressed env key scancode mods s)) =
        keyboardFlags s) := by
  refine ⟨keyboardFlags_KeyPressed env key scancode mods s hk,
    keyboardFlags_KeyReleased env key scancode mods s hk, ?_⟩
  intro hp hr hf
  rw [keyboardFlags_KeyReleased env key scancode mods _ hk hr,
    keyboardFlags_KeyPressed env key scancode mods s hk hp, specKeyFlags_false_true, hf]

/-- C20 at a running game with no flag set: pressing A sets left and strafe-left only, and the
release that follows restores the flags. -/
theorem movement_keys_set_and_clear_witness :
    keyboardFlags (KeyPressed sampleEnv GLFW_KEY_A 0 0 mouseRotateState) =
      { forward := false, backward := false, strafeLeft := true, strafeRight := false,
        left := true, right := false, up := false, down := false, space := false,
        menu := false } ∧
    keyboardFlags (KeyReleased sampleEnv GLFW_KEY_A 0 0
      (KeyPressed sampleEnv GLFW_KEY_A 0 0 mouseRotateState)) = keyboardFlags mouseRotateState :=
  ⟨(movement_keys_set_and_clear sampleEnv GLFW_KEY_A 0 0 mouseRotateState (by decide)).1
      (Or.inr rfl),
    (movement_keys_set_and_clear sampleEnv GLFW_KEY_A 0 0 mouseRotateState (by decide)).2.2
      (Or.inr rfl) (Or.inr rfl) rfl⟩

theorem KeyReleased_digit (env : Env) (d : Nat) (scancode mods : Int) (s : VogueGame)
    (hd : d < 10) (hf : env.guiKeyReleased (digitKey d) mods s.guiKeyboardInteracting = false) :
    KeyReleased env (digitKey d) scancode mods s =
      (releaseForwarded env (digitKey d) mods s).call (Call.useActionBarslot (specSlot d)) := by
  interval_cases d <;> simp [digitKey, GLFW_KEY_0] at hf <;>
    simp [KeyReleased, releaseForwarded, call, digitKey, specSlot, hf, GLFW_KEY_ESCAPE,
      GLFW_KEY_W, GLFW_KEY_S, GLFW_KEY_A, GLFW_KEY_D, GLFW_KEY_F, GLFW_KEY_V, GLFW_KEY_SPACE,
      GLFW_KEY_O, GLFW_KEY_L, GLFW_KEY_P, GLFW_KEY_I, GLFW_KEY_C, GLFW_KEY_K, GLFW_KEY_0,
      GLFW_KEY_1, GLFW_KEY_2, GLFW_KEY_3, GLFW_KEY_4, GLFW_KEY_5, GLFW_KEY_6, GLFW_KEY_7,
      GLFW_KEY_8, GLFW_KEY_9]

theorem KeyPressed_digit (env : Env) (d : Nat) (scancode mods : Int) (s : VogueGame)
    (hd : d < 10) :
    KeyPressed env (digitKey d) scancode mods s = pressForwarded env (digitKey d) mods s := by
  interval_cases d <;>
    simp [KeyPressed, pressForwarded, call, digitKey, GLFW_KEY_ESCAPE,
      GLFW_KEY_W, GLFW_KEY_S, GLFW_KEY_A, GLFW_KEY_D, GLFW_KEY_F, GLFW_KEY_V, GLFW_KEY_SPACE,
      GLFW_KEY_0]

/-- C21: with no GUI keyboard focus, `KeyReleased` of the digit key `d` forwards the key and
then calls `UseActionBarslot` once, with slot `(d + 9) mod 10`, and does nothing else; the slot
is below ten, distinct digits give distinct slots, and `KeyPressed` of a digit key calls
`UseActionBarslot` for no slot. -/
theorem digit_keys_use_action_bar_slots (env : Env) (d : Nat) (scancode mods : Int)
    (s : VogueGame) (hd : d < 10) :
    (env.guiKeyReleased (digitKey d) mods s.guiKeyboardInteracting = false →
      KeyReleased env (digitKey d) scancode mods s =
        (releaseForwarded env (digitKey d) mods s).call
          (Call.useActionBarslot (specSlot d))) ∧
    specSlot d < 10 ∧
    (∀ d2, d2 < 10 → specSlot d2 = specSlot d → d2 = d) ∧
    (∀ slot, Call.useActionBarslot slot ∉
      (KeyPressed env (digitKey d) scancode mods s).calls.drop s.calls.length) := by
  refine ⟨KeyReleased_digit env d scancode mods s hd, Nat.mod_lt _ (by decide), ?_, ?_⟩
  · intro d2 h2 he
    unfold specSlot at he
    omega
  · intro slot
    rw [KeyPressed_digit env d scancode mods s hd]
    simp [pressForwarded]

/-- C21 at a running game: releasing key 1 records the forwarding and one `UseActionBarslot(0)`,
releasing key 0 one `UseActionBarslot(9)`. -/
theorem digit_keys_use_action_bar_slots_witness :
    (KeyReleased sampleEnv GLFW_KEY_1 0 0 mouseRotateState).calls =
      [Call.guiKeyReleased 49 0, Call.useActionBarslot 0] ∧
    (KeyReleased sampleEnv GLFW_KEY_0 0 0 mouseRotateState).calls =
      [Call.guiKeyReleased 48 0, Call.useActionBarslot 9] :=
  ⟨congrArg VogueGame.calls
      ((digit_keys_use_action_bar_slots sampleEnv 1 0 0 mouseRotateState (by decide)).1 rfl),
    congrArg VogueGame.calls
      ((digit_keys_use_action_bar_slots sampleEnv 0 0 0 mouseRotateState (by decide)).1 rfl)⟩

/-! ### Camera rotation and movement -/

theorem cameraCall_calls (env : Env) (c : Call) (s : VogueGame) :
    (cameraCall env c s).calls = s.calls ++ [c] := rfl

theorem cameraCall_m_cameraMode (env : Env) (c : Call) (s : VogueGame) :
    (cameraCall env c s).m_cameraMode = s.m_cameraMode := rfl

theorem specDeadZone_inside (z a : ℚ) (h : |a| < z) : specDeadZone z a = 0 := by
  unfold specDeadZone
  rw [if_pos h]

theorem specDeadZone_outside (z a : ℚ) (h : z ≤ |a|) : specDeadZone z a = a := by
  unfold specDeadZone
  rw [if_neg (not_lt.2 h)]

theorem JoystickCameraMove_calls (env : Env) (dt : ℚ) (s : VogueGame) :
    (JoystickCameraMove env dt s).calls = s.calls ++
      [Call.cameraFly
          (-(specDeadZone s.window.joystickAnalogDeadZone s.window.joystickAxis1 * 10 * dt)),
        Call.cameraStrafe
          (specDeadZone s.window.joystickAnalogDeadZone s.window.joystickAxis0 * 10 * dt)] := by
  unfold JoystickCameraMove
  simp [cameraCall_calls, specDeadZone]

theorem JoystickCameraRotate_calls (env : Env) (dt : ℚ) (s : VogueGame) :
    (JoystickCameraRotate env dt s).calls = s.calls ++
      rotateCalls s (specPitchLimit (pitch env s) (joystickVertical dt s))
        (joystickHorizontal dt s) := by
  by_cases hc : s.m_cameraMode = CameraMode.FirstPerson <;>
    simp [JoystickCameraRotate, rotateCalls, cameraCall_calls, specPitchLimit, pitch,
      joystickVertical, joystickHorizontal, verticalFlips, horizontalFlip, specDeadZone,
      Vec3.up, hc]

theorem MouseCameraRotate_calls (env : Env) (s : VogueGame) (h : MouseMoved s) :
    (MouseCameraRotate env s).calls = s.calls ++
      rotateCalls s (specPitchLimit (pitch env s) (mouseVertical s) * (3 / 4))
        (mouseHorizontal s * (3 / 4)) := by
  unfold MouseMoved at h
  by_cases hc : s.m_cameraMode = CameraMode.FirstPerson <;>
    simp [MouseCameraRotate, rotateCalls, cameraCall_calls, specPitchLimit, pitch,
      mouseVertical, mouseHorizontal, verticalFlips, horizontalFlip, Vec3.up, hc, h]

theorem joystick_amounts_inside (dt : ℚ) (s : VogueGame)
    (h3 : |s.window.joystickAxis3| < s.window.joystickAnalogDeadZone)
    (h4 : |s.window.joystickAxis4| < s.window.joystickAnalogDeadZone) :
    joystickVertical dt s = 0 ∧ joystickHorizontal dt s = 0 := by
  unfold joystickVertical joystickHorizontal verticalFlips horizontalFlip
  rw [specDeadZone_inside _ _ h3, specDeadZone_inside _ _ h4]
  constructor
  · simp
  · simp

theorem specPitchLimit_zero (p : ℚ) : specPitchLimit p 0 = 0 := by
  unfold specPitchLimit
  split_ifs <;> rfl

/-- C22: joystick axes inside the dead zone are zeroed and the others passed through. The
filter gives `0` for `|a| < z` and `a` for `|a| >= z`. `JoystickCameraMove` calls `Fly` with
minus the filtered axis 1 times `10 * dt` and `Strafe` with the filtered axis 0 times
`10 * dt`, so with both axes inside the dead zone it calls `Fly(0)` and `Strafe(0)`.
`JoystickCameraRotate` rotates by the amounts built from the filtered axes 3 and 4 times
`150 * dt` times the sensitivity times `0.02`, so with both axes inside the dead zone the
vertical and the horizontal rotation are zero for every `dt` and sensitivity. -/
theorem joystick_dead_zone (env : Env) (dt : ℚ) (s : VogueGame) :
    (∀ z a : ℚ, |a| < z → specDeadZone z a = 0) ∧
    (∀ z a : ℚ, z ≤ |a| → specDeadZone z a = a) ∧
    (JoystickCameraMove env dt s).calls = s.calls ++
      [Call.cameraFly
          (-(specDeadZone s.window.joystickAnalogDeadZone s.window.joystickAxis1 * 10 * dt)),
        Call.cameraStrafe
          (specDeadZone s.window.joystickAnalogDeadZone s.window.joystickAxis0 * 10 * dt)] ∧
    (|s.window.joystickAxis0| < s.window.joystickAnalogDeadZone →
      |s.window.joystickAxis1| < s.window.joystickAnalogDeadZone →
      (JoystickCameraMove env dt s).calls = s.calls ++ [Call.cameraFly 0, Call.cameraStrafe 0]) ∧
    (JoystickCameraRotate env dt s).calls = s.calls ++
      rotateCalls s (specPitchLimit (pitch env s) (joystickVertical dt s))
        (joystickHorizontal dt s) ∧
    (|s.window.joystickAxis3| < s.window.joystickAnalogDeadZone →
      |s.window.joystickAxis4| < s.window.joystickAnalogDeadZone →
      (JoystickCameraRotate env dt s).calls = s.calls ++ rotateCalls s 0 0) := by
  refine ⟨specDeadZone_inside, specDeadZone_outside, JoystickCameraMove_calls env dt s, ?_,
    JoystickCameraRotate_calls env dt s, ?_⟩
  · intro h0 h1
    rw [JoystickCameraMove_calls, specDeadZone_inside _ _ h0, specDeadZone_inside _ _ h1]
    simp
  · intro h3 h4
    obtain ⟨e1, e2⟩ := joystick_amounts_inside dt s h3 h4
    rw [JoystickCameraRotate_calls, e1, e2, specPitchLimit_zero]

/-- C22 at a state whose axes read `0.1` under a dead zone of `0.25`: moving calls `Fly(0)` and
`Strafe(0)`, rotating calls `RotateAroundPoint(0, 0, 0, true)` and
`RotateAroundPointY(0, true)`. -/
theorem joystick_dead_zone_witness :
    (JoystickCameraMove sampleEnv 2 idleStickState).calls =
      [Call.cameraFly 0, Call.cameraStrafe 0] ∧
    (JoystickCameraRotate sampleEnv 2 idleStickState).calls =
      [Call.cameraRotateAroundPoint 0 0 0 true, Call.cameraRotateAroundPointY (-0) true] :=
  ⟨(joystick_dead_zone sampleEnv 2 idleStickState).2.2.2.1
      (by simp [idleStickState, abs_of_pos]; norm_num)
      (by simp [idleStickState, abs_of_pos]; norm_num),
    (joystick_dead_zone sampleEnv 2 idleStickState).2.2.2.2.2
      (by simp [idleStickState, abs_of_pos]; norm_num)
      (by simp [idleStickState, abs_of_pos]; norm_num)⟩

theorem MouseCameraRotate_of_not_moved (env : Env) (s : VogueGame) (h : ¬ MouseMoved s) :
    MouseCameraRotate env s = s := by
  unfold MouseMoved at h
  unfold MouseCameraRotate
  simp only [if_pos (not_not.1 h)]

theorem specPitchLimit_eq_zero_iff (p v : ℚ) (hv : v ≠ 0) :
    specPitchLimit p v = 0 ↔ ((p > 75 ∧ v < 0) ∨ (p < -75 ∧ v > 0)) := by
  unfold specPitchLimit
  split_ifs with h
  · simp [h]
  · simp [h, hv]

/-- C27: mouse and joystick rotation apply the same pitch limit. With
`p = degrees(acos(facing . up)) - 90` and `v` the vertical amount after the sign flips and the
sensitivity scaling, a mouse rotation passes `limit(p, v) * 0.75` as vertical and the horizontal
amount times `0.75`, and a joystick rotation passes `limit(p, v)` and the horizontal amount,
with one and the same function `limit`: it is `0` when `p > 75` and `v < 0`, or `p < -75` and
`v > 0`, and `v` otherwise (so for `v` other than zero it is `0` exactly in those cases). The
horizontal amount does not depend on the pitch. A mouse that has not moved rotates nothing. -/
theorem rotation_pitch_limit_shared (env : Env) (dt : ℚ) (s : VogueGame) :
    (MouseMoved s →
      (MouseCameraRotate env s).calls = s.calls ++
        rotateCalls s (specPitchLimit (pitch env s) (mouseVertical s) * (3 / 4))
          (mouseHorizontal s * (3 / 4))) ∧
    (¬ MouseMoved s → MouseCameraRotate env s = s) ∧
    (JoystickCameraRotate env dt s).calls = s.calls ++
      rotateCalls s (specPitchLimit (pitch env s) (joystickVertical dt s))
        (joystickHorizontal dt s) ∧
    (∀ p v : ℚ, ((p > 75 ∧ v < 0) ∨ (p < -75 ∧ v > 0)) → specPitchLimit p v = 0) ∧
    (∀ p v : ℚ, ¬ ((p > 75 ∧ v < 0) ∨ (p < -75 ∧ v > 0)) → specPitchLimit p v = v) ∧
    (∀ p v : ℚ, v ≠ 0 →
      (specPitchLimit p v = 0 ↔ ((p > 75 ∧ v < 0) ∨ (p < -75 ∧ v > 0)))) := by
  refine ⟨MouseCameraRotate_calls env s, MouseCameraRotate_of_not_moved env s,
    JoystickCameraRotate_calls env dt s, ?_, ?_, specPitchLimit_eq_zero_iff⟩
  · intro p v h
    unfold specPitchLimit
    rw [if_pos h]
  · intro p v h
    unfold specPitchLimit
    rw [if_neg h]

/-- C27 at a camera looking straight down (pitch `90`) with an inverted mouse moved by
`(10, 5)`: the vertical amount `-1` would push further down and is replaced by `0`, the
horizontal amount `2` is passed as `-1.5`. -/
theorem rotation_pitch_limit_shared_witness :
    MouseMoved lookingDownState ∧
    pitch sampleEnv lookingDownState = 90 ∧ mouseVertical lookingDownState = -1 ∧
    (MouseCameraRotate sampleEnv lookingDownState).calls =
      [Call.cameraRotateAroundPoint 0 0 0 true, Call.cameraRotateAroundPointY (-(3 / 2)) true] := by
  have hm : MouseMoved lookingDownState := by
    simp [MouseMoved, lookingDownState]
  have hp : pitch sampleEnv lookingDownState = 90 := by
    simp [pitch, sampleEnv, lookingDownState, Vec3.dot, Vec3.up]
  have hv : mouseVertical lookingDownState = -1 := by
    simp [mouseVertical, verticalFlips, lookingDownState]
  have hh : mouseHorizontal lookingDownState = 2 := by
    simp [mouseHorizontal, horizontalFlip, lookingDownState]
    norm_num
  refine ⟨hm, hp, hv, ?_⟩
  rw [(rotation_pitch_limit_shared sampleEnv 1 lookingDownState).1 hm, hp, hv, hh]
  simp [rotateCalls, specPitchLimit, lookingDownState]
  norm_num

/-! ### The instance and the objects it owns -/

theorem GetInstance_of_none (p : Process) (h : p.c_instance = none) :
    GetInstance p = (p.constructed + 1,
      { p with
        c_instance := some (p.constructed + 1), constructed := p.constructed + 1
        live := p.live ++ [Obj.c_instance] }) := by
  unfold GetInstance
  simp [h, Process.new]

theorem GetInstance_of_some (p : Process) (a : Nat) (h : p.c_instance = some a) :
    GetInstance p = (a, p) := by
  unfold GetInstance
  simp [h]

theorem GetInstance_c_instance (p : Process) :
    (GetInstance p).2.c_instance = some (GetInstance p).1 := by
  cases h : p.c_instance with
  | none => rw [GetInstance_of_none p h]
  | some a => rw [GetInstance_of_some p a h, h]

/-- C23: the game object is a lazily created single instance. `GetInstance` constructs an
object only when `c_instance` is null, and then stores its address; with a stored address it
returns that address and changes nothing. So after a call of `GetInstance`, a call in any later
state whose `c_instance` is still the one stored returns the same address and constructs
nothing. -/
theorem GetInstance_single_instance (p : Process) :
    (p.c_instance = none →
      (GetInstance p).2.constructed = p.constructed + 1 ∧
        (GetInstance p).2.c_instance = some (GetInstance p).1) ∧
    (∀ a, p.c_instance = some a → GetInstance p = (a, p)) ∧
    (∀ q : Process, q.c_instance = (GetInstance p).2.c_instance →
      (GetInstance q).1 = (GetInstance p).1 ∧ (GetInstance q).2 = q) := by
  refine ⟨?_, GetInstance_of_some p, ?_⟩
  · intro h
    rw [GetInstance_of_none p h]
    exact ⟨rfl, rfl⟩
  · intro q hq
    rw [GetInstance_c_instance] at hq
    rw [GetInstance_of_some q _ hq]
    exact ⟨rfl, rfl⟩

/-- C23 from the start of the process: the first `GetInstance` constructs the object at
address `1`, and a second one returns address `1` again with one object constructed. -/
theorem GetInstance_single_instance_witness :
    (GetInstance startProcess).1 = 1 ∧
    (GetInstance (GetInstance startProcess).2).1 = 1 ∧
    (GetInstance (GetInstance startProcess).2).2.constructed = 1 :=
  ⟨rfl,
    ((GetInstance_single_instance startProcess).2.2 (GetInstance startProcess).2 rfl).1,
    congrArg Process.constructed
      ((GetInstance_single_instance startProcess).2.2 (GetInstance startProcess).2 rfl).2⟩

/-- C24, the code: `Create` allocates the thirty-one objects the specification lists, and
`Destroy`, run with an instance, deletes thirty objects, each once: twenty-nine of those
`Create` allocated, and the instance. It never deletes the projectile manager nor the HUD,
which stay allocated. -/
theorem Destroy_leaks_projectileManager_and_hud (p : Process) (h : p.c_instance ≠ none) :
    (Create p).live = p.live ++ specCreated ∧
    (Destroy (Create p)).deleted = p.deleted ++
      [Obj.m_pSkybox, Obj.m_pChunkManager, Obj.m_pItemManager, Obj.m_pRandomLootManager,
        Obj.m_pInventoryManager, Obj.m_pFrontendManager, Obj.m_pPlayer, Obj.m_pNPCManager,
        Obj.m_pEnemyManager, Obj.m_pLightingManager, Obj.m_pSceneryManager,
        Obj.m_pBlockParticleManager, Obj.m_pTextEffectsManager, Obj.m_pInstanceManager,
        Obj.m_pBiomeManager, Obj.m_pQubicleBinaryManager, Obj.m_pModsManager,
        Obj.m_pGameCamera, Obj.m_pQuestManager, Obj.m_pQuestJournal, Obj.m_pInventoryGUI,
        Obj.m_pCharacterGUI, Obj.m_pLootGUI, Obj.m_pCraftingGUI, Obj.m_pQuestGUI,
        Obj.m_pActionBar, Obj.m_pGUI, Obj.m_pRenderer, Obj.m_pVogueWindow, Obj.c_instance] ∧
    Obj.m_pProjectileManager ∈ (Destroy (Create p)).live ∧
    Obj.m_pHUD ∈ (Destroy (Create p)).live := by
  have hc : (Create p).c_instance ≠ none := by
    simpa [Create, Process.new] using h
  refine ⟨?_, ?_, ?_, ?_⟩
  · simp [Create, Process.new, specCreated]
  · unfold Destroy
    rw [if_pos hc]
    simp [Create, Process.new, Process.delete]
  · unfold Destroy
    rw [if_pos hc]
    simp [Create, Process.new, Process.delete, List.mem_erase_of_ne]
  · unfold Destroy
    rw [if_pos hc]
    simp [Create, Process.new, Process.delete, List.mem_erase_of_ne]

/-- C24 from the start of the process: after `GetInstance`, `Create` and `Destroy` the objects
still allocated are exactly the projectile manager and the HUD, and no object was deleted
twice. -/
theorem Destroy_leaks_projectileManager_and_hud_witness :
    (Destroy (Create (GetInstance startProcess).2)).live =
      [Obj.m_pProjectileManager, Obj.m_pHUD] ∧
    (Destroy (Create (GetInstance startProcess).2)).deleted.Nodup ∧
    Obj.m_pHUD ∈ (Destroy (Create (GetInstance startProcess).2)).live :=
  ⟨by decide, by decide,
    (Destroy_leaks_projectileManager_and_hud (GetInstance startProcess).2 (by decide)).2.2.2⟩

/-! ### Closing the modal windows -/

theorem closedPage_loaded (v : PageState) :
    (closedPage v).loaded = (v.loaded && v.loadDelayed) := by
  unfold closedPage
  cases h1 : v.loaded <;> cases h2 : v.loadDelayed <;> simp [h1, h2]

theorem IsGUIWindowStillDisplayed_eq (s : VogueGame) :
    IsGUIWindowStillDisplayed s =
      (s.inventoryGUI.loaded || s.characterGUI.loaded || s.lootGUI.loaded ||
        s.craftingGUI.loaded || s.questGUI.loaded) := by
  unfold IsGUIWindowStillDisplayed
  cases s.inventoryGUI.loaded <;> cases s.characterGUI.loaded <;> cases s.lootGUI.loaded <;>
    cases s.craftingGUI.loaded <;> cases s.questGUI.loaded <;> rfl

theorem IsGUIWindowStillDisplayed_CloseAllGUIWindows (s : VogueGame) :
    IsGUIWindowStillDisplayed (CloseAllGUIWindows s) =
      ((s.inventoryGUI.loaded && s.inventoryGUI.loadDelayed) ||
        (s.characterGUI.loaded && s.characterGUI.loadDelayed) ||
        (s.lootGUI.loaded && s.lootGUI.loadDelayed) ||
        (s.craftingGUI.loaded && s.craftingGUI.loadDelayed) ||
        (s.questGUI.loaded && s.questGUI.loadDelayed)) := by
  rw [IsGUIWindowStillDisplayed_eq, CloseAllGUIWindows_eq]
  simp only [closedPage_loaded]

theorem IsGUIWindowStillDisplayed_SetGameMode_FrontEnd (env : Env) (s : VogueGame)
    (h : s.m_gameMode = GameMode.Game ∨ s.m_gameMode = GameMode.Loading) :
    IsGUIWindowStillDisplayed (SetGameMode env GameMode.FrontEnd s) =
      IsGUIWindowStillDisplayed (CloseAllGUIWindows s) := by
  rw [SetGameMode_toFrontEnd env s h, frontEndBoundTeardown_eq, CloseAllGUIWindows_eq]
  rfl

theorem IsGUIWindowStillDisplayed_SetGameMode_Game (env : Env) (s : VogueGame)
    (h : s.m_gameMode = GameMode.FrontEnd ∨ s.m_gameMode = GameMode.Loading) :
    IsGUIWindowStillDisplayed (SetGameMode env GameMode.Game s) =
      IsGUIWindowStillDisplayed (CloseAllGUIWindows s) := by
  rw [SetGameMode_toGame env s h, gameBoundTeardown_eq, CloseAllGUIWindows_eq]
  rfl

/-- C25, counterexample: with the loot GUI loaded and its load still delayed,
`CloseAllGUIWindows` leaves the loot GUI loaded, `IsGUIWindowStillDisplayed` returns true
afterwards, and it still does after the Game to FrontEnd transition of `SetGameMode`. The
state arises in play: interacting with a chest loads the loot GUI with a delayed load, and the
transition to FrontEnd from there leaves a modal window displayed. -/
theorem CloseAllGUIWindows_skips_delayed_loot :
    (CloseAllGUIWindows delayedLootState).lootGUI.loaded = true ∧
    IsGUIWindowStillDisplayed (CloseAllGUIWindows delayedLootState) = true ∧
    IsGUIWindowStillDisplayed (SetGameMode sampleEnv GameMode.FrontEnd delayedLootState) = true ∧
    (CheckInteractions sampleEnv chestState).2.lootGUI = { loaded := true, loadDelayed := true } ∧
    IsGUIWindowStillDisplayed
      (SetGameMode sampleEnv GameMode.FrontEnd (CheckInteractions sampleEnv chestState).2) =
        true := by
  refine ⟨by decide, by decide, by decide, by decide, by decide⟩

/-- C25, amended: `CloseAllGUIWindows` unloads the modal windows that are loaded and not
load-delayed and skips a window whose load is delayed. After it each of the five windows is
loaded exactly when it was loaded and load-delayed before, so `IsGUIWindowStillDisplayed`
returns true afterwards exactly when some window was loaded and load-delayed, and false when
no window is load-delayed; and what it returns after a FrontEnd to Game or Game to FrontEnd
transition of `SetGameMode` (also from Loading) is what it returns after
`CloseAllGUIWindows`. -/
theorem CloseAllGUIWindows_closes_undelayed (env : Env) (s : VogueGame) :
    (∀ p ∈ modalPages,
      ((CloseAllGUIWindows s).page p).loaded = ((s.page p).loaded && (s.page p).loadDelayed)) ∧
    (IsGUIWindowStillDisplayed (CloseAllGUIWindows s) = true ↔
      ∃ p ∈ modalPages, (s.page p).loaded = true ∧ (s.page p).loadDelayed = true) ∧
    ((∀ p ∈ modalPages, (s.page p).loadDelayed = false) →
      IsGUIWindowStillDisplayed (CloseAllGUIWindows s) = false) ∧
    ((s.m_gameMode = GameMode.Game ∨ s.m_gameMode = GameMode.Loading) →
      IsGUIWindowStillDisplayed (SetGameMode env GameMode.FrontEnd s) =
        IsGUIWindowStillDisplayed (CloseAllGUIWindows s)) ∧
    ((s.m_gameMode = GameMode.FrontEnd ∨ s.m_gameMode = GameMode.Loading) →
      IsGUIWindowStillDisplayed (SetGameMode env GameMode.Game s) =
        IsGUIWindowStillDisplayed (CloseAllGUIWindows s)) := by
  refine ⟨?_, ?_, ?_, IsGUIWindowStillDisplayed_SetGameMode_FrontEnd env s,
    IsGUIWindowStillDisplayed_SetGameMode_Game env s⟩
  · intro p hp
    rw [CloseAllGUIWindows_eq]
    simp only [modalPages, List.mem_cons, List.mem_singleton, List.not_mem_nil, or_false] at hp
    rcases hp with h | h | h | h | h <;> subst h <;> simp only [page, closedPage_loaded]
  · rw [IsGUIWindowStillDisplayed_CloseAllGUIWindows]
    simp [modalPages, page, or_assoc]
  · intro h
    rw [IsGUIWindowStillDisplayed_CloseAllGUIWindows]
    simp only [modalPages, List.mem_cons, List.mem_singleton, List.not_mem_nil, or_false,
      forall_eq_or_imp, forall_eq, page] at h
    obtain ⟨h1, h2, h3, h4, h5⟩ := h
    simp [h1, h2, h3, h4, h5]

/-- C25, amended, at a running game with the inventory and the quest GUI open and no load
delayed: nothing is displayed after `CloseAllGUIWindows`, nor after the transition to
FrontEnd. -/
theorem CloseAllGUIWindows_closes_undelayed_witness :
    IsGUIWindowStillDisplayed openWindowsState = true ∧
    IsGUIWindowStillDisplayed (CloseAllGUIWindows openWindowsState) = false ∧
    IsGUIWindowStillDisplayed (SetGameMode sampleEnv GameMode.FrontEnd openWindowsState) =
      false :=
  have h : IsGUIWindowStillDisplayed (CloseAllGUIWindows openWindowsState) = false :=
    (CloseAllGUIWindows_closes_undelayed sampleEnv openWindowsState).2.2.1 (by decide)
  ⟨by decide, h,
    ((CloseAllGUIWindows_closes_undelayed sampleEnv openWindowsState).2.2.2.1
      (Or.inl rfl)).trans h⟩

/-! ### Mouse scroll outside first-person -/

theorem WrapCameraZoomValue_fields (s : VogueGame) :
    (WrapCameraZoomValue s).m_maxCameraDistance =
      specClamp (specZoomRange s.m_gameMode s.m_cameraMode) s.m_maxCameraDistance ∧
    (WrapCameraZoomValue s).m_cameraDistance = s.m_cameraDistance := by
  have hle := specZoomRange_le s.m_gameMode s.m_cameraMode
  unfold WrapCameraZoomValue specClamp
  rw [zoomBounds_eq_spec]
  simp only []
  split_ifs with h1 h2 h2
  · refine ⟨?_, rfl⟩
    show (specZoomRange s.m_gameMode s.m_cameraMode).2 = _
    simp only [ge_iff_le] at h2
    have e : (specZoomRange s.m_gameMode s.m_cameraMode).2 =
        (specZoomRange s.m_gameMode s.m_cameraMode).1 := le_antisymm h2 hle
    rw [min_eq_right (le_trans h1 hle), max_eq_left h1]
    exact e
  · refine ⟨?_, rfl⟩
    show (specZoomRange s.m_gameMode s.m_cameraMode).1 = _
    rw [min_eq_right (le_trans h1 hle), max_eq_left h1]
  · refine ⟨?_, rfl⟩
    show (specZoomRange s.m_gameMode s.m_cameraMode).2 = _
    rw [min_eq_left h2, max_eq_right hle]
  · refine ⟨?_, rfl⟩
    show s.m_maxCameraDistance = _
    rw [min_eq_right (le_of_lt (lt_of_not_ge h2)), max_eq_right (le_of_lt (lt_of_not_ge h1))]

/-- C26: with the gates of `MouseScroll` open and a camera mode other than FirstPerson,
`m_maxCameraDistance` becomes the old value minus `0.5 * y`, clamped into the range
`WrapCameraZoomValue` uses for the game and camera mode, and `m_cameraDistance` is unchanged;
with a gate closed `MouseScroll` returns the state unchanged for every `y`. -/
theorem MouseScroll_outside_firstPerson (x y : ℚ) (s : VogueGame) :
    (MouseScrollGatesOpen s → s.m_cameraMode ≠ CameraMode.FirstPerson →
      (MouseScroll x y s).m_maxCameraDistance =
        specClamp (specZoomRange s.m_gameMode s.m_cameraMode)
          (s.m_maxCameraDistance - 1 / 2 * y) ∧
      (MouseScroll x y s).m_cameraDistance = s.m_cameraDistance) ∧
    (¬ MouseScrollGatesOpen s → MouseScroll x y s = s) := by
  refine ⟨?_, MouseScroll_eq_of_gates_closed x y s⟩
  intro hg hc
  rw [MouseScroll_of_gates_open x y s hg, if_pos hc]
  obtain ⟨e1, e2⟩ := WrapCameraZoomValue_fields
    { s with m_maxCameraDistance := s.m_maxCameraDistance + (-y * (1 / 2)) }
  rw [e1, e2]
  refine ⟨?_, rfl⟩
  show specClamp _ (s.m_maxCameraDistance + (-y * (1 / 2))) = _
  congr 1
  ring

/-- C26 in game mode Game with the mouse-rotate camera at distance `5`: scrolling by `y = 2`
gives the distance `4`, scrolling by `y = 20` is clamped to `1`, and with the game paused the
state is unchanged. -/
theorem MouseScroll_outside_firstPerson_witness :
    (MouseScroll 0 2 mouseRotateState).m_maxCameraDistance = 4 ∧
    (MouseScroll 0 20 mouseRotateState).m_maxCameraDistance = 1 ∧
    MouseScroll 0 2 { mouseRotateState with m_bPaused := true } =
      { mouseRotateState with m_bPaused := true } := by
  have hg : MouseScrollGatesOpen mouseRotateState := by decide
  refine ⟨?_, ?_, ?_⟩
  · rw [((MouseScroll_outside_firstPerson 0 2 mouseRotateState).1 hg (by decide)).1]
    simp [specClamp, specZoomRange, mouseRotateState]
    norm_num
  · rw [((MouseScroll_outside_firstPerson 0 20 mouseRotateState).1 hg (by decide)).1]
    simp [specClamp, specZoomRange, mouseRotateState]
    norm_num
  · exact (MouseScroll_outside_firstPerson 0 2 { mouseRotateState with m_bPaused := true }).2
      (by decide)

/-! ### Transitions through Debug -/

theorem SetGameMode_to_Debug_or_Loading (env : Env) (m : GameMode) (s : VogueGame)
    (hm : m = GameMode.Debug ∨ m = GameMode.Loading) :
    SetGameMode env m s = { s with m_gameMode := m } := by
  apply SetGameMode_no_transition
  · intro e
    rcases hm with h | h <;> rw [h] at e <;> cases e
  · intro e
    rcases hm with h | h <;> rw [h] at e <;> cases e

theorem SetGameMode_from_Debug (env : Env) (m : GameMode) (s : VogueGame)
    (h : s.m_gameMode = GameMode.Debug) :
    SetGameMode env m s = { s with m_gameMode := m } := by
  apply SetGameMode_no_transition
  · intro _
    rw [h]
    simp
  · intro _
    rw [h]
    simp

theorem SetGameMode_Debug_then (env : Env) (m : GameMode) (s : VogueGame) :
    SetGameMode env m (SetGameMode env GameMode.Debug s) = { s with m_gameMode := m } := by
  rw [SetGameMode_to_Debug_or_Loading env GameMode.Debug s (Or.inl rfl),
    SetGameMode_from_Debug env m _ rfl]

/-- C28: transitions through Debug skip all setup and teardown. `SetGameMode(Debug)` and
`SetGameMode(Loading)` from any mode, and `SetGameMode` of any mode called while the mode is
Debug, change `m_gameMode` and nothing else, no collaborator call included. So going to Debug
and from there to FrontEnd (or Game) yields the starting state with only the game mode changed:
no call is recorded and the collections of items, NPCs, enemies, projectiles, quests and
journal entries are what they were. -/
theorem SetGameMode_through_Debug (env : Env) (s : VogueGame) :
    (∀ m, (m = GameMode.Debug ∨ m = GameMode.Loading) →
      SetGameMode env m s = { s with m_gameMode := m }) ∧
    (s.m_gameMode = GameMode.Debug → ∀ m, SetGameMode env m s = { s with m_gameMode := m }) ∧
    (∀ m, SetGameMode env m (SetGameMode env GameMode.Debug s) = { s with m_gameMode := m }) ∧
    (∀ m, newCalls s (SetGameMode env m (SetGameMode env GameMode.Debug s)) = []) ∧
    (∀ (m : GameMode) (c : Collections),
      c.run (newCalls s (SetGameMode env m (SetGameMode env GameMode.Debug s))) = c) := by
  have hn : ∀ m, newCalls s (SetGameMode env m (SetGameMode env GameMode.Debug s)) = [] := by
    intro m
    rw [SetGameMode_Debug_then]
    simp [newCalls]
  refine ⟨fun m hm => SetGameMode_to_Debug_or_Loading env m s hm,
    fun h m => SetGameMode_from_Debug env m s h, fun m => SetGameMode_Debug_then env m s, hn, ?_⟩
  intro m c
  rw [hn m]
  rfl

/-- C28 at a running game next to a chest: Game to Debug to FrontEnd ends in FrontEnd with no
call made, and from the Debug state `SetGameMode(Game)` only sets the mode. -/
theorem SetGameMode_through_Debug_witness :
    (SetGameMode sampleEnv GameMode.FrontEnd
      (SetGameMode sampleEnv GameMode.Debug chestState)).m_gameMode = GameMode.FrontEnd ∧
    (SetGameMode sampleEnv GameMode.FrontEnd
      (SetGameMode sampleEnv GameMode.Debug chestState)).calls = [] ∧
    SetGameMode sampleEnv GameMode.Game debugChestState =
      { debugChestState with m_gameMode := GameMode.Game } :=
  ⟨congrArg VogueGame.m_gameMode
      ((SetGameMode_through_Debug sampleEnv chestState).2.2.1 GameMode.FrontEnd),
    congrArg VogueGame.calls
      ((SetGameMode_through_Debug sampleEnv chestState).2.2.1 GameMode.FrontEnd),
    (SetGameMode_through_Debug sampleEnv debugChestState).2.1 rfl GameMode.Game⟩

/-! ### Closing the window -/

theorem ShowQuitPopup_of_shown (env : Env) (s : VogueGame)
    (h : s.frontendScreen = FrontendScreen.QuitPopup) : ShowQuitPopup env s = s := by
  unfold ShowQuitPopup
  rw [if_neg (not_not.2 h)]

theorem ShowQuitPopup_of_not_shown (env : Env) (s : VogueGame)
    (h : s.frontendScreen ≠ FrontendScreen.QuitPopup) :
    ShowQuitPopup env s =
      { s with
        inventoryGUI := closedPage s.inventoryGUI
        characterGUI := closedPage s.characterGUI
        lootGUI := closedPage s.lootGUI
        craftingGUI := closedPage s.craftingGUI
        questGUI := closedPage s.questGUI
        frontendScreen := FrontendScreen.QuitPopup
        m_bPaused := true
        m_globalBlurAmount := 3 / 2000
        window := env.windowTurnCursorOn false false s.window
        m_bCustomCursorOn := true
        calls := s.calls ++ (closeAllCalls s ++
          [Call.setFrontendScreen FrontendScreen.QuitPopup, Call.blurCheckBoxSetToggled true,
            Call.windowTurnCursorOn false false]) } := by
  unfold ShowQuitPopup
  rw [if_pos h, CloseAllGUIWindows_eq]
  simp [setFrontendScreen, SetPaused, SetGlobalBlurAmount, TurnCursorOn, call]

/-- C30: closing the window never quits a running game directly. In game mode Game
`CloseWindow` leaves `m_bGameQuit` (and so the result of `ShouldClose`) unchanged and leaves the
quit popup as the frontend screen; when the popup was not yet shown it sets the screen through
`SetFrontendScreen(QuitPopup)` and pauses the game, and when it was already shown the state is
unchanged. In every other game mode `CloseWindow` only sets `m_bGameQuit` to true, so that
`ShouldClose` returns true. -/
theorem CloseWindow_never_quits_game (env : Env) (s : VogueGame) :
    (s.m_gameMode = GameMode.Game →
      (CloseWindow env s).m_bGameQuit = s.m_bGameQuit ∧
        ShouldClose (CloseWindow env s) = ShouldClose s ∧
        (CloseWindow env s).frontendScreen = FrontendScreen.QuitPopup) ∧
    (s.m_gameMode = GameMode.Game → s.frontendScreen ≠ FrontendScreen.QuitPopup →
      (CloseWindow env s).m_bPaused = true ∧
        newCalls s (CloseWindow env s) = closeAllCalls s ++
          [Call.setFrontendScreen FrontendScreen.QuitPopup, Call.blurCheckBoxSetToggled true,
            Call.windowTurnCursorOn false false]) ∧
    (s.m_gameMode = GameMode.Game → s.frontendScreen = FrontendScreen.QuitPopup →
      CloseWindow env s = s) ∧
    (s.m_gameMode ≠ GameMode.Game →
      CloseWindow env s = { s with m_bGameQuit := true } ∧
        ShouldClose (CloseWindow env s) = true) := by
  refine ⟨?_, ?_, ?_, ?_⟩
  · intro hg
    unfold CloseWindow ShouldClose
    rw [if_pos hg]
    by_cases hq : s.frontendScreen = FrontendScreen.QuitPopup
    · rw [ShowQuitPopup_of_shown env s hq]
      exact ⟨rfl, rfl, hq⟩
    · rw [ShowQuitPopup_of_not_shown env s hq]
      exact ⟨rfl, rfl, rfl⟩
  · intro hg hq
    unfold CloseWindow
    rw [if_pos hg, ShowQuitPopup_of_not_shown env s hq]
    refine ⟨rfl, ?_⟩
    simp [newCalls]
  · intro hg hq
    unfold CloseWindow
    rw [if_pos hg, ShowQuitPopup_of_shown env s hq]
  · intro hg
    unfold CloseWindow ShouldClose
    rw [if_neg hg]
    exact ⟨rfl, rfl⟩

/-- C30 at sample states: in a running game `CloseWindow` pauses and shows the quit popup
without setting `m_bGameQuit`; with the popup already shown it changes nothing; in the front end
it makes `ShouldClose` return true. -/
theorem CloseWindow_never_quits_game_witness :
    ((CloseWindow sampleEnv chestState).m_bGameQuit = false ∧
      ShouldClose (CloseWindow sampleEnv chestState) = ShouldClose chestState ∧
      (CloseWindow sampleEnv chestState).frontendScreen = FrontendScreen.QuitPopup) ∧
    (CloseWindow sampleEnv chestState).m_bPaused = true ∧
    CloseWindow sampleEnv quitPopupState = quitPopupState ∧
    ShouldClose (CloseWindow sampleEnv frontEndState) = true :=
  ⟨(CloseWindow_never_quits_game sampleEnv chestState).1 rfl,
    ((CloseWindow_never_quits_game sampleEnv chestState).2.1 rfl (by decide)).1,
    (CloseWindow_never_quits_game sampleEnv quitPopupState).2.2.1 rfl rfl,
    ((CloseWindow_never_quits_game sampleEnv frontEndState).2.2.2 (by decide)).2⟩

/-! ### Action bar and HUD -/

theorem newCalls_SetGameMode_toGame (env : Env) (s : VogueGame)
    (h : s.m_gameMode = GameMode.FrontEnd ∨ s.m_gameMode = GameMode.Loading) :
    newCalls s (SetGameMode env GameMode.Game s) =
      closeAllCalls s ++ (clearWorldCalls ++ (clearQuestCalls ++ (loadBarCalls s ++
        (setupDataForGameCalls env.randomLootAvailable ++
          [Call.initializeChunkCreation])))) := by
  rw [SetGameMode_toGame env s h, gameBoundTeardown_eq]
  simp [newCalls, SetupDataForGame, call]
  rfl

theorem newCalls_SetGameMode_toFrontEnd (env : Env) (s : VogueGame)
    (h : s.m_gameMode = GameMode.Game ∨ s.m_gameMode = GameMode.Loading) :
    newCalls s (SetGameMode env GameMode.FrontEnd s) =
      closeAllCalls s ++ (clearWorldCalls ++ (Call.inventoryReset :: (clearQuestCalls ++
        (unloadBarCalls s ++ [Call.initializeChunkCreation])))) := by
  rw [SetGameMode_toFrontEnd env s h, frontEndBoundTeardown_eq]
  simp [newCalls, SetupDataForFrontEnd, call]
  rfl

theorem SetGameMode_cases (env : Env) (m : GameMode) (s : VogueGame) :
    (m = GameMode.Game ∧ (s.m_gameMode = GameMode.FrontEnd ∨ s.m_gameMode = GameMode.Loading)) ∨
    (m = GameMode.FrontEnd ∧ (s.m_gameMode = GameMode.Game ∨ s.m_gameMode = GameMode.Loading)) ∨
    SetGameMode env m s = { s with m_gameMode := m } := by
  by_cases hG : m = GameMode.Game ∧
      (s.m_gameMode = GameMode.FrontEnd ∨ s.m_gameMode = GameMode.Loading)
  · exact Or.inl hG
  · by_cases hF : m = GameMode.FrontEnd ∧
        (s.m_gameMode = GameMode.Game ∨ s.m_gameMode = GameMode.Loading)
    · exact Or.inr (Or.inl hF)
    · exact Or.inr (Or.inr
        (SetGameMode_no_transition env m s (fun e h => hF ⟨e, h⟩) (fun e h => hG ⟨e, h⟩)))

theorem pageLoad_not_mem_closeAllCalls (s : VogueGame) (p : GuiPage) (b : Bool) (t : ℚ) :
    Call.pageLoad p b t ∉ closeAllCalls s := by
  intro h
  rcases mem_closeAllCalls s _ h with ⟨q, e⟩ | e <;> cases e

theorem pageLoad_not_mem_setup (r : Bool) (p : GuiPage) (b : Bool) (t : ℚ) :
    Call.pageLoad p b t ∉ setupDataForGameCalls r := by
  cases r <;> simp [setupDataForGameCalls]

theorem pageUnload_not_mem_setup (r : Bool) (p : GuiPage) :
    Call.pageUnload p ∉ setupDataForGameCalls r := by
  cases r <;> simp [setupDataForGameCalls]

theorem pageLoad_mem_loadBarCalls (s : VogueGame) (p : GuiPage) (b : Bool) (t : ℚ)
    (h : Call.pageLoad p b t ∈ loadBarCalls s) :
    (p = GuiPage.ActionBar ∨ p = GuiPage.HUD) ∧ (s.page p).loaded = false ∧
      s.settings.m_renderGUI = true := by
  unfold loadBarCalls at h
  simp only [List.mem_append] at h
  rcases h with h | h
  · split_ifs at h with hc
    · simp at h
      obtain ⟨rfl, _, _⟩ := h
      exact ⟨Or.inl rfl, hc.1, hc.2⟩
    · simp at h
  · split_ifs at h with hc
    · simp at h
      obtain ⟨rfl, _, _⟩ := h
      exact ⟨Or.inr rfl, hc.1, hc.2⟩
    · simp at h

theorem pageUnload_mem_unloadBarCalls (s : VogueGame) (p : GuiPage)
    (h : Call.pageUnload p ∈ unloadBarCalls s) :
    (p = GuiPage.ActionBar ∨ p = GuiPage.HUD) ∧ (s.page p).loaded = true ∧
      s.settings.m_renderGUI = true := by
  unfold unloadBarCalls at h
  simp only [List.mem_append] at h
  rcases h with h | h
  · split_ifs at h with hc
    · simp at h
      subst h
      exact ⟨Or.inl rfl, hc.1, hc.2⟩
    · simp at h
  · split_ifs at h with hc
    · simp at h
      subst h
      exact ⟨Or.inr rfl, hc.1, hc.2⟩
    · simp at h

theorem pageUnload_bar_not_mem_closeAllCalls (s : VogueGame) (p : GuiPage)
    (hp : p = GuiPage.ActionBar ∨ p = GuiPage.HUD) :
    Call.pageUnload p ∉ closeAllCalls s := by
  unfold closeAllCalls closeCallsOf
  rcases hp with rfl | rfl <;>
    (simp only [List.mem_append, List.mem_singleton, not_or]
     refine ⟨⟨⟨⟨⟨?_, ?_⟩, ?_⟩, ?_⟩, ?_⟩, ?_⟩ <;> first | (split_ifs <;> simp) | simp)

theorem pageLoad_mem_newCalls (env : Env) (m : GameMode) (s : VogueGame) (p : GuiPage)
    (b : Bool) (t : ℚ) (h : Call.pageLoad p b t ∈ newCalls s (SetGameMode env m s)) :
    (p = GuiPage.ActionBar ∨ p = GuiPage.HUD) ∧ (s.page p).loaded = false ∧
      s.settings.m_renderGUI = true := by
  rcases SetGameMode_cases env m s with ⟨rfl, hm⟩ | ⟨rfl, hm⟩ | e
  · rw [newCalls_SetGameMode_toGame env s hm] at h
    simp only [List.mem_append, List.mem_singleton] at h
    rcases h with h | h | h | h | h | h
    · exact absurd h (pageLoad_not_mem_closeAllCalls s p b t)
    · simp [clearWorldCalls] at h
    · simp [clearQuestCalls] at h
    · exact pageLoad_mem_loadBarCalls s p b t h
    · exact absurd h (pageLoad_not_mem_setup _ p b t)
    · cases h
  · rw [newCalls_SetGameMode_toFrontEnd env s hm] at h
    simp only [List.mem_append, List.mem_cons, List.mem_singleton, List.not_mem_nil,
      or_false] at h
    rcases h with h | h | h | h | h | h
    · exact absurd h (pageLoad_not_mem_closeAllCalls s p b t)
    · simp [clearWorldCalls] at h
    · cases h
    · simp [clearQuestCalls] at h
    · rcases mem_unloadBarCalls s _ h with e | e <;> cases e
    · cases h
  · rw [e] at h
    simp [newCalls] at h

theorem pageUnload_bar_mem_newCalls (env : Env) (m : GameMode) (s : VogueGame) (p : GuiPage)
    (hp : p = GuiPage.ActionBar ∨ p = GuiPage.HUD)
    (h : Call.pageUnload p ∈ newCalls s (SetGameMode env m s)) :
    (s.page p).loaded = true ∧ s.settings.m_renderGUI = true := by
  rcases SetGameMode_cases env m s with ⟨rfl, hm⟩ | ⟨rfl, hm⟩ | e
  · rw [newCalls_SetGameMode_toGame env s hm] at h
    simp only [List.mem_append, List.mem_singleton] at h
    rcases h with h | h | h | h | h | h
    · exact absurd h (pageUnload_bar_not_mem_closeAllCalls s p hp)
    · simp [clearWorldCalls] at h
    · simp [clearQuestCalls] at h
    · rcases mem_loadBarCalls s _ h with e | e <;> cases e
    · exact absurd h (pageUnload_not_mem_setup _ p)
    · cases h
  · rw [newCalls_SetGameMode_toFrontEnd env s hm] at h
    simp only [List.mem_append, List.mem_cons, List.mem_singleton, List.not_mem_nil,
      or_false] at h
    rcases h with h | h | h | h | h | h
    · exact absurd h (pageUnload_bar_not_mem_closeAllCalls s p hp)
    · simp [clearWorldCalls] at h
    · cases h
    · simp [clearQuestCalls] at h
    · exact (pageUnload_mem_unloadBarCalls s p h).2
    · cases h
  · rw [e] at h
    simp [newCalls] at h

theorem SetGameMode_bars (env : Env) (m : GameMode) (s : VogueGame) :
    (SetGameMode env m s).actionBar =
      (if m = GameMode.Game ∧
          (s.m_gameMode = GameMode.FrontEnd ∨ s.m_gameMode = GameMode.Loading) then
        (if s.actionBar.loaded = false ∧ s.settings.m_renderGUI = true
          then { loaded := true, loadDelayed := false } else s.actionBar)
      else if m = GameMode.FrontEnd ∧
          (s.m_gameMode = GameMode.Game ∨ s.m_gameMode = GameMode.Loading) then
        (if s.actionBar.loaded = true ∧ s.settings.m_renderGUI = true
          then { s.actionBar with loaded := false } else s.actionBar)
      else s.actionBar) ∧
    (SetGameMode env m s).hud =
      (if m = GameMode.Game ∧
          (s.m_gameMode = GameMode.FrontEnd ∨ s.m_gameMode = GameMode.Loading) then
        (if s.hud.loaded = false ∧ s.settings.m_renderGUI = true
          then { loaded := true, loadDelayed := false } else s.hud)
      else if m = GameMode.FrontEnd ∧
          (s.m_gameMode = GameMode.Game ∨ s.m_gameMode = GameMode.Loading) then
        (if s.hud.loaded = true ∧ s.settings.m_renderGUI = true
          then { s.hud with loaded := false } else s.hud)
      else s.hud) := by
  rcases SetGameMode_cases env m s with ⟨rfl, hm⟩ | ⟨rfl, hm⟩ | e
  · rw [SetGameMode_toGame env s hm, gameBoundTeardown_eq]
    simp [SetupDataForGame, call, hm]
  · rw [SetGameMode_toFrontEnd env s hm, frontEndBoundTeardown_eq]
    simp [SetupDataForFrontEnd, call, hm]
  · by_cases hG : m = GameMode.Game ∧
        (s.m_gameMode = GameMode.FrontEnd ∨ s.m_gameMode = GameMode.Loading)
    · obtain ⟨rfl, hm⟩ := hG
      rw [SetGameMode_toGame env s hm, gameBoundTeardown_eq]
      simp [SetupDataForGame, call, hm]
    · by_cases hF : m = GameMode.FrontEnd ∧
          (s.m_gameMode = GameMode.Game ∨ s.m_gameMode = GameMode.Loading)
      · obtain ⟨rfl, hm⟩ := hF
        rw [SetGameMode_toFrontEnd env s hm, frontEndBoundTeardown_eq]
        simp [SetupDataForFrontEnd, call, hm]
      · rw [e, if_neg hG, if_neg hG, if_neg hF, if_neg hF]
        exact ⟨rfl, rfl⟩

/-- C29: action bar and HUD follow the transition only when GUI rendering is enabled. With
`m_renderGUI` true, after `SetGameMode(Game)` from FrontEnd or Loading both are loaded and
after `SetGameMode(FrontEnd)` from Game or Loading both are unloaded. Every `Load` that a
`SetGameMode` makes is on the action bar or the HUD while that page is not loaded, and every
`Unload` it makes on the action bar or the HUD is while that page is loaded, both only with
`m_renderGUI` true. With `m_renderGUI` false no `SetGameMode` loads or unloads them and their
state is unchanged. -/
theorem SetGameMode_action_bar_and_hud (env : Env) (s : VogueGame) :
    ((s.m_gameMode = GameMode.FrontEnd ∨ s.m_gameMode = GameMode.Loading) →
      s.settings.m_renderGUI = true →
      (SetGameMode env GameMode.Game s).actionBar.loaded = true ∧
        (SetGameMode env GameMode.Game s).hud.loaded = true) ∧
    ((s.m_gameMode = GameMode.Game ∨ s.m_gameMode = GameMode.Loading) →
      s.settings.m_renderGUI = true →
      (SetGameMode env GameMode.FrontEnd s).actionBar.loaded = false ∧
        (SetGameMode env GameMode.FrontEnd s).hud.loaded = false) ∧
    (∀ m p b t, Call.pageLoad p b t ∈ newCalls s (SetGameMode env m s) →
      (p = GuiPage.ActionBar ∨ p = GuiPage.HUD) ∧ (s.page p).loaded = false ∧
        s.settings.m_renderGUI = true) ∧
    (∀ m p, (p = GuiPage.ActionBar ∨ p = GuiPage.HUD) →
      Call.pageUnload p ∈ newCalls s (SetGameMode env m s) →
      (s.page p).loaded = true ∧ s.settings.m_renderGUI = true) ∧
    (s.settings.m_renderGUI = false → ∀ m,
      (SetGameMode env m s).actionBar = s.actionBar ∧ (SetGameMode env m s).hud = s.hud) := by
  refine ⟨?_, ?_, fun m => pageLoad_mem_newCalls env m s,
    fun m => pageUnload_bar_mem_newCalls env m s, ?_⟩
  · intro hm hr
    obtain ⟨e1, e2⟩ := SetGameMode_bars env GameMode.Game s
    rw [e1, e2]
    cases ha : s.actionBar.loaded <;> cases hh : s.hud.loaded <;> simp [ha, hh, hr, hm]
  · intro hm hr
    obtain ⟨e1, e2⟩ := SetGameMode_bars env GameMode.FrontEnd s
    rw [e1, e2]
    cases ha : s.actionBar.loaded <;> cases hh : s.hud.loaded <;> simp [ha, hh, hr, hm]
  · intro hr m
    obtain ⟨e1, e2⟩ := SetGameMode_bars env m s
    rw [e1, e2]
    simp [hr]

/-- C29 at sample states: from the front end with GUI rendering on, `SetGameMode(Game)` loads
the action bar and the HUD; with GUI rendering off it leaves the unloaded action bar unloaded
and the loaded HUD loaded. -/
theorem SetGameMode_action_bar_and_hud_witness :
    ((SetGameMode sampleEnv GameMode.Game frontEndState).actionBar.loaded = true ∧
      (SetGameMode sampleEnv GameMode.Game frontEndState).hud.loaded = true) ∧
    ((SetGameMode sampleEnv GameMode.Game noRenderState).actionBar = noRenderState.actionBar ∧
      (SetGameMode sampleEnv GameMode.Game noRenderState).hud = noRenderState.hud) :=
  ⟨(SetGameMode_action_bar_and_hud sampleEnv frontEndState).1 (Or.inl rfl) rfl,
    (SetGameMode_action_bar_and_hud sampleEnv noRenderState).2.2.2.2 rfl GameMode.Game⟩

end Vogue
